import Mathlib

/-!
# order-service: order lifecycle orchestrator and sequence generator

A shallow embedding of the Go sources

* `src/order/domain/entity/{errors,order_item}.go`
* `src/order/infrastructure/client/stock_client.go`
* `src/order/application/usecase/{confirm_order,create_order,release_stock}.go`
* `src/sales/application/service/sequence_service.go`
* `src/shared/domain/criteria/{criteria,request}.go`

Conventions.

* Go `error` values are `GoError`; a Go result `(*T, error)` is `Except GoError T`
  and a Go result `error` is `Option GoError`.
* Everything outside the process (order repository, HTTP gateway, SQL database,
  random ids, clock) acts on an abstract world `σ` that is threaded through
  every call; the behaviour of the outside is a parameter (`OrderRepository`,
  `Platform`, `SqlDB`), so a theorem quantified over these parameters holds for
  every behaviour of the repository, the gateway and the database.
* Every call that leaves the process is appended, with its arguments and its
  result, to a trace (`List Event`, `List SeqEvent`); "the code calls X n times"
  is a statement about that trace.
* Go's `int` is the 64 bit two's complement integer: arithmetic on it is
  `wrapInt` of the exact result.
* A `float64` is the rational number it holds, and `float64(n)` of an `int` is
  `float64OfInt n`, the nearest value with 53 significant binary digits; a
  `float64` quotient is the exact quotient rounded the same way (`float64Round`).
* The methods of the pointer receiver `*CriteriaBuilder` update the builder in
  place; here each returns the updated builder, and a chain of calls is a list
  of `BuilderCall`.
* Concurrent `NextNumber` calls are the interleavings of their SQL statements:
  each call is a state machine (`Caller`) whose steps are the two statements,
  run on a shared table in the order a schedule gives (`Contest`).
-/

namespace OrderService

/-! ## Go runtime values -/

/-- Go error values. `sentinel` is a package level variable (`var ErrX = errors.New(..)`),
whose identity is what `==` compares; `errorf` is a value freshly built by `fmt.Errorf`
without `%w`; `wrapf` is a value freshly built by `fmt.Errorf` with one `%w` operand,
`msg` being the whole formatted text and `cause` the operand. -/
inductive GoError where
  | sentinel (msg : String)
  | errorf (msg : String)
  | wrapf (msg : String) (cause : GoError)
deriving DecidableEq, Repr, Inhabited

/-- The method `Error()` of a Go error: its message. -/
def GoError.Error : GoError → String
  | .sentinel msg => msg
  | .errorf msg => msg
  | .wrapf msg _ => msg

/-- The method `Unwrap()`: the `%w` operand, when there is one. -/
def GoError.Unwrap : GoError → Option GoError
  | .sentinel _ => none
  | .errorf _ => none
  | .wrapf _ cause => some cause

/-- The library function `errors.Is(e, target)`: `target` occurs on the unwrap chain of `e`.
Go compares the errors of the chain with `target` by identity; a sentinel is identified by its
variable, and a value built by `fmt.Errorf`, which has no name, by its text and cause, so two
such values built apart with the same text count as the same value here and not in Go. -/
def GoError.Is : GoError → GoError → Bool
  | .sentinel msg, target => decide (GoError.sentinel msg = target)
  | .errorf msg, target => decide (GoError.errorf msg = target)
  | .wrapf msg cause, target => decide (GoError.wrapf msg cause = target) || cause.Is target

deriving instance DecidableEq for Except

/-- The least value of Go's `int`. -/
def minInt : Int := -(2 ^ 63)

/-- The greatest value of Go's `int`. -/
def maxInt : Int := 2 ^ 63 - 1

/-- Go's `int` arithmetic: the exact result reduced to 64 bit two's complement. -/
def wrapInt (x : Int) : Int := (x + 2 ^ 63) % 2 ^ 64 - 2 ^ 63

/-- A value of Go's `int`. -/
def IsGoInt (x : Int) : Prop := minInt ≤ x ∧ x ≤ maxInt

instance (x : Int) : Decidable (IsGoInt x) :=
  inferInstanceAs (Decidable (minInt ≤ x ∧ x ≤ maxInt))

/-- Modelled from the spec: the helper `contains` of package `usecase` (its file is not
among the sources) is the substring test, `contains(s, substr)` holding exactly when
`substr` occurs in `s` as a contiguous run. -/
def contains (s substr : String) : Bool :=
  s.data.tails.any (fun t => substr.data.isPrefixOf t)

/-- The caller's `context.Context`, reduced to what a callee can observe of it:
whether it is already cancelled or past its deadline. -/
structure Context where
  cancelled : Bool
deriving DecidableEq, Repr, Inhabited

/-! ## `entity` -/

/-- Source `errors.go`: `ErrTenantIDRequired`. -/
def ErrTenantIDRequired : GoError := .sentinel "tenant_id is required"

/-- Source `errors.go`: `ErrSKURequired`. -/
def ErrSKURequired : GoError := .sentinel "sku is required"

/-- Source `errors.go`: `ErrInvalidQuantity`. -/
def ErrInvalidQuantity : GoError := .sentinel "quantity must be greater than 0"

/-- Source `errors.go`: `ErrOrderNotFound`. -/
def ErrOrderNotFound : GoError := .sentinel "order not found"

/-- Source `errors.go`: `ErrOrderNotInCreatedState`. -/
def ErrOrderNotInCreatedState : GoError := .sentinel "order is not in CREATED state"

/-- Source `errors.go`: `ErrOrderNotInConfirmedState`. -/
def ErrOrderNotInConfirmedState : GoError := .sentinel "order is not in CONFIRMED state"

/-- Source `errors.go`: `ErrOrderMustHaveItems`. -/
def ErrOrderMustHaveItems : GoError := .sentinel "order must have at least one item"

/-- Source `order_item.go`: `type OrderItem struct`. -/
structure OrderItem where
  ItemID : String
  OrderID : String
  SKU : String
  Quantity : Int
deriving DecidableEq, Repr, Inhabited

/-- Modelled from the spec: `entity.OrderStatus` (declared in `order.go`, which is not among
the sources) is a string type, `string(order.Status)` being used in `create_order.go`; the
spec names its three values CREATED, CONFIRMED and CANCELLED. -/
abbrev OrderStatus := String

/-- Modelled from the spec: the constant `entity.OrderStatusCreated`, status CREATED. -/
def OrderStatusCreated : OrderStatus := "CREATED"

/-- Modelled from the spec: the constant `entity.OrderStatusConfirmed`, status CONFIRMED. -/
def OrderStatusConfirmed : OrderStatus := "CONFIRMED"

/-- Modelled from the spec: the constant `entity.OrderStatusCancelled`, status CANCELLED. -/
def OrderStatusCancelled : OrderStatus := "CANCELLED"

/-- Modelled from the spec: `entity.Order` (declared in `order.go`, which is not among the
sources), the aggregate root with `order_id`, `tenant_id`, `status`, `created_at` and the
ordered sequence of items; the sources use its fields `OrderID`, `Status` and `Items`. -/
structure Order where
  OrderID : String
  TenantID : String
  Status : OrderStatus
  CreatedAt : Nat
  Items : List OrderItem
deriving DecidableEq, Repr, Inhabited

/-! ## `client`: the stock gateway client -/

/-- Source `stock_client.go`: `type StockConsumeRequest struct`. -/
structure StockConsumeRequest where
  SKU : String
  Quantity : Int
  Reference : String
deriving DecidableEq, Repr, Inhabited

/-- Source `stock_client.go`: `type StockConsumeResponse struct`. -/
structure StockConsumeResponse where
  SKU : String
  ConsumedQty : Int
  ReservedQty : Int
  Reference : String
deriving DecidableEq, Repr, Inhabited

/-- A JSON scalar of a request body. -/
inductive JsonValue where
  | str (s : String)
  | num (n : Int)
deriving DecidableEq, Repr, Inhabited

/-- The document `json.Marshal(reqBody)` produces for a `StockConsumeRequest`, as the list of
its members in field order with their `json:"..."` names (`json.Marshal` cannot fail on a
struct of two strings and an int). -/
def StockConsumeRequest.marshal (r : StockConsumeRequest) : List (String × JsonValue) :=
  [("sku", .str r.SKU), ("quantity", .num r.Quantity), ("reference", .str r.Reference)]

/-- Source `stock_client.go`: `type StockAvailabilityResponse struct`. A `float64` field is
the rational number it holds: a number decoded from JSON is finite, and the order of finite
`float64` values is the order of the rationals they denote. -/
structure StockAvailabilityResponse where
  VariantSKU : String
  ProductSKU : String
  AvailableQuantity : ℚ
  ReservedQuantity : ℚ
  TotalQuantity : ℚ
  IsOutOfStock : Bool
  IsLowStock : Bool
deriving DecidableEq

/-- Source `stock_client.go`: `type StockReserveRequest struct`. -/
structure StockReserveRequest where
  SKU : String
  Quantity : Int
  Reference : String
deriving DecidableEq, Repr, Inhabited

/-- Source `stock_client.go`: `type StockReserveResponse struct`. -/
structure StockReserveResponse where
  SKU : String
  ReservedQty : Int
  RemainingQty : Int
  Reference : String
deriving DecidableEq, Repr, Inhabited

/-- Source `stock_client.go`: `type StockReleaseRequest struct`. -/
structure StockReleaseRequest where
  SKU : String
  Quantity : Int
  Reference : String
deriving DecidableEq, Repr, Inhabited

/-- Source `stock_client.go`: `type StockReleaseResponse struct`. -/
structure StockReleaseResponse where
  SKU : String
  ReleasedQty : Int
  AvailableQty : Int
  ReservedQty : Int
  Reference : String
deriving DecidableEq, Repr, Inhabited

/-- Source `stock_client.go`: `type StockRevertConsumeRequest struct`. -/
structure StockRevertConsumeRequest where
  SKU : String
  Quantity : Int
  Reference : String
deriving DecidableEq, Repr, Inhabited

/-- Source `stock_client.go`: `type StockRevertConsumeResponse struct`. -/
structure StockRevertConsumeResponse where
  SKU : String
  RevertedQty : Int
  AvailableQty : Int
  Reference : String
deriving DecidableEq, Repr, Inhabited

/-- The document `json.Marshal(reqBody)` produces for a `StockReserveRequest`. -/
def StockReserveRequest.marshal (r : StockReserveRequest) : List (String × JsonValue) :=
  [("sku", .str r.SKU), ("quantity", .num r.Quantity), ("reference", .str r.Reference)]

/-- The document `json.Marshal(reqBody)` produces for a `StockReleaseRequest`. -/
def StockReleaseRequest.marshal (r : StockReleaseRequest) : List (String × JsonValue) :=
  [("sku", .str r.SKU), ("quantity", .num r.Quantity), ("reference", .str r.Reference)]

/-- The document `json.Marshal(reqBody)` produces for a `StockRevertConsumeRequest`. -/
def StockRevertConsumeRequest.marshal (r : StockRevertConsumeRequest) :
    List (String × JsonValue) :=
  [("sku", .str r.SKU), ("quantity", .num r.Quantity), ("reference", .str r.Reference)]

/-- The member of a JSON document with the given name. -/
def jsonMember (doc : List (String × JsonValue)) (name : String) : Option JsonValue :=
  (doc.find? (fun m => m.1 = name)).map (fun m => m.2)

/-- The number of binary digits by which a natural number below `2 ^ 64` exceeds the 53 digits
of a `float64` mantissa. -/
def float64Shift (n : Nat) : Nat :=
  ((List.range 11).filter (fun s => 2 ^ (53 + s) ≤ n)).length

/-- The natural number nearest to `n` with at most 53 significant binary digits, ties going to
the even mantissa: the value of the Go conversion `float64(n)` for `0 ≤ n ≤ 2 ^ 63`. -/
def roundFloat64 (n : Nat) : Nat :=
  let shift := float64Shift n
  if shift = 0 then n
  else
    let q := n / 2 ^ shift
    let rest := n % 2 ^ shift
    let half := 2 ^ (shift - 1)
    if half < rest ∨ (rest = half ∧ q % 2 = 1) then (q + 1) * 2 ^ shift else q * 2 ^ shift

/-- The Go conversion `float64(quantity)` of an `int`, as the rational it yields. -/
def float64OfInt (n : Int) : ℚ :=
  if n < 0 then -((roundFloat64 n.natAbs : Nat) : ℚ) else ((roundFloat64 n.natAbs : Nat) : ℚ)

/-- An outgoing `*http.Request`: method, URL, the headers in the order of the `Header.Set`
calls (keys as written in the source) and the JSON document of the body. -/
structure HttpRequest where
  method : String
  url : String
  headers : List (String × String)
  body : Option (List (String × JsonValue))
deriving DecidableEq, Repr, Inhabited

/-- What the code reads of an `*http.Response`: `StatusCode`, and the result of
`io.ReadAll(resp.Body)`, either the whole body (shown as text, as `string(body)` does) or a
read failure. -/
structure HttpResponse where
  StatusCode : Int
  Body : Except GoError String
deriving DecidableEq

/-- Source `net/http`: `http.StatusOK`. -/
def StatusOK : Int := 200

/-- Source `net/http`: `http.StatusConflict`. -/
def StatusConflict : Int := 409

/-- The libraries and the remote side the code runs against, over the world `σ`:
`NewRequest method url` is the error of `http.NewRequest` (an invalid method or an URL that
does not parse), `Do` is `httpClient.Do` (the gateway, the network and the client's ten
second timeout), `UnmarshalConsume` is `json.Unmarshal` into a `StockConsumeResponse` and
likewise the other four decoders, `uuidNew` is `uuid.New().String()` and `timeNow` the
clock. -/
structure Platform (σ : Type) where
  NewRequest : String → String → Option GoError
  Do : HttpRequest → σ → Except GoError HttpResponse × σ
  UnmarshalConsume : String → Except GoError StockConsumeResponse
  uuidNew : σ → String × σ
  timeNow : σ → Nat × σ
  UnmarshalAvailability : String → Except GoError StockAvailabilityResponse
  UnmarshalReserve : String → Except GoError StockReserveResponse
  UnmarshalRelease : String → Except GoError StockReleaseResponse
  UnmarshalRevertConsume : String → Except GoError StockRevertConsumeResponse

/-- Modelled from the spec: `port.OrderRepository` (an interface declared in package `port`,
which is not among the sources) with the operations the use cases call. `Save` persists the
aggregate it is given and `FindByID` returns either an error or the loaded aggregate; neither
`Save` nor `Confirm` changes the aggregate the caller holds. -/
structure OrderRepository (σ : Type) where
  Save : Context → Order → σ → Option GoError × σ
  FindByID : Context → String → String → σ → Except GoError Order × σ
  Confirm : Context → String → String → σ → Option GoError × σ

/-- Everything that leaves the process during a use case, with its result. -/
inductive Event where
  | FindByID (orderID tenantID : String) (result : Except GoError Order)
  | Confirm (orderID tenantID : String) (result : Option GoError)
  | Save (order : Order) (result : Option GoError)
  | ConsumeStock (tenantID authToken sku : String) (quantity : Int) (reference : String)
      (result : Except GoError StockConsumeResponse)
  | HttpDo (req : HttpRequest) (result : Except GoError HttpResponse)
deriving DecidableEq

/-- Source `stock_client.go`: `type StockClient struct` (the `httpClient` field is
`Platform.Do`). -/
structure StockClient where
  kongURL : String
  stockPath : String
deriving DecidableEq, Repr, Inhabited

/-- The request `ConsumeStock` builds: `POST <kongURL><stockPath>/api/v1/consume` with the
content type, the tenant header, the `Authorization` header when the token is not empty, and
the marshalled `StockConsumeRequest`. -/
def StockClient.consumeRequest (c : StockClient) (tenantID authToken sku : String)
    (quantity : Int) (reference : String) : HttpRequest :=
  { method := "POST"
    url := c.kongURL ++ c.stockPath ++ "/api/v1/consume"
    headers :=
      [("Content-Type", "application/json"), ("X-Tenant-ID", tenantID)] ++
        (if authToken ≠ "" then [("Authorization", authToken)] else [])
    body := some (StockConsumeRequest.marshal ⟨sku, quantity, reference⟩) }

/-- Source `stock_client.go`: what `ConsumeStock` does with the outcome of `httpClient.Do`,
lines 319-345: transport failure, read failure, conflict status, any other status than 200,
malformed body, success. -/
def StockClient.consumeResult {σ : Type} (p : Platform σ) :
    Except GoError HttpResponse → Except GoError StockConsumeResponse
  | .error err => .error (.wrapf ("error calling stock-service: " ++ err.Error) err)
  | .ok resp =>
    match resp.Body with
    | .error err => .error (.wrapf ("error reading response: " ++ err.Error) err)
    | .ok body =>
      if resp.StatusCode = StatusConflict then
        .error (.errorf ("insufficient reserved stock: " ++ body))
      else if resp.StatusCode ≠ StatusOK then
        .error (.errorf ("stock-service returned status " ++ toString resp.StatusCode ++ ": " ++ body))
      else
        match p.UnmarshalConsume body with
        | .error err => .error (.wrapf ("error unmarshalling response: " ++ err.Error) err)
        | .ok stockResp => .ok stockResp

/-- Source `stock_client.go`: `func (c *StockClient) ConsumeStock`. Returns the result, the
HTTP exchanges it performed (none when `http.NewRequest` fails, one otherwise) and the new
world. -/
def StockClient.ConsumeStock {σ : Type} (c : StockClient) (p : Platform σ)
    (tenantID authToken sku : String) (quantity : Int) (reference : String) (w : σ) :
    Except GoError StockConsumeResponse × List Event × σ :=
  let req := c.consumeRequest tenantID authToken sku quantity reference
  match p.NewRequest req.method req.url with
  | some err => (.error (.wrapf ("error creating request: " ++ err.Error) err), [], w)
  | none =>
    let out := p.Do req w
    (StockClient.consumeResult p out.1, [Event.HttpDo req out.1], out.2)

/-- The headers every client call sets after the content type: the tenant, and the
`Authorization` header when the token is not empty. -/
def tenantHeaders (tenantID authToken : String) : List (String × String) :=
  [("X-Tenant-ID", tenantID)] ++ (if authToken ≠ "" then [("Authorization", authToken)] else [])

/-- The request `ValidateStock` builds: `GET <kongURL><stockPath>/api/v1/availability?sku=<sku>`
without a body. -/
def StockClient.availabilityRequest (c : StockClient) (tenantID authToken sku : String) :
    HttpRequest :=
  { method := "GET"
    url := c.kongURL ++ c.stockPath ++ "/api/v1/availability?sku=" ++ sku
    headers := tenantHeaders tenantID authToken
    body := none }

/-- Source `stock_client.go`: what `ValidateStock` does with the outcome of `httpClient.Do`,
lines 133-159. The Go result `(*StockAvailabilityResponse, bool, error)` is the triple of the
snapshot (if any), the flag and the error (if any). -/
def StockClient.validateResult {σ : Type} (p : Platform σ) (quantity : Int) :
    Except GoError HttpResponse → Option StockAvailabilityResponse × Bool × Option GoError
  | .error err => (none, false, some (.wrapf ("error calling stock-service: " ++ err.Error) err))
  | .ok resp =>
    match resp.Body with
    | .error err => (none, false, some (.wrapf ("error reading response: " ++ err.Error) err))
    | .ok body =>
      if resp.StatusCode ≠ StatusOK then
        (none, false, some (.errorf
          ("stock-service returned status " ++ toString resp.StatusCode ++ ": " ++ body)))
      else
        match p.UnmarshalAvailability body with
        | .error err =>
          (none, false, some (.wrapf ("error unmarshalling response: " ++ err.Error) err))
        | .ok stockResp =>
          (some stockResp, decide (float64OfInt quantity ≤ stockResp.AvailableQuantity), none)

/-- Source `stock_client.go`: `func (c *StockClient) ValidateStock`. -/
def StockClient.ValidateStock {σ : Type} (c : StockClient) (p : Platform σ)
    (tenantID authToken sku : String) (quantity : Int) (w : σ) :
    (Option StockAvailabilityResponse × Bool × Option GoError) × List Event × σ :=
  let req := c.availabilityRequest tenantID authToken sku
  match p.NewRequest req.method req.url with
  | some err =>
    ((none, false, some (.wrapf ("error creating request: " ++ err.Error) err)), [], w)
  | none =>
    let out := p.Do req w
    (StockClient.validateResult p quantity out.1, [Event.HttpDo req out.1], out.2)

/-- The request `ReserveStock` builds: `POST <kongURL><stockPath>/api/v1/reserve`. -/
def StockClient.reserveRequest (c : StockClient) (tenantID authToken sku : String)
    (quantity : Int) (reference : String) : HttpRequest :=
  { method := "POST"
    url := c.kongURL ++ c.stockPath ++ "/api/v1/reserve"
    headers := ("Content-Type", "application/json") :: tenantHeaders tenantID authToken
    body := some (StockReserveRequest.marshal ⟨sku, quantity, reference⟩) }

/-- Source `stock_client.go`: what `ReserveStock` does with the outcome of `httpClient.Do`,
lines 195-221. -/
def StockClient.reserveResult {σ : Type} (p : Platform σ) :
    Except GoError HttpResponse → Except GoError StockReserveResponse
  | .error err => .error (.wrapf ("error calling stock-service: " ++ err.Error) err)
  | .ok resp =>
    match resp.Body with
    | .error err => .error (.wrapf ("error reading response: " ++ err.Error) err)
    | .ok body =>
      if resp.StatusCode = StatusConflict then
        .error (.errorf ("insufficient stock: " ++ body))
      else if resp.StatusCode ≠ StatusOK then
        .error (.errorf ("stock-service returned status " ++ toString resp.StatusCode ++ ": " ++ body))
      else
        match p.UnmarshalReserve body with
        | .error err => .error (.wrapf ("error unmarshalling response: " ++ err.Error) err)
        | .ok stockResp => .ok stockResp

/-- Source `stock_client.go`: `func (c *StockClient) ReserveStock`. -/
def StockClient.ReserveStock {σ : Type} (c : StockClient) (p : Platform σ)
    (tenantID authToken sku : String) (quantity : Int) (reference : String) (w : σ) :
    Except GoError StockReserveResponse × List Event × σ :=
  let req := c.reserveRequest tenantID authToken sku quantity reference
  match p.NewRequest req.method req.url with
  | some err => (.error (.wrapf ("error creating request: " ++ err.Error) err), [], w)
  | none =>
    let out := p.Do req w
    (StockClient.reserveResult p out.1, [Event.HttpDo req out.1], out.2)

/-- The request `ReleaseStock` builds: `POST <kongURL><stockPath>/api/v1/release`. -/
def StockClient.releaseRequest (c : StockClient) (tenantID authToken sku : String)
    (quantity : Int) (reference : String) : HttpRequest :=
  { method := "POST"
    url := c.kongURL ++ c.stockPath ++ "/api/v1/release"
    headers := ("Content-Type", "application/json") :: tenantHeaders tenantID authToken
    body := some (StockReleaseRequest.marshal ⟨sku, quantity, reference⟩) }

/-- Source `stock_client.go`: what `ReleaseStock` does with the outcome of `httpClient.Do`,
lines 257-283. -/
def StockClient.releaseResult {σ : Type} (p : Platform σ) :
    Except GoError HttpResponse → Except GoError StockReleaseResponse
  | .error err => .error (.wrapf ("error calling stock-service: " ++ err.Error) err)
  | .ok resp =>
    match resp.Body with
    | .error err => .error (.wrapf ("error reading response: " ++ err.Error) err)
    | .ok body =>
      if resp.StatusCode = StatusConflict then
        .error (.errorf ("insufficient reserved stock: " ++ body))
      else if resp.StatusCode ≠ StatusOK then
        .error (.errorf ("stock-service returned status " ++ toString resp.StatusCode ++ ": " ++ body))
      else
        match p.UnmarshalRelease body with
        | .error err => .error (.wrapf ("error unmarshalling response: " ++ err.Error) err)
        | .ok stockResp => .ok stockResp

/-- Source `stock_client.go`: `func (c *StockClient) ReleaseStock`. -/
def StockClient.ReleaseStock {σ : Type} (c : StockClient) (p : Platform σ)
    (tenantID authToken sku : String) (quantity : Int) (reference : String) (w : σ) :
    Except GoError StockReleaseResponse × List Event × σ :=
  let req := c.releaseRequest tenantID authToken sku quantity reference
  match p.NewRequest req.method req.url with
  | some err => (.error (.wrapf ("error creating request: " ++ err.Error) err), [], w)
  | none =>
    let out := p.Do req w
    (StockClient.releaseResult p out.1, [Event.HttpDo req out.1], out.2)

/-- The request `RevertConsume` builds: `POST <kongURL><stockPath>/api/v1/revert-consume`. -/
def StockClient.revertConsumeRequest (c : StockClient) (tenantID authToken sku : String)
    (quantity : Int) (reference : String) : HttpRequest :=
  { method := "POST"
    url := c.kongURL ++ c.stockPath ++ "/api/v1/revert-consume"
    headers := ("Content-Type", "application/json") :: tenantHeaders tenantID authToken
    body := some (StockRevertConsumeRequest.marshal ⟨sku, quantity, reference⟩) }

/-- Source `stock_client.go`: what `RevertConsume` does with the outcome of `httpClient.Do`,
lines 381-404; it has no branch for the conflict status. -/
def StockClient.revertConsumeResult {σ : Type} (p : Platform σ) :
    Except GoError HttpResponse → Except GoError StockRevertConsumeResponse
  | .error err => .error (.wrapf ("error calling stock-service: " ++ err.Error) err)
  | .ok resp =>
    match resp.Body with
    | .error err => .error (.wrapf ("error reading response: " ++ err.Error) err)
    | .ok body =>
      if resp.StatusCode ≠ StatusOK then
        .error (.errorf ("stock-service returned status " ++ toString resp.StatusCode ++ ": " ++ body))
      else
        match p.UnmarshalRevertConsume body with
        | .error err => .error (.wrapf ("error unmarshalling response: " ++ err.Error) err)
        | .ok stockResp => .ok stockResp

/-- Source `stock_client.go`: `func (c *StockClient) RevertConsume`. -/
def StockClient.RevertConsume {σ : Type} (c : StockClient) (p : Platform σ)
    (tenantID authToken sku : String) (quantity : Int) (reference : String) (w : σ) :
    Except GoError StockRevertConsumeResponse × List Event × σ :=
  let req := c.revertConsumeRequest tenantID authToken sku quantity reference
  match p.NewRequest req.method req.url with
  | some err => (.error (.wrapf ("error creating request: " ++ err.Error) err), [], w)
  | none =>
    let out := p.Do req w
    (StockClient.revertConsumeResult p out.1, [Event.HttpDo req out.1], out.2)

/-! ## `usecase`: release -/

/-- Modelled from the spec: `request.ReleaseStockRequest` (package `request` is not among the
sources); `release_stock.go` reads its fields `SKU`, `Quantity` and `Reference`. -/
structure ReleaseStockRequest where
  SKU : String
  Quantity : Int
  Reference : String
deriving DecidableEq, Repr, Inhabited

/-- Modelled from the spec: `response.ReleaseStockResponse` (its file is not among the
sources), with the fields `release_stock.go` fills. -/
structure ReleaseStockResponse where
  Released : Bool
  SKU : String
  Quantity : Int
  Reference : String
deriving DecidableEq, Repr, Inhabited

/-- Source `release_stock.go`: `type ReleaseStockUseCase struct`. -/
structure ReleaseStockUseCase where
  stockClient : StockClient
deriving DecidableEq, Repr, Inhabited

/-- Source `release_stock.go`: `func (uc *ReleaseStockUseCase) Execute`. -/
def ReleaseStockUseCase.Execute {σ : Type} (uc : ReleaseStockUseCase) (p : Platform σ)
    (tenantID authToken : String) (req : ReleaseStockRequest) (w : σ) :
    Except GoError ReleaseStockResponse × List Event × σ :=
  let out := uc.stockClient.ReleaseStock p tenantID authToken req.SKU req.Quantity req.Reference w
  match out.1 with
  | .error err =>
    if contains err.Error "insufficient reserved stock" || contains err.Error "409" then
      (.error (.wrapf ("insufficient_reserved_stock: " ++ err.Error) err), out.2.1, out.2.2)
    else
      (.error (.wrapf ("error releasing stock: " ++ err.Error) err), out.2.1, out.2.2)
  | .ok stockResp =>
    (.ok { Released := true, SKU := stockResp.SKU, Quantity := stockResp.ReleasedQty,
           Reference := stockResp.Reference }, out.2.1, out.2.2)

/-! ## `usecase`: confirm -/

/-- Source `confirm_order.go`: `type ConfirmOrderUseCase struct`. -/
structure ConfirmOrderUseCase (σ : Type) where
  orderRepo : OrderRepository σ
  stockClient : StockClient

/-- Source `confirm_order.go`, lines 39-49: the loop `for _, item := range order.Items`.
Returns the error the loop leaves `Execute` with (`none` when it runs to its end), the trace
and the new world. -/
def ConfirmOrderUseCase.consumeItems {σ : Type} (uc : ConfirmOrderUseCase σ) (p : Platform σ)
    (tenantID authToken reference : String) : List OrderItem → σ → Option GoError × List Event × σ
  | [], w => (none, [], w)
  | item :: rest, w =>
    let out := uc.stockClient.ConsumeStock p tenantID authToken item.SKU item.Quantity reference w
    let call := Event.ConsumeStock tenantID authToken item.SKU item.Quantity reference out.1
    match out.1 with
    | .error err =>
      if contains err.Error "insufficient reserved stock" then
        (some (.wrapf ("insufficient_reserved_stock for SKU " ++ item.SKU ++ ": " ++ err.Error) err),
          call :: out.2.1, out.2.2)
      else
        (some (.wrapf ("error consuming stock for SKU " ++ item.SKU ++ ": " ++ err.Error) err),
          call :: out.2.1, out.2.2)
    | .ok _ =>
      let more := consumeItems uc p tenantID authToken reference rest out.2.2
      (more.1, call :: out.2.1 ++ more.2.1, more.2.2)

/-- Source `confirm_order.go`: `func (uc *ConfirmOrderUseCase) Execute`. Returns the Go result
`(*entity.Order, error)`, the trace of the calls it made, and the new world. -/
def ConfirmOrderUseCase.Execute {σ : Type} (uc : ConfirmOrderUseCase σ) (p : Platform σ)
    (ctx : Context) (tenantID authToken orderID reference : String) (w : σ) :
    Except GoError Order × List Event × σ :=
  let found := uc.orderRepo.FindByID ctx orderID tenantID w
  let ev := Event.FindByID orderID tenantID found.1
  match found.1 with
  | .error _ => (.error ErrOrderNotFound, [ev], found.2)
  | .ok order =>
    if order.Status ≠ OrderStatusCreated then
      (.error ErrOrderNotInCreatedState, [ev], found.2)
    else
      let consumed := uc.consumeItems p tenantID authToken reference order.Items found.2
      match consumed.1 with
      | some err => (.error err, ev :: consumed.2.1, consumed.2.2)
      | none =>
        let confirmed := uc.orderRepo.Confirm ctx orderID tenantID consumed.2.2
        let evc := Event.Confirm orderID tenantID confirmed.1
        match confirmed.1 with
        | some err =>
          (.error (.wrapf ("error confirming order: " ++ err.Error) err),
            ev :: consumed.2.1 ++ [evc], confirmed.2)
        | none =>
          (.ok { order with Status := OrderStatusConfirmed },
            ev :: consumed.2.1 ++ [evc], confirmed.2)

/-- The stock client serving the `ConsumeStock` calls for the given items one after the
other, each on the world the previous one has left: the world after the last call when every
call succeeds, `none` when one of them fails. -/
def StockClient.consumeAll {σ : Type} (c : StockClient) (p : Platform σ)
    (tenantID authToken reference : String) : List OrderItem → σ → Option σ
  | [], w => some w
  | item :: rest, w =>
    match (c.ConsumeStock p tenantID authToken item.SKU item.Quantity reference w).1 with
    | .ok _ =>
      consumeAll c p tenantID authToken reference rest
        (c.ConsumeStock p tenantID authToken item.SKU item.Quantity reference w).2.2
    | .error _ => none

/-! ## `usecase`: create -/

/-- Modelled from the spec: an element of `request.CreateOrderRequest.Items` (package
`request` is not among the sources); `create_order.go` reads its fields `SKU` and
`Quantity`. -/
structure CreateOrderItemRequest where
  SKU : String
  Quantity : Int
deriving DecidableEq, Repr, Inhabited

/-- Modelled from the spec: `request.CreateOrderRequest` (package `request` is not among the
sources); `create_order.go` reads its field `Items`. -/
structure CreateOrderRequest where
  Items : List CreateOrderItemRequest
deriving DecidableEq, Repr, Inhabited

/-- Modelled from the spec: `response.CreateOrderItemResponse` (its file is not among the
sources), with the fields `create_order.go` fills. -/
structure CreateOrderItemResponse where
  ItemID : String
  SKU : String
  Quantity : Int
deriving DecidableEq, Repr, Inhabited

/-- Modelled from the spec: `response.CreateOrderResponse` (its file is not among the
sources), with the fields `create_order.go` fills. -/
structure CreateOrderResponse where
  OrderID : String
  Items : List CreateOrderItemResponse
  TotalItems : Int
  Status : String
deriving DecidableEq, Repr, Inhabited

/-- Source `order_item.go`: `func NewOrderItem`. The item id is drawn from `uuid.New()` only
on the success path. -/
def NewOrderItem {σ : Type} (p : Platform σ) (orderID sku : String) (quantity : Int) (w : σ) :
    Except GoError OrderItem × σ :=
  if sku = "" then (.error ErrSKURequired, w)
  else if quantity ≤ 0 then (.error ErrInvalidQuantity, w)
  else
    let id := p.uuidNew w
    (.ok { ItemID := id.1, OrderID := orderID, SKU := sku, Quantity := quantity }, id.2)

/-- Modelled from the spec: `entity.NewOrder` (defined in `order.go`, which is not among the
sources). The spec has `tenant_id` non-empty, at least one item, and the aggregate built in
status CREATED with the items it was given, in their order; `errors.go` holds the two
validation errors. The spec does not say which of the two checks comes first, nor whether the
constructor rewrites the items' `order_id`; the items are kept as given. -/
def NewOrder {σ : Type} (p : Platform σ) (tenantID : String) (items : List OrderItem) (w : σ) :
    Except GoError Order × σ :=
  if tenantID = "" then (.error ErrTenantIDRequired, w)
  else if items.length = 0 then (.error ErrOrderMustHaveItems, w)
  else
    let id := p.uuidNew w
    let now := p.timeNow id.2
    (.ok { OrderID := id.1, TenantID := tenantID, Status := OrderStatusCreated,
           CreatedAt := now.1, Items := items }, now.2)

/-- Source `create_order.go`: `type CreateOrderUseCase struct`. -/
structure CreateOrderUseCase (σ : Type) where
  orderRepo : OrderRepository σ

/-- Source `create_order.go`, lines 27-34: the loop building `items`; `items` is the slice
built so far. Returns the error the loop leaves `Execute` with, or the finished slice. -/
def CreateOrderUseCase.buildItems {σ : Type} (p : Platform σ) :
    List CreateOrderItemRequest → List OrderItem → σ → Except GoError (List OrderItem) × σ
  | [], items, w => (.ok items, w)
  | itemReq :: rest, items, w =>
    let made := NewOrderItem p "" itemReq.SKU itemReq.Quantity w
    match made.1 with
    | .error err => (.error (.wrapf ("error creating order item: " ++ err.Error) err), made.2)
    | .ok item => buildItems p rest (items ++ [item]) made.2

/-- Source `create_order.go`: `func (uc *CreateOrderUseCase) Execute`. -/
def CreateOrderUseCase.Execute {σ : Type} (uc : CreateOrderUseCase σ) (p : Platform σ)
    (ctx : Context) (tenantID : String) (req : CreateOrderRequest) (w : σ) :
    Except GoError CreateOrderResponse × List Event × σ :=
  let built := CreateOrderUseCase.buildItems p req.Items [] w
  match built.1 with
  | .error err => (.error err, [], built.2)
  | .ok items =>
    let made := NewOrder p tenantID items built.2
    match made.1 with
    | .error err =>
      (.error (.wrapf ("error creating order entity: " ++ err.Error) err), [], made.2)
    | .ok order =>
      let saved := uc.orderRepo.Save ctx order made.2
      let ev := Event.Save order saved.1
      match saved.1 with
      | some err => (.error (.wrapf ("error saving order: " ++ err.Error) err), [ev], saved.2)
      | none =>
        let itemsResp : List CreateOrderItemResponse :=
          order.Items.map (fun item =>
            { ItemID := item.ItemID, SKU := item.SKU, Quantity := item.Quantity })
        (.ok { OrderID := order.OrderID, Items := itemsResp,
               TotalItems := (order.Items.length : Int), Status := order.Status },
          [ev], saved.2)

/-! ## `service`: the sequence generator -/

/-- Source `database/sql`: `sql.ErrNoRows`. -/
def sqlErrNoRows : GoError := .sentinel "sql: no rows in result set"

/-- Source `sequence_service.go`: `var ErrConcurrentUpdate`. -/
def ErrConcurrentUpdate : GoError := .sentinel "concurrent update detected"

/-- Source `sequence_service.go`: `const maxRetries = 5`. -/
def maxRetries : Nat := 5

/-- The database handle `*sql.DB`, reduced to the two statements the service runs.
`QueryRowScan ctx tenantID documentType` is `querySel` followed by `Scan`: the pair
`(current_number, version)` or an error (`sql.ErrNoRows` when there is no row).
`Exec ctx newNumber newVersion tenantID documentType version` is `queryUpd`: an error, or a
result whose `RowsAffected()` is an error or a count. The column `updated_at`, written with
`time.Now()`, is not part of the model. -/
structure SqlDB (σ : Type) where
  QueryRowScan : Context → String → String → σ → Except GoError (Int × Int) × σ
  Exec : Context → Int → Int → String → String → Int → σ →
    Except GoError (Except GoError Int) × σ

/-- Everything that leaves the process during a `NextNumber` call, with its result;
`Sleep ms` is `time.Sleep` of `ms` milliseconds. -/
inductive SeqEvent where
  | QueryRow (tenantID documentType : String) (result : Except GoError (Int × Int))
  | Exec (newNumber newVersion : Int) (tenantID documentType : String) (version : Int)
      (result : Except GoError (Except GoError Int))
  | Sleep (ms : Nat)
deriving DecidableEq

/-- Source `sequence_service.go`: `type SequenceService struct`. -/
structure SequenceService (σ : Type) where
  db : SqlDB σ

/-- Source `sequence_service.go`: `func (s *SequenceService) tryGetNextNumber`. The Go result
`(int, error)` is the pair of the number and the error. -/
def SequenceService.tryGetNextNumber {σ : Type} (s : SequenceService σ) (ctx : Context)
    (tenantID documentType : String) (w : σ) : (Int × Option GoError) × List SeqEvent × σ :=
  let sel := s.db.QueryRowScan ctx tenantID documentType w
  let evq := SeqEvent.QueryRow tenantID documentType sel.1
  match sel.1 with
  | .error err =>
    if err = sqlErrNoRows then
      ((0, some (.errorf ("sequence not found for tenant " ++ tenantID ++ ", document_type " ++
        documentType))), [evq], sel.2)
    else
      ((0, some (.wrapf ("error reading sequence: " ++ err.Error) err)), [evq], sel.2)
  | .ok (currentNumber, version) =>
    let newNumber := wrapInt (currentNumber + 1)
    let newVersion := wrapInt (version + 1)
    let upd := s.db.Exec ctx newNumber newVersion tenantID documentType version sel.2
    let evu := SeqEvent.Exec newNumber newVersion tenantID documentType version upd.1
    match upd.1 with
    | .error err =>
      ((0, some (.wrapf ("error updating sequence: " ++ err.Error) err)), [evq, evu], upd.2)
    | .ok (.error err) =>
      ((0, some (.wrapf ("error checking rows affected: " ++ err.Error) err)), [evq, evu], upd.2)
    | .ok (.ok rowsAffected) =>
      if rowsAffected = 0 then ((0, some ErrConcurrentUpdate), [evq, evu], upd.2)
      else ((newNumber, none), [evq, evu], upd.2)

/-- Source `sequence_service.go`, lines 28-47: the loop of `NextNumber` with `remaining`
iterations left, that is with `attempt = maxRetries - remaining`; with none left, the
statement after the loop. -/
def SequenceService.nextNumberLoop {σ : Type} (s : SequenceService σ) (ctx : Context)
    (tenantID documentType : String) : Nat → σ → (Int × Option GoError) × List SeqEvent × σ
  | 0, w =>
    ((0, some (.errorf ("failed to get next number after " ++ toString maxRetries ++ " retries"))),
      [], w)
  | remaining + 1, w =>
    let attempt := maxRetries - (remaining + 1)
    let tried := s.tryGetNextNumber ctx tenantID documentType w
    match tried.1.2 with
    | none => ((tried.1.1, none), tried.2.1, tried.2.2)
    | some err =>
      if err ≠ ErrConcurrentUpdate then ((0, some err), tried.2.1, tried.2.2)
      else if attempt < maxRetries - 1 then
        let more := nextNumberLoop s ctx tenantID documentType remaining tried.2.2
        (more.1, tried.2.1 ++ SeqEvent.Sleep ((attempt + 1) * 10) :: more.2.1, more.2.2)
      else
        let more := nextNumberLoop s ctx tenantID documentType remaining tried.2.2
        (more.1, tried.2.1 ++ more.2.1, more.2.2)

/-- Source `sequence_service.go`: `func (s *SequenceService) NextNumber`. -/
def SequenceService.NextNumber {σ : Type} (s : SequenceService σ) (ctx : Context)
    (tenantID documentType : String) (w : σ) : (Int × Option GoError) × List SeqEvent × σ :=
  s.nextNumberLoop ctx tenantID documentType maxRetries w

/-- Successive `NextNumber` calls by one caller: the results in call order and the final
world. -/
def SequenceService.callN {σ : Type} (s : SequenceService σ) (ctx : Context)
    (tenantID documentType : String) : Nat → σ → List (Int × Option GoError) × σ
  | 0, w => ([], w)
  | k + 1, w =>
    let r := s.NextNumber ctx tenantID documentType w
    let rest := callN s ctx tenantID documentType k r.2.2
    (r.1 :: rest.1, rest.2)

/-! ### The sequence table as a map -/

/-- A row of `document_sequences` without its key: `current_number` and `version`. -/
structure SequenceRow where
  current_number : Int
  version : Int
deriving DecidableEq, Repr, Inhabited

/-- The table `document_sequences`: a map from `(tenant_id, document_type)` to the row. -/
abbrev SequenceStore := String × String → Option SequenceRow

/-- The database as this session sees it: the table, and what the other sessions do to it.
Before each statement of this session the writes the others commit in the meantime are
applied, one entry of `others` per statement; `others = []` means no other writer. -/
structure SeqWorld where
  store : SequenceStore
  others : List (SequenceStore → SequenceStore)

/-- The other sessions' writes that commit before this session's next statement. -/
def SeqWorld.advance (w : SeqWorld) : SeqWorld :=
  match w.others with
  | [] => w
  | f :: rest => { store := f w.store, others := rest }

/-- The statement `querySel`: `SELECT current_number, version ... WHERE tenant_id = $1 AND
document_type = $2` on the table. -/
def selectSequence (st : SequenceStore) (tenantID documentType : String) :
    Except GoError (Int × Int) :=
  match st (tenantID, documentType) with
  | none => .error sqlErrNoRows
  | some row => .ok (row.current_number, row.version)

/-- The statement `queryUpd`: `UPDATE ... SET current_number = $1, version = $2 ... WHERE
tenant_id = $4 AND document_type = $5 AND version = $6` on the table: the new table and the
number of rows affected. -/
def updateSequence (st : SequenceStore) (newNumber newVersion : Int)
    (tenantID documentType : String) (version : Int) : SequenceStore × Int :=
  match st (tenantID, documentType) with
  | none => (st, 0)
  | some row =>
    if row.version = version then
      (Function.update st (tenantID, documentType) (some ⟨newNumber, newVersion⟩), 1)
    else (st, 0)

/-- The database handle over the table as a map: each statement runs atomically on the table
as the other sessions have left it, and never fails. -/
def mapDB : SqlDB SeqWorld where
  QueryRowScan := fun _ tenantID documentType w =>
    let w1 := w.advance
    (selectSequence w1.store tenantID documentType, w1)
  Exec := fun _ newNumber newVersion tenantID documentType version w =>
    let w1 := w.advance
    let upd := updateSequence w1.store newNumber newVersion tenantID documentType version
    (.ok (.ok upd.2), { w1 with store := upd.1 })

/-- The sequence service over the table as a map. -/
def mapService : SequenceService SeqWorld := { db := mapDB }

/-- A table with the single row `(7, 2)` for tenant `t1` and document type `invoice`, and no
other writer. -/
def sampleSeqWorld : SeqWorld :=
  { store := fun key => if key = ("t1", "invoice") then some ⟨7, 2⟩ else none, others := [] }

/-- Another session incrementing the row of `(t1, invoice)`, as a `NextNumber` call of its own
does. -/
def otherWriter (st : SequenceStore) : SequenceStore :=
  match st ("t1", "invoice") with
  | none => st
  | some row =>
    Function.update st ("t1", "invoice") (some ⟨row.current_number + 1, row.version + 1⟩)

/-- The table of `sampleSeqWorld` with another session that increments the row between each
read of this session and the update that follows it, five times. -/
def contendedSeqWorld : SeqWorld :=
  { store := sampleSeqWorld.store
    others := [id, otherWriter, id, otherWriter, id, otherWriter, id, otherWriter, id,
      otherWriter] }

/-- A table without any row, and no other writer. -/
def emptySeqWorld : SeqWorld := { store := fun _ => none, others := [] }

/-- A table with the single row `(2 ^ 63 - 1, 2)` for tenant `t1` and document type
`invoice`, the largest number Go's `int` holds, and no other writer. -/
def fullSeqWorld : SeqWorld :=
  { store := fun key => if key = ("t1", "invoice") then some ⟨2 ^ 63 - 1, 2⟩ else none,
    others := [] }

/-! ### Reading the trace of a `NextNumber` call -/

/-- What an event of a `NextNumber` trace is: a read that found the row or failed, a
conditional update that affected no row (lost), affected a row (applied) or failed, or a
back-off of `ms` milliseconds. -/
inductive SeqStep where
  | read
  | readFailed
  | updateLost
  | updateApplied
  | updateFailed
  | sleep (ms : Nat)
deriving DecidableEq, Repr

/-- The kind of an event. -/
def SeqEvent.step : SeqEvent → SeqStep
  | .QueryRow _ _ (.ok _) => .read
  | .QueryRow _ _ (.error _) => .readFailed
  | .Exec _ _ _ _ _ (.ok (.ok rowsAffected)) =>
    if rowsAffected = 0 then .updateLost else .updateApplied
  | .Exec _ _ _ _ _ (.ok (.error _)) => .updateFailed
  | .Exec _ _ _ _ _ (.error _) => .updateFailed
  | .Sleep ms => .sleep ms

/-- The kinds of the events of a trace, in order. -/
def seqSteps (tr : List SeqEvent) : List SeqStep := tr.map SeqEvent.step

/-- The back-offs of a trace in milliseconds, in order. -/
def sleeps : List SeqEvent → List Nat
  | [] => []
  | .Sleep ms :: rest => ms :: sleeps rest
  | _ :: rest => sleeps rest

/-- The duration of a back-off step. -/
def SeqStep.sleepMs : SeqStep → Option Nat
  | .sleep ms => some ms
  | _ => none

/-- The steps of a call all of whose five attempts lose the race. -/
def exhaustedSteps : List SeqStep :=
  [.read, .updateLost, .sleep 10, .read, .updateLost, .sleep 20, .read, .updateLost, .sleep 30,
    .read, .updateLost, .sleep 40, .read, .updateLost]

/-- The steps of the attempt numbered `attempt` (from 0) when it loses the race: the read,
the update, and the back-off when one follows. -/
def lostBlock (attempt : Nat) : List SeqStep :=
  [.read, .updateLost] ++
    (if attempt < maxRetries - 1 then [.sleep ((attempt + 1) * 10)] else [])

/-- The steps of `j` lost attempts in a row, from the attempt numbered `attempt`. -/
def lostBlocks : Nat → Nat → List SeqStep
  | _, 0 => []
  | attempt, j + 1 => lostBlock attempt ++ lostBlocks (attempt + 1) j

/-! ### Concurrent callers over the table as a map -/

/-- Where a `NextNumber` call stands between two statements: about to read in the attempt
numbered `attempt` (from 0), about to run the conditional update of that attempt with the pair
it has read, or returned. -/
inductive Caller where
  | reading (attempt : Nat)
  | updating (attempt : Nat) (currentNumber version : Int)
  | done (result : Int × Option GoError)
deriving DecidableEq

/-- Source `sequence_service.go`: the next statement of a `NextNumber` call on the table, with
what the code does with its outcome up to the next statement: after the read, the not-found
and read errors end the call; after an update that affected no row the call retries while
`attempt + 1 < maxRetries` and otherwise ends with the contention error; after an update that
affected a row it returns the new number. The back-off between two attempts is not a
statement: when the next read runs is for the scheduler to say. -/
def Caller.step (tenantID documentType : String) (st : SequenceStore) :
    Caller → Caller × SequenceStore
  | .reading attempt =>
    match selectSequence st tenantID documentType with
    | .error err =>
      if err = sqlErrNoRows then
        (.done (0, some (.errorf ("sequence not found for tenant " ++ tenantID ++
          ", document_type " ++ documentType))), st)
      else (.done (0, some (.wrapf ("error reading sequence: " ++ err.Error) err)), st)
    | .ok (currentNumber, version) => (.updating attempt currentNumber version, st)
  | .updating attempt currentNumber version =>
    let newNumber := wrapInt (currentNumber + 1)
    let newVersion := wrapInt (version + 1)
    let upd := updateSequence st newNumber newVersion tenantID documentType version
    if upd.2 = 0 then
      if attempt + 1 < maxRetries then (.reading (attempt + 1), upd.1)
      else
        (.done (0, some (.errorf
          ("failed to get next number after " ++ toString maxRetries ++ " retries"))), upd.1)
    else (.done (newNumber, none), upd.1)
  | .done result => (.done result, st)

/-- One call running by itself on the database of `SeqWorld`, for at most `fuel` statements:
before each statement the other sessions' writes are applied, as `mapDB` does. -/
def Caller.runAmid (tenantID documentType : String) : Nat → Caller → SeqWorld → Caller × SeqWorld
  | 0, caller, w => (caller, w)
  | _ + 1, .done result, w => (.done result, w)
  | fuel + 1, .reading attempt, w =>
    let next := (Caller.reading attempt).step tenantID documentType w.advance.store
    runAmid tenantID documentType fuel next.1 { w.advance with store := next.2 }
  | fuel + 1, .updating attempt currentNumber version, w =>
    let next :=
      (Caller.updating attempt currentNumber version).step tenantID documentType w.advance.store
    runAmid tenantID documentType fuel next.1 { w.advance with store := next.2 }

/-- Concurrent `NextNumber` calls for one key: the table and where each call stands. -/
structure Contest where
  store : SequenceStore
  callers : List Caller

/-- The scheduler lets call `i` run its next statement, atomically on the table. -/
def Contest.step (tenantID documentType : String) (sys : Contest) (i : Nat) : Contest :=
  match sys.callers[i]? with
  | none => sys
  | some caller =>
    { store := (caller.step tenantID documentType sys.store).2
      callers := sys.callers.set i (caller.step tenantID documentType sys.store).1 }

/-- An interleaving: the calls run one statement each in the order of `schedule`. -/
def Contest.run (tenantID documentType : String) (sys : Contest) (schedule : List Nat) :
    Contest :=
  schedule.foldl (Contest.step tenantID documentType) sys

/-- The start of `n` concurrent calls on a table. -/
def Contest.start (st : SequenceStore) (n : Nat) : Contest :=
  { store := st, callers := List.replicate n (.reading 0) }

/-- The number a call has returned with a nil error, if it has. -/
def Caller.number : Caller → Option Int
  | .done (number, none) => some number
  | _ => none

/-- The numbers returned so far with a nil error, in the order of the callers. -/
def Contest.numbers (sys : Contest) : List Int := sys.callers.filterMap Caller.number

/-- Whether a call has returned. -/
def Caller.isDone : Caller → Bool
  | .done _ => true
  | _ => false

/-- An upper bound on the statements a call still runs before it returns: two for each
attempt it may still make. -/
def Caller.left : Caller → Nat
  | .reading attempt => 2 * max (maxRetries - attempt) 1
  | .updating attempt _ _ => 2 * max (maxRetries - attempt) 1 - 1
  | .done _ => 0

/-- What holds of concurrent calls for the key `(tenantID, documentType)` started on the row
`(c, v)`, at every point of every interleaving: for some `m`, the row is `(c + m, v + m)`, the
numbers returned so far are `c + 1, ..., c + m` in some order, a call in its attempt numbered
`a` has seen `a` updates of other calls succeed (`a ≤ m`), every call that is about to run its
update has read an earlier state `(c + j, v + j)` of the row with `a ≤ j`, and every call that
has returned has returned a number or, after `maxRetries` updates of other calls succeeded,
the contention error. -/
def ContestInv (tenantID documentType : String) (c v : Int) (sys : Contest) : Prop :=
  ∃ m : Nat,
    sys.store (tenantID, documentType) = some ⟨c + m, v + m⟩ ∧
    sys.numbers.Perm ((List.range m).map (fun (i : Nat) => c + 1 + (i : Int))) ∧
    (∀ caller ∈ sys.callers, ∀ attempt, caller = .reading attempt → attempt ≤ m) ∧
    (∀ caller ∈ sys.callers, ∀ attempt c1 v1, caller = .updating attempt c1 v1 →
      ∃ j : Nat, attempt ≤ j ∧ j ≤ m ∧ c1 = c + j ∧ v1 = v + j) ∧
    (∀ caller ∈ sys.callers, ∀ result, caller = .done result →
      result.2 = none ∨
        (result = (0, some (.errorf "failed to get next number after 5 retries")) ∧
          maxRetries ≤ m))

/-- An interleaving that lets each of the calls `0, ..., n - 1` run ten statements, one call
after the other. -/
def fairSchedule (n : Nat) : List Nat :=
  (List.range n).flatMap (fun i => List.replicate (2 * maxRetries) i)

/-- An interleaving of 100 calls in which call 0 reads, loses its update to call 1, and so on
to call 5, and then calls 6 to 99 run one after the other. -/
def contestSchedule : List Nat :=
  [0, 1, 1, 0, 0, 2, 2, 0, 0, 3, 3, 0, 0, 4, 4, 0, 0, 5, 5, 0] ++
    (List.range 94).flatMap (fun i => [i + 6, i + 6])

/-! ## Reading a trace -/

/-- The `ConsumeStock` calls of a trace, in order: the arguments
`(tenantID, authToken, sku, quantity, reference)` of each. -/
def consumeCalls : List Event → List (String × String × String × Int × String)
  | [] => []
  | .ConsumeStock tenantID authToken sku quantity reference _ :: rest =>
    (tenantID, authToken, sku, quantity, reference) :: consumeCalls rest
  | _ :: rest => consumeCalls rest

/-- Whether each `ConsumeStock` call of a trace succeeded, in call order. -/
def consumeOutcomes : List Event → List Bool
  | [] => []
  | .ConsumeStock _ _ _ _ _ result :: rest => result.toBool :: consumeOutcomes rest
  | _ :: rest => consumeOutcomes rest

/-- The failed `ConsumeStock` calls of a trace, in order: the SKU of the call and the error
the client returned. -/
def failedConsume : List Event → List (String × GoError)
  | [] => []
  | .ConsumeStock _ _ sku _ _ (.error err) :: rest => (sku, err) :: failedConsume rest
  | _ :: rest => failedConsume rest

/-- The HTTP requests of a trace that were handed to the gateway, in order. -/
def gatewayRequests : List Event → List HttpRequest
  | [] => []
  | .HttpDo req _ :: rest => req :: gatewayRequests rest
  | _ :: rest => gatewayRequests rest

/-- The repository `Confirm` calls of a trace, in order: `(orderID, tenantID)` of each. -/
def confirmCalls : List Event → List (String × String)
  | [] => []
  | .Confirm orderID tenantID _ :: rest => (orderID, tenantID) :: confirmCalls rest
  | _ :: rest => confirmCalls rest

/-- The aggregates handed to the repository's `Save` in a trace, in order. -/
def saveCalls : List Event → List Order
  | [] => []
  | .Save order _ :: rest => order :: saveCalls rest
  | _ :: rest => saveCalls rest

/-- Source `confirm_order.go`, lines 44-47: the error `Execute` returns when the
`ConsumeStock` call for `sku` failed with `err`. -/
def consumeError (sku : String) (err : GoError) : GoError :=
  if contains err.Error "insufficient reserved stock" then
    .wrapf ("insufficient_reserved_stock for SKU " ++ sku ++ ": " ++ err.Error) err
  else
    .wrapf ("error consuming stock for SKU " ++ sku ++ ": " ++ err.Error) err

/-- The arguments `Execute` passes to `ConsumeStock` for an item. -/
def consumeArgs (tenantID authToken reference : String) (item : OrderItem) :
    String × String × String × Int × String :=
  (tenantID, authToken, item.SKU, item.Quantity, reference)

/-! ## A concrete repository and gateway, for the examples -/

/-- A small world: the persisted aggregates, the stock the gateway holds reserved per SKU,
the error the repository's `Confirm` answers with (if any) and the id counter. -/
structure StubWorld where
  orders : List Order
  reserved : List (String × Int)
  confirmError : Option GoError
  ids : Nat
deriving DecidableEq

/-- An in-memory repository over `StubWorld`. -/
def stubRepo : OrderRepository StubWorld where
  Save := fun _ order w => (none, { w with orders := w.orders ++ [order] })
  FindByID := fun _ orderID tenantID w =>
    match w.orders.find? (fun o => o.OrderID = orderID ∧ o.TenantID = tenantID) with
    | some order => (.ok order, w)
    | none => (.error ErrOrderNotFound, w)
  Confirm := fun _ orderID tenantID w =>
    match w.confirmError with
    | some err => (some err, w)
    | none =>
      (none, { w with orders := w.orders.map (fun o =>
        if o.OrderID = orderID ∧ o.TenantID = tenantID then
          { o with Status := OrderStatusConfirmed } else o) })

/-- The reserved quantity the stub gateway holds for a SKU. -/
def reservedOf (reserved : List (String × Int)) (sku : String) : Int :=
  match reserved.find? (fun e => e.1 = sku) with
  | some e => e.2
  | none => 0

/-- A gateway over `StubWorld`: a consume request for a quantity within the reserved stock of
its SKU takes it from the reserve and is answered 200 with the SKU as body; one beyond the
reserve changes nothing and is answered 409; any other request is answered 400. The decoder
reads the body as the SKU of the response. -/
def stubPlatform : Platform StubWorld where
  NewRequest := fun _ _ => none
  Do := fun req w =>
    match req.body with
    | some [(_, .str sku), (_, .num quantity), (_, .str _)] =>
      if quantity ≤ reservedOf w.reserved sku then
        (.ok ⟨200, .ok sku⟩,
          { w with reserved := w.reserved.map (fun e =>
              if e.1 = sku then (e.1, e.2 - quantity) else e) })
      else (.ok ⟨409, .ok "not enough reserved"⟩, w)
    | _ => (.ok ⟨400, .ok "bad request"⟩, w)
  UnmarshalConsume := fun body => .ok ⟨body, 0, 0, ""⟩
  uuidNew := fun w => ("id-" ++ toString w.ids, { w with ids := w.ids + 1 })
  timeNow := fun w => (0, w)
  UnmarshalAvailability := fun body => .ok ⟨body, body, 5, 0, 5, false, false⟩
  UnmarshalReserve := fun body => .ok ⟨body, 0, 0, ""⟩
  UnmarshalRelease := fun body => .ok ⟨body, 0, 0, 0, ""⟩
  UnmarshalRevertConsume := fun body => .ok ⟨body, 0, 0, ""⟩

/-- A gateway that answers every request with status 500 and a body quoting the phrase of
the conflict answer. -/
def failingPlatform : Platform StubWorld :=
  { stubPlatform with
    Do := fun _ w => (.ok ⟨500, .ok "insufficient reserved stock"⟩, w) }

/-- A gateway that answers every request with the given status and body. -/
def answeringPlatform (status : Int) (body : String) : Platform StubWorld :=
  { stubPlatform with Do := fun _ w => (.ok ⟨status, .ok body⟩, w) }

/-- A gateway that answers every request carrying a reference with status 200 and that
reference as body, and decoders that read the body as the reference of the response. -/
def echoPlatform : Platform StubWorld :=
  { stubPlatform with
    Do := fun req w =>
      match req.body.bind (fun doc => jsonMember doc "reference") with
      | some (.str reference) => (.ok ⟨200, .ok reference⟩, w)
      | _ => (.ok ⟨400, .ok "bad request"⟩, w)
    UnmarshalConsume := fun body => .ok ⟨"", 0, 0, body⟩
    UnmarshalReserve := fun body => .ok ⟨"", 0, 0, body⟩
    UnmarshalRelease := fun body => .ok ⟨"", 0, 0, 0, body⟩
    UnmarshalRevertConsume := fun body => .ok ⟨"", 0, 0, body⟩ }

/-- A repository whose `FindByID` fails with a storage error. -/
def brokenRepo : OrderRepository StubWorld :=
  { stubRepo with FindByID := fun _ _ _ w => (.error (.errorf "connection refused"), w) }

/-- The release use case of the examples. -/
def stubRelease : ReleaseStockUseCase :=
  { stockClient := { kongURL := "http://kong:8000", stockPath := "/stock" } }

/-- The confirm use case over the repository whose `FindByID` fails. -/
def brokenConfirm : ConfirmOrderUseCase StubWorld :=
  { orderRepo := brokenRepo, stockClient := { kongURL := "http://kong:8000", stockPath := "/stock" } }

/-- A gateway stub that answers success echoing the request's reference: every request whose
body has the reference `r` is answered with status 200 and a body that each of the four
decoders reads as a response with `Reference = r`. -/
def EchoesReference {σ : Type} (p : Platform σ) : Prop :=
  ∀ (req : HttpRequest) (w : σ) (r : String),
    req.body.bind (fun doc => jsonMember doc "reference") = some (.str r) →
    ∃ body, (p.Do req w).1 = .ok ⟨StatusOK, .ok body⟩ ∧
      (∃ x, p.UnmarshalReserve body = .ok x ∧ x.Reference = r) ∧
      (∃ x, p.UnmarshalRelease body = .ok x ∧ x.Reference = r) ∧
      (∃ x, p.UnmarshalConsume body = .ok x ∧ x.Reference = r) ∧
      (∃ x, p.UnmarshalRevertConsume body = .ok x ∧ x.Reference = r)

/-- The JSON document of an availability snapshot of the SKU `A` with the given available
quantity and nothing reserved. -/
def snapshotBody (available : Nat) : String :=
  "\x7b\"variant_sku\":\"A\",\"product_sku\":\"A\",\"available_quantity\":" ++
    toString available ++ ",\"reserved_quantity\":0,\"total_quantity\":" ++ toString available ++
    ",\"is_out_of_stock\":false,\"is_low_stock\":false\x7d"

/-- A gateway that answers every request with status 200 and the snapshot document of
`snapshotBody available`, and an availability decoder that reads that document (its numbers
as the nearest `float64`) and rejects every other text. -/
def snapshotPlatform (available : Nat) : Platform StubWorld :=
  { stubPlatform with
    Do := fun _ w => (.ok ⟨200, .ok (snapshotBody available)⟩, w)
    UnmarshalAvailability := fun body =>
      if body = snapshotBody available then
        .ok ⟨"A", "A", ((roundFloat64 available : Nat) : ℚ), 0, ((roundFloat64 available : Nat) : ℚ),
          false, false⟩
      else .error (.errorf "invalid character looking for beginning of value") }

/-- The stock client of the examples. -/
def stubClient : StockClient := { kongURL := "http://kong:8000", stockPath := "/stock" }

/-- The confirm use case of the examples. -/
def stubConfirm : ConfirmOrderUseCase StubWorld :=
  { orderRepo := stubRepo, stockClient := stubClient }

/-- The create use case of the examples. -/
def stubCreate : CreateOrderUseCase StubWorld := { orderRepo := stubRepo }

/-- An order of tenant `t1` with two items, `A` times 1 then `B` times 1, in the given
status. -/
def sampleOrder (status : OrderStatus) : Order :=
  { OrderID := "o1", TenantID := "t1", Status := status, CreatedAt := 0,
    Items := [⟨"i1", "o1", "A", 1⟩, ⟨"i2", "o1", "B", 1⟩] }

/-- A world holding `sampleOrder status`, with the given reserve and `Confirm` answer. -/
def sampleWorld (status : OrderStatus) (reserved : List (String × Int))
    (confirmError : Option GoError) : StubWorld :=
  { orders := [sampleOrder status], reserved := reserved, confirmError := confirmError, ids := 0 }

/-! ## `criteria`: list requests, pagination and the criteria builder -/

/-- The `float64` nearest to the rational `x`, ties going to the even mantissa: the rounding
every `float64` operation ends with. With `2 ^ e ≤ |x| < 2 ^ (e + 1)` the values it can take
around `x` are the multiples of `2 ^ (e - 52)`. Exponent limits are left out: the quotients of
two converted `int`s lie between `2 ^ (-64)` and `2 ^ 64` in absolute value. -/
def float64Round (x : ℚ) : ℚ :=
  if x = 0 then 0
  else
    let ulp : ℚ := 2 ^ (Int.log 2 |x| - 52)
    let m := |x| / ulp
    let q := ⌊m⌋
    let rest := m - q
    let n := if 1 / 2 < rest ∨ (rest = 1 / 2 ∧ q % 2 = 1) then q + 1 else q
    if x < 0 then -(n * ulp) else n * ulp

/-- The Go quotient `x / y` of two `float64` values, `y` not zero. -/
def float64Div (x y : ℚ) : ℚ := float64Round (x / y)

/-- Go's `math.Ceil`: the least integral value not below `x` (a `float64` again). -/
def mathCeil (x : ℚ) : ℚ := ((⌈x⌉ : Int) : ℚ)

/-- The Go conversion `int(x)` of a `float64`: the fraction is dropped (rounding towards
zero). For a value outside of `int` Go leaves the result to the platform; here it is
`-(2 ^ 63)`, what the conversion instruction of amd64 yields. -/
def intOfFloat64 (x : ℚ) : Int :=
  if IsGoInt (if 0 ≤ x then ⌊x⌋ else ⌈x⌉) then (if 0 ≤ x then ⌊x⌋ else ⌈x⌉) else minInt

/-- Go's `strings.ToUpper`: every code point is mapped through `unicode.ToUpper`, which is
the parameter `upper`. -/
def ToUpper (upper : Char → Char) (s : String) : String := ⟨s.data.map upper⟩

/-- Go's `strconv.Atoi`: an optional sign followed by at least one decimal digit and nothing
else, read in base 10; a syntax error for any other text, a range error for a value outside
of `int`. -/
def Atoi (s : String) : Except GoError Int :=
  let digits := if s.data.head? = some '-' ∨ s.data.head? = some '+' then s.data.tail else s.data
  if digits = [] ∨ ¬ digits.all Char.isDigit then
    .error (.errorf ("strconv.Atoi: parsing " ++ s.quote ++ ": invalid syntax"))
  else
    let n : Int := ((digits.foldl (fun acc c => 10 * acc + (c.toNat - 48)) 0 : Nat) : Int)
    let v := if s.data.head? = some '-' then -n else n
    if IsGoInt v then .ok v
    else .error (.errorf ("strconv.Atoi: parsing " ++ s.quote ++ ": value out of range"))

namespace criteria

/-- A Go `interface{}` value handed to a filter: `nil`, a string, a bool, a number or a
slice of such values. -/
inductive Any where
  | nil
  | str (s : String)
  | bool (b : Bool)
  | int (n : Int)
  | slice (vs : List Any)

/-- Source `criteria.go`: `type Filter struct`. -/
structure Filter where
  Field : String
  Operator : String
  Value : Any

/-- Source `criteria.go`: `type Filters struct`. -/
structure Filters where
  Items : List Filter

/-- Source `criteria.go`: `type OrderType string`. -/
abbrev OrderType := String

/-- Source `criteria.go`: `ASC`. -/
def ASC : OrderType := "asc"

/-- Source `criteria.go`: `DESC`. -/
def DESC : OrderType := "desc"

/-- Source `criteria.go`: `type Order struct`. -/
structure Order where
  Field : String
  OrderType : OrderType
deriving DecidableEq, Repr, Inhabited

/-- Source `criteria.go`: `type Criteria struct`; `Limit` and `Offset` are `*int`, `none`
being the nil pointer. -/
structure Criteria where
  Filters : Filters
  Order : Order
  Limit : Option Int
  Offset : Option Int

/-- Source `criteria.go`: `func NewCriteria`. -/
def NewCriteria (filters : Filters) (order : Order) (limit offset : Option Int) : Criteria :=
  { Filters := filters, Order := order, Limit := limit, Offset := offset }

/-- Source `criteria.go`: `func NewFilter`. -/
def NewFilter (field operator : String) (value : Any) : Filter :=
  { Field := field, Operator := operator, Value := value }

/-- Source `criteria.go`: `func NewFilters(filters ...Filter)`. -/
def NewFilters (filters : List Filter) : Filters := { Items := filters }

/-- Source `criteria.go`: `func NewOrder`. -/
def NewOrder (field : String) (orderType : OrderType) : Order :=
  { Field := field, OrderType := orderType }

/-- Source `criteria.go`: `type Pagination struct`. -/
structure Pagination where
  Page : Int
  PageSize : Int
  Limit : Int
  Offset : Int
deriving DecidableEq, Repr, Inhabited

/-- Source `criteria.go`: `func NewPagination`. The subtraction and the product are those of
Go's `int`. -/
def NewPagination (page pageSize : Int) : Pagination :=
  let page := if page < 1 then 1 else page
  let pageSize := if pageSize < 1 then 10 else pageSize
  let pageSize := if pageSize > 100 then 100 else pageSize
  let offset := wrapInt (wrapInt (page - 1) * pageSize)
  { Page := page, PageSize := pageSize, Limit := pageSize, Offset := offset }

/-- Source `criteria.go`: `func GetPageFromOffset`; `/` is Go's integer division, which
rounds towards zero. -/
def GetPageFromOffset (offset pageSize : Int) : Int :=
  if pageSize = 0 then 1 else wrapInt (wrapInt (Int.tdiv offset pageSize) + 1)

/-- Source `criteria.go`: `func GetTotalPagesFromLimit`. -/
def GetTotalPagesFromLimit (totalCount limit : Int) : Int :=
  if limit = 0 then 0
  else intOfFloat64 (mathCeil (float64Div (float64OfInt totalCount) (float64OfInt limit)))

/-- Source `criteria.go`: `type ListResponse[T any] struct`. -/
structure ListResponse (α : Type) where
  Items : List α
  TotalCount : Int
  Page : Int
  PageSize : Int
  TotalPages : Int

/-- Source `criteria.go`: `func NewListResponse`. -/
def NewListResponse {α : Type} (items : List α) (totalCount : Int) (criteria : Criteria) :
    ListResponse α :=
  match criteria.Limit with
  | some limit =>
    let pageSize := limit
    let totalPages := GetTotalPagesFromLimit totalCount pageSize
    let page :=
      match criteria.Offset with
      | some offset => GetPageFromOffset offset pageSize
      | none => 1
    { Items := items, TotalCount := totalCount, Page := page, PageSize := pageSize,
      TotalPages := totalPages }
  | none =>
    { Items := items, TotalCount := totalCount, Page := 1, PageSize := (items.length : Int),
      TotalPages := 1 }

/-- Source `request.go`: `type BaseListRequest struct`. -/
structure BaseListRequest where
  Page : Int
  PageSize : Int
  SortBy : String
  SortDir : String
deriving DecidableEq, Repr, Inhabited

/-- Source `request.go`: `func (r BaseListRequest) ToCriteria`. -/
def BaseListRequest.ToCriteria (upper : Char → Char) (r : BaseListRequest) : Criteria :=
  let page := if r.Page < 1 then 1 else r.Page
  let pageSize := if r.PageSize < 1 then 10 else r.PageSize
  let pageSize := if pageSize > 100 then 100 else pageSize
  let sortBy := if r.SortBy = "" then "created_at" else r.SortBy
  let sortDir := if r.SortDir = "" then "DESC" else r.SortDir
  let orderType := if ToUpper upper sortDir = "ASC" then ASC else DESC
  let limit := pageSize
  let offset := wrapInt (wrapInt (page - 1) * pageSize)
  NewCriteria (NewFilters []) (NewOrder sortBy orderType) (some limit) (some offset)

/-- Source `request.go`: the filter operators. -/
def OpEqual : String := "="

/-- Source `request.go`: `OpNotEqual`. -/
def OpNotEqual : String := "!="

/-- Source `request.go`: `OpGreaterThan`. -/
def OpGreaterThan : String := ">"

/-- Source `request.go`: `OpGreaterThanOrEqual`. -/
def OpGreaterThanOrEqual : String := ">="

/-- Source `request.go`: `OpLessThan`. -/
def OpLessThan : String := "<"

/-- Source `request.go`: `OpLessThanOrEqual`. -/
def OpLessThanOrEqual : String := "<="

/-- Source `request.go`: `OpLike`. -/
def OpLike : String := "LIKE"

/-- Source `request.go`: `OpIn`. -/
def OpIn : String := "IN"

/-- Source `request.go`: `OpArrayContains`. -/
def OpArrayContains : String := "ARRAY_CONTAINS"

/-- Go's `url.Values`, a map from a key to the list of its values. -/
abbrev Values := List (String × List String)

/-- Go's `url.Values.Get`: the first value of the key, the empty string when there is
none. -/
def Values.Get (values : Values) (key : String) : String :=
  match values.lookup key with
  | some (first :: _) => first
  | _ => ""

/-- Source `request.go`: `type CriteriaBuilder struct`. -/
structure CriteriaBuilder where
  filters : List Filter
  orderField : String
  orderDir : OrderType
  page : Int
  pageSize : Int

/-- Source `request.go`: `func NewCriteriaBuilder`. -/
def NewCriteriaBuilder : CriteriaBuilder :=
  { filters := [], page := 1, pageSize := 10, orderField := "created_at", orderDir := DESC }

/-- Source `request.go`: `func (b *CriteriaBuilder) FromURLValues`. The builder is updated in
place and returned; here the updated builder is the result. -/
def CriteriaBuilder.FromURLValues (upper : Char → Char) (b : CriteriaBuilder)
    (values : Values) : CriteriaBuilder :=
  let b :=
    if values.Get "page" ≠ "" then
      match Atoi (values.Get "page") with
      | .ok p => if p > 0 then { b with page := p } else b
      | .error _ => b
    else b
  let b :=
    if values.Get "page_size" ≠ "" then
      match Atoi (values.Get "page_size") with
      | .ok ps => if ps > 0 ∧ ps ≤ 100 then { b with pageSize := ps } else b
      | .error _ => b
    else b
  let b := if values.Get "sort_by" ≠ "" then { b with orderField := values.Get "sort_by" } else b
  if values.Get "sort_dir" ≠ "" then
    if ToUpper upper (values.Get "sort_dir") = "ASC" then { b with orderDir := ASC }
    else { b with orderDir := DESC }
  else b

/-- Source `request.go`: `func (b *CriteriaBuilder) AddFilter`; the test is
`value != nil && value != ""`. -/
def CriteriaBuilder.AddFilter (b : CriteriaBuilder) (field operator : String) (value : Any) :
    CriteriaBuilder :=
  match value with
  | .nil => b
  | .str "" => b
  | _ => { b with filters := b.filters ++ [NewFilter field operator value] }

/-- Source `request.go`: `func (b *CriteriaBuilder) AddEqualFilter`. -/
def CriteriaBuilder.AddEqualFilter (b : CriteriaBuilder) (field : String) (value : Any) :
    CriteriaBuilder :=
  b.AddFilter field OpEqual value

/-- Source `request.go`: `func (b *CriteriaBuilder) AddNotEqualFilter`. -/
def CriteriaBuilder.AddNotEqualFilter (b : CriteriaBuilder) (field : String) (value : Any) :
    CriteriaBuilder :=
  b.AddFilter field OpNotEqual value

/-- Source `request.go`: `func (b *CriteriaBuilder) AddLikeFilter`. -/
def CriteriaBuilder.AddLikeFilter (b : CriteriaBuilder) (field : String) (value : Any) :
    CriteriaBuilder :=
  match value with
  | .str str =>
    if str ≠ "" then
      if ¬ contains str "%" then b.AddFilter field OpLike (.str ("%" ++ str ++ "%"))
      else b.AddFilter field OpLike value
    else b
  | _ => b

/-- Source `request.go`: `func (b *CriteriaBuilder) AddGreaterThanFilter`. -/
def CriteriaBuilder.AddGreaterThanFilter (b : CriteriaBuilder) (field : String)
    (value : Any) : CriteriaBuilder :=
  b.AddFilter field OpGreaterThan value

/-- Source `request.go`: `func (b *CriteriaBuilder) AddGreaterThanOrEqualFilter`. -/
def CriteriaBuilder.AddGreaterThanOrEqualFilter (b : CriteriaBuilder) (field : String)
    (value : Any) : CriteriaBuilder :=
  b.AddFilter field OpGreaterThanOrEqual value

/-- Source `request.go`: `func (b *CriteriaBuilder) AddLessThanFilter`. -/
def CriteriaBuilder.AddLessThanFilter (b : CriteriaBuilder) (field : String) (value : Any) :
    CriteriaBuilder :=
  b.AddFilter field OpLessThan value

/-- Source `request.go`: `func (b *CriteriaBuilder) AddLessThanOrEqualFilter`. -/
def CriteriaBuilder.AddLessThanOrEqualFilter (b : CriteriaBuilder) (field : String)
    (value : Any) : CriteriaBuilder :=
  b.AddFilter field OpLessThanOrEqual value

/-- Source `request.go`: `func (b *CriteriaBuilder) AddInFilter`. -/
def CriteriaBuilder.AddInFilter (b : CriteriaBuilder) (field : String) (values : List Any) :
    CriteriaBuilder :=
  if values.length > 0 then b.AddFilter field OpIn (.slice values) else b

/-- Source `request.go`: `func (b *CriteriaBuilder) AddUUIDFilter`; `uuidParse` tells whether
`uuid.Parse` accepts the text. -/
def CriteriaBuilder.AddUUIDFilter (uuidParse : String → Bool) (b : CriteriaBuilder)
    (field : String) (value : Any) : CriteriaBuilder :=
  match value with
  | .str str =>
    if str ≠ "" then
      if uuidParse str then b.AddEqualFilter field (.str str) else b
    else b
  | _ => b

/-- Source `request.go`: `func (b *CriteriaBuilder) AddBoolFilter`. -/
def CriteriaBuilder.AddBoolFilter (b : CriteriaBuilder) (field : String) (value : Any) :
    CriteriaBuilder :=
  match value with
  | .str str =>
    if str = "true" then b.AddEqualFilter field (.bool true)
    else if str = "false" then b.AddEqualFilter field (.bool false)
    else b
  | .bool boolVal => b.AddEqualFilter field (.bool boolVal)
  | _ => b

/-- Source `request.go`: `func (b *CriteriaBuilder) SetOrder`. -/
def CriteriaBuilder.SetOrder (b : CriteriaBuilder) (field : String) (direction : OrderType) :
    CriteriaBuilder :=
  if field ≠ "" then { b with orderField := field, orderDir := direction } else b

/-- Source `request.go`: `func (b *CriteriaBuilder) SetPagination`. -/
def CriteriaBuilder.SetPagination (b : CriteriaBuilder) (page pageSize : Int) :
    CriteriaBuilder :=
  let b := if page > 0 then { b with page := page } else b
  if pageSize > 0 ∧ pageSize ≤ 100 then { b with pageSize := pageSize } else b

/-- Source `request.go`: `func (b *CriteriaBuilder) Build`. -/
def CriteriaBuilder.Build (b : CriteriaBuilder) : Criteria :=
  let filters := NewFilters b.filters
  let order := NewOrder b.orderField b.orderDir
  let limit := b.pageSize
  let offset := wrapInt (wrapInt (b.page - 1) * b.pageSize)
  NewCriteria filters order (some limit) (some offset)

/-- Source `request.go`: `func (b *CriteriaBuilder) AddArrayContainsFilter`. -/
def CriteriaBuilder.AddArrayContainsFilter (b : CriteriaBuilder) (field : String)
    (value : Any) : CriteriaBuilder :=
  match value with
  | .nil => b
  | .str "" => b
  | _ => b.AddFilter field OpArrayContains value

/-- One call on a builder, with its arguments: the methods of `CriteriaBuilder` other than
`Build`. -/
inductive BuilderCall where
  | FromURLValues (values : Values)
  | AddFilter (field operator : String) (value : Any)
  | AddEqualFilter (field : String) (value : Any)
  | AddNotEqualFilter (field : String) (value : Any)
  | AddLikeFilter (field : String) (value : Any)
  | AddGreaterThanFilter (field : String) (value : Any)
  | AddGreaterThanOrEqualFilter (field : String) (value : Any)
  | AddLessThanFilter (field : String) (value : Any)
  | AddLessThanOrEqualFilter (field : String) (value : Any)
  | AddInFilter (field : String) (values : List Any)
  | AddUUIDFilter (field : String) (value : Any)
  | AddBoolFilter (field : String) (value : Any)
  | AddArrayContainsFilter (field : String) (value : Any)
  | SetOrder (field : String) (direction : OrderType)
  | SetPagination (page pageSize : Int)

/-- The builder after one call. -/
def CriteriaBuilder.call (upper : Char → Char) (uuidParse : String → Bool)
    (b : CriteriaBuilder) : BuilderCall → CriteriaBuilder
  | .FromURLValues values => b.FromURLValues upper values
  | .AddFilter field operator value => b.AddFilter field operator value
  | .AddEqualFilter field value => b.AddEqualFilter field value
  | .AddNotEqualFilter field value => b.AddNotEqualFilter field value
  | .AddLikeFilter field value => b.AddLikeFilter field value
  | .AddGreaterThanFilter field value => b.AddGreaterThanFilter field value
  | .AddGreaterThanOrEqualFilter field value => b.AddGreaterThanOrEqualFilter field value
  | .AddLessThanFilter field value => b.AddLessThanFilter field value
  | .AddLessThanOrEqualFilter field value => b.AddLessThanOrEqualFilter field value
  | .AddInFilter field values => b.AddInFilter field values
  | .AddUUIDFilter field value => b.AddUUIDFilter uuidParse field value
  | .AddBoolFilter field value => b.AddBoolFilter field value
  | .AddArrayContainsFilter field value => b.AddArrayContainsFilter field value
  | .SetOrder field direction => b.SetOrder field direction
  | .SetPagination page pageSize => b.SetPagination page pageSize

/-- The builder after a sequence of calls, first call first. -/
def CriteriaBuilder.calls (upper : Char → Char) (uuidParse : String → Bool)
    (b : CriteriaBuilder) (cs : List BuilderCall) : CriteriaBuilder :=
  cs.foldl (CriteriaBuilder.call upper uuidParse) b

end criteria

/-! ## Lemmas on traces -/

theorem consumeCalls_append (a b : List Event) :
    consumeCalls (a ++ b) = consumeCalls a ++ consumeCalls b := by
  induction a with
  | nil => rfl
  | cons e rest ih => cases e <;> simp [consumeCalls, ih]

theorem consumeOutcomes_append (a b : List Event) :
    consumeOutcomes (a ++ b) = consumeOutcomes a ++ consumeOutcomes b := by
  induction a with
  | nil => rfl
  | cons e rest ih => cases e <;> simp [consumeOutcomes, ih]

theorem failedConsume_append (a b : List Event) :
    failedConsume (a ++ b) = failedConsume a ++ failedConsume b := by
  induction a with
  | nil => rfl
  | cons e rest ih =>
    cases e with
    | ConsumeStock t a s q r res => cases res <;> simp [failedConsume, ih]
    | _ => simp [failedConsume, ih]

theorem gatewayRequests_append (a b : List Event) :
    gatewayRequests (a ++ b) = gatewayRequests a ++ gatewayRequests b := by
  induction a with
  | nil => rfl
  | cons e rest ih => cases e <;> simp [gatewayRequests, ih]

theorem confirmCalls_append (a b : List Event) :
    confirmCalls (a ++ b) = confirmCalls a ++ confirmCalls b := by
  induction a with
  | nil => rfl
  | cons e rest ih => cases e <;> simp [confirmCalls, ih]

theorem gatewayRequests_consume (tenantID authToken sku : String) (quantity : Int)
    (reference : String) (result : Except GoError StockConsumeResponse) (rest : List Event) :
    gatewayRequests (Event.ConsumeStock tenantID authToken sku quantity reference result :: rest) =
      gatewayRequests rest := rfl

/-! ## Lemmas on the stock client -/

/-- The trace of one `ConsumeStock` call holds no use case level event. -/
theorem ConsumeStock_trace {σ : Type} (c : StockClient) (p : Platform σ)
    (tenantID authToken sku : String) (quantity : Int) (reference : String) (w : σ) :
    consumeCalls (c.ConsumeStock p tenantID authToken sku quantity reference w).2.1 = [] ∧
    consumeOutcomes (c.ConsumeStock p tenantID authToken sku quantity reference w).2.1 = [] ∧
    failedConsume (c.ConsumeStock p tenantID authToken sku quantity reference w).2.1 = [] ∧
    confirmCalls (c.ConsumeStock p tenantID authToken sku quantity reference w).2.1 = [] := by
  simp only [StockClient.ConsumeStock]
  split <;> simp [consumeCalls, consumeOutcomes, failedConsume, confirmCalls]

/-- A `ConsumeStock` call that succeeds has sent exactly its one request to the gateway. -/
theorem ConsumeStock_ok_requests {σ : Type} (c : StockClient) (p : Platform σ)
    (tenantID authToken sku : String) (quantity : Int) (reference : String) (w : σ)
    (resp : StockConsumeResponse)
    (h : (c.ConsumeStock p tenantID authToken sku quantity reference w).1 = .ok resp) :
    gatewayRequests (c.ConsumeStock p tenantID authToken sku quantity reference w).2.1 =
      [c.consumeRequest tenantID authToken sku quantity reference] := by
  simp only [StockClient.ConsumeStock] at h ⊢
  split at h
  · simp at h
  · simp [gatewayRequests]

/-- Every request a `ConsumeStock` call sends is its consume request. -/
theorem ConsumeStock_requests {σ : Type} (c : StockClient) (p : Platform σ)
    (tenantID authToken sku : String) (quantity : Int) (reference : String) (w : σ) :
    ∀ req ∈ gatewayRequests (c.ConsumeStock p tenantID authToken sku quantity reference w).2.1,
      req = c.consumeRequest tenantID authToken sku quantity reference := by
  simp only [StockClient.ConsumeStock]
  split <;> simp [gatewayRequests]

/-! ## Lemmas on the confirm loop -/

theorem consumeItems_nil {σ : Type} (uc : ConfirmOrderUseCase σ) (p : Platform σ)
    (tenantID authToken reference : String) (w : σ) :
    uc.consumeItems p tenantID authToken reference [] w = (none, [], w) := rfl

theorem consumeItems_cons_error {σ : Type} (uc : ConfirmOrderUseCase σ) (p : Platform σ)
    (tenantID authToken reference : String) (item : OrderItem) (rest : List OrderItem) (w : σ)
    (err : GoError)
    (h : (uc.stockClient.ConsumeStock p tenantID authToken item.SKU item.Quantity reference w).1 =
      .error err) :
    uc.consumeItems p tenantID authToken reference (item :: rest) w =
      (some (consumeError item.SKU err),
        Event.ConsumeStock tenantID authToken item.SKU item.Quantity reference (.error err) ::
          (uc.stockClient.ConsumeStock p tenantID authToken item.SKU item.Quantity reference w).2.1,
        (uc.stockClient.ConsumeStock p tenantID authToken item.SKU item.Quantity reference w).2.2) := by
  simp only [ConfirmOrderUseCase.consumeItems, h, consumeError]
  split <;> rfl

theorem consumeItems_cons_ok {σ : Type} (uc : ConfirmOrderUseCase σ) (p : Platform σ)
    (tenantID authToken reference : String) (item : OrderItem) (rest : List OrderItem) (w : σ)
    (resp : StockConsumeResponse)
    (h : (uc.stockClient.ConsumeStock p tenantID authToken item.SKU item.Quantity reference w).1 =
      .ok resp) :
    uc.consumeItems p tenantID authToken reference (item :: rest) w =
      ((uc.consumeItems p tenantID authToken reference rest
          (uc.stockClient.ConsumeStock p tenantID authToken item.SKU item.Quantity reference w).2.2).1,
        Event.ConsumeStock tenantID authToken item.SKU item.Quantity reference (.ok resp) ::
          (uc.stockClient.ConsumeStock p tenantID authToken item.SKU item.Quantity reference w).2.1 ++
          (uc.consumeItems p tenantID authToken reference rest
            (uc.stockClient.ConsumeStock p tenantID authToken item.SKU item.Quantity reference w).2.2).2.1,
        (uc.consumeItems p tenantID authToken reference rest
          (uc.stockClient.ConsumeStock p tenantID authToken item.SKU item.Quantity reference w).2.2).2.2) := by
  simp only [ConfirmOrderUseCase.consumeItems, h]

/-- The shape of a run of the confirm loop: it calls `ConsumeStock` for the first `k` items
in order; either it runs to its end, every call having succeeded and having sent its one
request, or the `k`-th call is the only one that failed and the loop leaves with the error
built from that item's SKU and that call's error. -/
theorem consumeItems_spec {σ : Type} (uc : ConfirmOrderUseCase σ) (p : Platform σ)
    (tenantID authToken reference : String) (items : List OrderItem) :
    ∀ w : σ,
      confirmCalls (uc.consumeItems p tenantID authToken reference items w).2.1 = [] ∧
      (∀ req ∈ gatewayRequests (uc.consumeItems p tenantID authToken reference items w).2.1,
        ∃ item ∈ items,
          req = uc.stockClient.consumeRequest tenantID authToken item.SKU item.Quantity reference) ∧
      ∃ k, k ≤ items.length ∧
        consumeCalls (uc.consumeItems p tenantID authToken reference items w).2.1 =
          (items.take k).map (consumeArgs tenantID authToken reference) ∧
        (((uc.consumeItems p tenantID authToken reference items w).1 = none ∧
            k = items.length ∧
            consumeOutcomes (uc.consumeItems p tenantID authToken reference items w).2.1 =
              List.replicate k true ∧
            failedConsume (uc.consumeItems p tenantID authToken reference items w).2.1 = [] ∧
            gatewayRequests (uc.consumeItems p tenantID authToken reference items w).2.1 =
              items.map (fun it =>
                uc.stockClient.consumeRequest tenantID authToken it.SKU it.Quantity reference)) ∨
          (∃ item err, items[k - 1]? = some item ∧ 0 < k ∧
            (uc.consumeItems p tenantID authToken reference items w).1 =
              some (consumeError item.SKU err) ∧
            consumeOutcomes (uc.consumeItems p tenantID authToken reference items w).2.1 =
              List.replicate (k - 1) true ++ [false] ∧
            failedConsume (uc.consumeItems p tenantID authToken reference items w).2.1 =
              [(item.SKU, err)])) := by
  induction items with
  | nil =>
    intro w
    refine ⟨rfl, ?_, 0, Nat.le_refl _, rfl, Or.inl ⟨rfl, rfl, rfl, rfl, rfl⟩⟩
    intro req hreq
    simp [consumeItems_nil, gatewayRequests] at hreq
  | cons item rest ih =>
    intro w
    obtain ⟨hc, ho, hf, hk⟩ :=
      ConsumeStock_trace uc.stockClient p tenantID authToken item.SKU item.Quantity reference w
    have hreqs :=
      ConsumeStock_requests uc.stockClient p tenantID authToken item.SKU item.Quantity reference w
    rcases h : (uc.stockClient.ConsumeStock p tenantID authToken item.SKU item.Quantity
        reference w).1 with err | resp
    · rw [consumeItems_cons_error uc p tenantID authToken reference item rest w err h]
      refine ⟨by simp [confirmCalls, hk], ?_, 1, by simp, ?_, Or.inr ⟨item, err, ?_⟩⟩
      · intro req hreq
        simp only [gatewayRequests_consume] at hreq
        exact ⟨item, List.mem_cons_self _ _, hreqs req hreq⟩
      · simp [consumeCalls, hc, consumeArgs]
      · simp [consumeOutcomes, failedConsume, ho, hf, Except.toBool]
    · rw [consumeItems_cons_ok uc p tenantID authToken reference item rest w resp h]
      have hg := ConsumeStock_ok_requests uc.stockClient p tenantID authToken item.SKU
        item.Quantity reference w resp h
      obtain ⟨ihk, ihreq, k, hle, hcalls, hcase⟩ := ih
        (uc.stockClient.ConsumeStock p tenantID authToken item.SKU item.Quantity reference w).2.2
      refine ⟨?_, ?_, k + 1, by simpa using hle, ?_, ?_⟩
      · simp [confirmCalls, confirmCalls_append, hk, ihk]
      · intro req hreq
        simp only [gatewayRequests_consume, gatewayRequests_append, hg, List.mem_append,
          List.mem_singleton] at hreq
        rcases hreq with hreq | hreq
        · exact ⟨item, List.mem_cons_self _ _, hreq⟩
        · obtain ⟨it, hit, hreq⟩ := ihreq req hreq
          exact ⟨it, List.mem_cons_of_mem _ hit, hreq⟩
      · simp [consumeCalls, consumeCalls_append, hc, hcalls, consumeArgs]
      · rcases hcase with ⟨hnone, hkeq, hout, hfail, hgw⟩ | ⟨it, e, hit, hpos, hsome, hout, hfail⟩
        · refine Or.inl ⟨hnone, by simp [hkeq], ?_, ?_, ?_⟩
          · simp [consumeOutcomes, consumeOutcomes_append, ho, hout, Except.toBool,
              List.replicate_succ]
          · simp [failedConsume, failedConsume_append, hf, hfail]
          · simp [gatewayRequests, gatewayRequests_append, hg, hgw]
        · refine Or.inr ⟨it, e, ?_, Nat.succ_pos _, hsome, ?_, ?_⟩
          · obtain ⟨j, rfl⟩ : ∃ j, k = j + 1 := ⟨k - 1, by omega⟩
            simpa using hit
          · obtain ⟨j, rfl⟩ : ∃ j, k = j + 1 := ⟨k - 1, by omega⟩
            simp only [Nat.add_sub_cancel] at hout ⊢
            simp [consumeOutcomes, consumeOutcomes_append, ho, hout, Except.toBool,
              List.replicate_succ]
          · simp [failedConsume, failedConsume_append, hf, hfail]

/-- The five ways `Execute` of the confirm use case can run. -/
theorem confirmExecute_cases {σ : Type} (uc : ConfirmOrderUseCase σ) (p : Platform σ)
    (ctx : Context) (tenantID authToken orderID reference : String) (w : σ) :
    (∃ err, (uc.orderRepo.FindByID ctx orderID tenantID w).1 = .error err ∧
      uc.Execute p ctx tenantID authToken orderID reference w =
        (.error ErrOrderNotFound, [Event.FindByID orderID tenantID (.error err)],
          (uc.orderRepo.FindByID ctx orderID tenantID w).2)) ∨
    (∃ order, (uc.orderRepo.FindByID ctx orderID tenantID w).1 = .ok order ∧
      order.Status ≠ OrderStatusCreated ∧
      uc.Execute p ctx tenantID authToken orderID reference w =
        (.error ErrOrderNotInCreatedState, [Event.FindByID orderID tenantID (.ok order)],
          (uc.orderRepo.FindByID ctx orderID tenantID w).2)) ∨
    (∃ order err, (uc.orderRepo.FindByID ctx orderID tenantID w).1 = .ok order ∧
      order.Status = OrderStatusCreated ∧
      (uc.consumeItems p tenantID authToken reference order.Items
        (uc.orderRepo.FindByID ctx orderID tenantID w).2).1 = some err ∧
      uc.Execute p ctx tenantID authToken orderID reference w =
        (.error err,
          Event.FindByID orderID tenantID (.ok order) ::
            (uc.consumeItems p tenantID authToken reference order.Items
              (uc.orderRepo.FindByID ctx orderID tenantID w).2).2.1,
          (uc.consumeItems p tenantID authToken reference order.Items
            (uc.orderRepo.FindByID ctx orderID tenantID w).2).2.2)) ∨
    (∃ order err, (uc.orderRepo.FindByID ctx orderID tenantID w).1 = .ok order ∧
      order.Status = OrderStatusCreated ∧
      (uc.consumeItems p tenantID authToken reference order.Items
        (uc.orderRepo.FindByID ctx orderID tenantID w).2).1 = none ∧
      uc.Execute p ctx tenantID authToken orderID reference w =
        (.error (.wrapf ("error confirming order: " ++ err.Error) err),
          Event.FindByID orderID tenantID (.ok order) ::
            (uc.consumeItems p tenantID authToken reference order.Items
              (uc.orderRepo.FindByID ctx orderID tenantID w).2).2.1 ++
            [Event.Confirm orderID tenantID (some err)],
          (uc.orderRepo.Confirm ctx orderID tenantID
            (uc.consumeItems p tenantID authToken reference order.Items
              (uc.orderRepo.FindByID ctx orderID tenantID w).2).2.2).2)) ∨
    (∃ order, (uc.orderRepo.FindByID ctx orderID tenantID w).1 = .ok order ∧
      order.Status = OrderStatusCreated ∧
      (uc.consumeItems p tenantID authToken reference order.Items
        (uc.orderRepo.FindByID ctx orderID tenantID w).2).1 = none ∧
      uc.Execute p ctx tenantID authToken orderID reference w =
        (.ok { order with Status := OrderStatusConfirmed },
          Event.FindByID orderID tenantID (.ok order) ::
            (uc.consumeItems p tenantID authToken reference order.Items
              (uc.orderRepo.FindByID ctx orderID tenantID w).2).2.1 ++
            [Event.Confirm orderID tenantID none],
          (uc.orderRepo.Confirm ctx orderID tenantID
            (uc.consumeItems p tenantID authToken reference order.Items
              (uc.orderRepo.FindByID ctx orderID tenantID w).2).2.2).2)) := by
  rcases hf : (uc.orderRepo.FindByID ctx orderID tenantID w).1 with err | order
  · left
    exact ⟨err, rfl, by simp only [ConfirmOrderUseCase.Execute, hf]⟩
  · right
    by_cases hs : order.Status = OrderStatusCreated
    · right
      rcases hl : (uc.consumeItems p tenantID authToken reference order.Items
          (uc.orderRepo.FindByID ctx orderID tenantID w).2).1 with _ | err
      · right
        rcases hc : (uc.orderRepo.Confirm ctx orderID tenantID
            (uc.consumeItems p tenantID authToken reference order.Items
              (uc.orderRepo.FindByID ctx orderID tenantID w).2).2.2).1 with _ | err
        · right
          refine ⟨order, rfl, hs, hl, ?_⟩
          simp only [ConfirmOrderUseCase.Execute, hf, hs, hl, hc]
          simp
        · left
          refine ⟨order, err, rfl, hs, hl, ?_⟩
          simp only [ConfirmOrderUseCase.Execute, hf, hs, hl, hc]
          simp
      · left
        refine ⟨order, err, rfl, hs, hl, ?_⟩
        simp only [ConfirmOrderUseCase.Execute, hf, hs, hl]
        simp
    · left
      refine ⟨order, rfl, hs, ?_⟩
      simp only [ConfirmOrderUseCase.Execute, hf]
      simp [hs]

/-! ## Lemmas on `contains` and on traces of `Confirm` -/

theorem isPrefixOf_append_self (a b : List Char) : a.isPrefixOf (a ++ b) = true := by
  induction a with
  | nil => simp [List.isPrefixOf]
  | cons c rest ih => simp [List.isPrefixOf, ih]

/-- A text contains each text it starts with. -/
theorem contains_append_self (a b : String) : contains (a ++ b) a = true := by
  unfold contains
  rw [List.any_eq_true]
  refine ⟨(a ++ b).data, ?_, ?_⟩
  · exact (List.mem_tails _ _).mpr (List.suffix_refl _)
  · rw [String.data_append]
    exact isPrefixOf_append_self _ _

/-- The message of the conflict answer contains the phrase the use case looks for. -/
theorem contains_conflict_message (body : String) :
    contains ("insufficient reserved stock: " ++ body) "insufficient reserved stock" = true := by
  have h : ("insufficient reserved stock: " : String) = "insufficient reserved stock" ++ ": " := by
    decide
  rw [h, String.append_assoc]
  exact contains_append_self _ _

theorem mem_confirmCalls (orderID tenantID : String) (res : Option GoError) (tr : List Event)
    (h : Event.Confirm orderID tenantID res ∈ tr) : (orderID, tenantID) ∈ confirmCalls tr := by
  induction tr with
  | nil => simp at h
  | cons e rest ih =>
    rcases List.mem_cons.mp h with h1 | h1
    · subst h1
      simp [confirmCalls]
    · have h2 := ih h1
      cases e <;> simp [confirmCalls, h2]

/-! ## Claims on the confirm use case -/

/-- C1: when the repository returns the order with any status other than CREATED,
`ConfirmOrderUseCase.Execute` returns no order and `ErrOrderNotInCreatedState`, and its
trace holds no `ConsumeStock` call, no request to the gateway and no repository `Confirm`
call, whatever the items and whatever the gateway does. -/
theorem confirm_rejects_non_created {σ : Type} (uc : ConfirmOrderUseCase σ) (p : Platform σ)
    (ctx : Context) (tenantID authToken orderID reference : String) (w : σ) (order : Order)
    (hfound : (uc.orderRepo.FindByID ctx orderID tenantID w).1 = .ok order)
    (hstatus : order.Status ≠ OrderStatusCreated) :
    (uc.Execute p ctx tenantID authToken orderID reference w).1 =
        .error ErrOrderNotInCreatedState ∧
      consumeCalls (uc.Execute p ctx tenantID authToken orderID reference w).2.1 = [] ∧
      gatewayRequests (uc.Execute p ctx tenantID authToken orderID reference w).2.1 = [] ∧
      confirmCalls (uc.Execute p ctx tenantID authToken orderID reference w).2.1 = [] := by
  simp only [ConfirmOrderUseCase.Execute, hfound]
  simp [hstatus, consumeCalls, gatewayRequests, confirmCalls]

/-- C1, at an order already CONFIRMED whose two items the gateway could serve. -/
theorem confirm_rejects_non_created_witness :
    ((stubRepo.FindByID ⟨false⟩ "o1" "t1"
        (sampleWorld OrderStatusConfirmed [("A", 1), ("B", 1)] none)).1 =
        .ok (sampleOrder OrderStatusConfirmed) ∧
      (sampleOrder OrderStatusConfirmed).Status ≠ OrderStatusCreated) ∧
    ((stubConfirm.Execute stubPlatform ⟨false⟩ "t1" "tok" "o1" "ref"
        (sampleWorld OrderStatusConfirmed [("A", 1), ("B", 1)] none)).1 =
        .error ErrOrderNotInCreatedState ∧
      consumeCalls (stubConfirm.Execute stubPlatform ⟨false⟩ "t1" "tok" "o1" "ref"
        (sampleWorld OrderStatusConfirmed [("A", 1), ("B", 1)] none)).2.1 = [] ∧
      gatewayRequests (stubConfirm.Execute stubPlatform ⟨false⟩ "t1" "tok" "o1" "ref"
        (sampleWorld OrderStatusConfirmed [("A", 1), ("B", 1)] none)).2.1 = [] ∧
      confirmCalls (stubConfirm.Execute stubPlatform ⟨false⟩ "t1" "tok" "o1" "ref"
        (sampleWorld OrderStatusConfirmed [("A", 1), ("B", 1)] none)).2.1 = []) :=
  ⟨⟨by decide, by decide⟩,
    confirm_rejects_non_created stubConfirm stubPlatform ⟨false⟩ "t1" "tok" "o1" "ref"
      (sampleWorld OrderStatusConfirmed [("A", 1), ("B", 1)] none)
      (sampleOrder OrderStatusConfirmed) (by decide) (by decide)⟩

/-- C2: for an order the repository returns in status CREATED, the `ConsumeStock` calls of
`ConfirmOrderUseCase.Execute` are those for the first `k` stored items, in stored order and
one per item, each with the item's SKU and quantity and the caller's tenant, token and
reference; either no call failed and `k` is the number of items, or call `k` is the first
and only call that failed, so that the items after the `k`-th are never attempted. -/
theorem confirm_consumes_items_in_order {σ : Type} (uc : ConfirmOrderUseCase σ) (p : Platform σ)
    (ctx : Context) (tenantID authToken orderID reference : String) (w : σ) (order : Order)
    (hfound : (uc.orderRepo.FindByID ctx orderID tenantID w).1 = .ok order)
    (hstatus : order.Status = OrderStatusCreated) :
    ∃ k, k ≤ order.Items.length ∧
      consumeCalls (uc.Execute p ctx tenantID authToken orderID reference w).2.1 =
        (order.Items.take k).map (fun item =>
          (tenantID, authToken, item.SKU, item.Quantity, reference)) ∧
      ((k = order.Items.length ∧
          consumeOutcomes (uc.Execute p ctx tenantID authToken orderID reference w).2.1 =
            List.replicate k true) ∨
        (0 < k ∧
          consumeOutcomes (uc.Execute p ctx tenantID authToken orderID reference w).2.1 =
            List.replicate (k - 1) true ++ [false])) := by
  obtain ⟨-, -, k, hle, hcalls, hcase⟩ := consumeItems_spec uc p tenantID authToken reference
    order.Items (uc.orderRepo.FindByID ctx orderID tenantID w).2
  have hargs : consumeArgs tenantID authToken reference = fun item =>
      (tenantID, authToken, item.SKU, item.Quantity, reference) := rfl
  rw [hargs] at hcalls
  rcases confirmExecute_cases uc p ctx tenantID authToken orderID reference w with
    ⟨err, hf, -⟩ | ⟨o, hf, hs, -⟩ | ⟨o, err, hf, -, hl, hex⟩ | ⟨o, err, hf, -, hl, hex⟩ |
    ⟨o, hf, -, hl, hex⟩
  · rw [hfound] at hf
    cases hf
  · rw [hfound] at hf
    cases hf
    exact absurd hstatus hs
  · rw [hfound] at hf
    cases hf
    refine ⟨k, hle, ?_, ?_⟩
    · rw [hex]
      simpa [consumeCalls] using hcalls
    · rw [hex]
      rcases hcase with ⟨hnone, -⟩ | ⟨it, e, -, hpos, -, hout, -⟩
      · rw [hl] at hnone
        cases hnone
      · exact Or.inr ⟨hpos, by simpa [consumeOutcomes] using hout⟩
  · rw [hfound] at hf
    cases hf
    refine ⟨k, hle, ?_, ?_⟩
    · rw [hex]
      simpa [consumeCalls, consumeCalls_append] using hcalls
    · rw [hex]
      rcases hcase with ⟨-, hk, hout, -⟩ | ⟨it, e, -, -, hsome, -⟩
      · exact Or.inl ⟨hk, by simpa [consumeOutcomes, consumeOutcomes_append] using hout⟩
      · rw [hl] at hsome
        cases hsome
  · rw [hfound] at hf
    cases hf
    refine ⟨k, hle, ?_, ?_⟩
    · rw [hex]
      simpa [consumeCalls, consumeCalls_append] using hcalls
    · rw [hex]
      rcases hcase with ⟨-, hk, hout, -⟩ | ⟨it, e, -, -, hsome, -⟩
      · exact Or.inl ⟨hk, by simpa [consumeOutcomes, consumeOutcomes_append] using hout⟩
      · rw [hl] at hsome
        cases hsome

/-- C2, at a CREATED order of two items of which the gateway can serve only the first. -/
theorem confirm_consumes_items_in_order_witness :
    ((stubRepo.FindByID ⟨false⟩ "o1" "t1"
        (sampleWorld OrderStatusCreated [("A", 1), ("B", 0)] none)).1 =
        .ok (sampleOrder OrderStatusCreated) ∧
      (sampleOrder OrderStatusCreated).Status = OrderStatusCreated) ∧
    ∃ k, k ≤ (sampleOrder OrderStatusCreated).Items.length ∧
      consumeCalls (stubConfirm.Execute stubPlatform ⟨false⟩ "t1" "tok" "o1" "ref"
        (sampleWorld OrderStatusCreated [("A", 1), ("B", 0)] none)).2.1 =
        ((sampleOrder OrderStatusCreated).Items.take k).map (fun item =>
          ("t1", "tok", item.SKU, item.Quantity, "ref")) ∧
      ((k = (sampleOrder OrderStatusCreated).Items.length ∧
          consumeOutcomes (stubConfirm.Execute stubPlatform ⟨false⟩ "t1" "tok" "o1" "ref"
            (sampleWorld OrderStatusCreated [("A", 1), ("B", 0)] none)).2.1 =
            List.replicate k true) ∨
        (0 < k ∧
          consumeOutcomes (stubConfirm.Execute stubPlatform ⟨false⟩ "t1" "tok" "o1" "ref"
            (sampleWorld OrderStatusCreated [("A", 1), ("B", 0)] none)).2.1 =
            List.replicate (k - 1) true ++ [false])) :=
  ⟨⟨by decide, by decide⟩,
    confirm_consumes_items_in_order stubConfirm stubPlatform ⟨false⟩ "t1" "tok" "o1" "ref"
      (sampleWorld OrderStatusCreated [("A", 1), ("B", 0)] none)
      (sampleOrder OrderStatusCreated) (by decide) (by decide)⟩

/-- What the readers see of a run that reached the repository's `Confirm`. -/
theorem readers_of_confirm_run (orderID tenantID : String) (found : Except GoError Order)
    (loop : List Event) (res : Option GoError) :
    confirmCalls (Event.FindByID orderID tenantID found :: loop ++
        [Event.Confirm orderID tenantID res]) = confirmCalls loop ++ [(orderID, tenantID)] ∧
    consumeCalls (Event.FindByID orderID tenantID found :: loop ++
        [Event.Confirm orderID tenantID res]) = consumeCalls loop ∧
    consumeOutcomes (Event.FindByID orderID tenantID found :: loop ++
        [Event.Confirm orderID tenantID res]) = consumeOutcomes loop ∧
    failedConsume (Event.FindByID orderID tenantID found :: loop ++
        [Event.Confirm orderID tenantID res]) = failedConsume loop ∧
    gatewayRequests (Event.FindByID orderID tenantID found :: loop ++
        [Event.Confirm orderID tenantID res]) = gatewayRequests loop := by
  refine ⟨?_, ?_, ?_, ?_, ?_⟩
  · simp [confirmCalls, confirmCalls_append]
  · simp [consumeCalls, consumeCalls_append]
  · simp [consumeOutcomes, consumeOutcomes_append]
  · simp [failedConsume, failedConsume_append]
  · simp [gatewayRequests, gatewayRequests_append]

/-- What the readers see of a run that left the loop, or did not enter it. -/
theorem readers_of_loop_run (orderID tenantID : String) (found : Except GoError Order)
    (loop : List Event) :
    confirmCalls (Event.FindByID orderID tenantID found :: loop) = confirmCalls loop ∧
    consumeCalls (Event.FindByID orderID tenantID found :: loop) = consumeCalls loop ∧
    consumeOutcomes (Event.FindByID orderID tenantID found :: loop) = consumeOutcomes loop ∧
    failedConsume (Event.FindByID orderID tenantID found :: loop) = failedConsume loop ∧
    gatewayRequests (Event.FindByID orderID tenantID found :: loop) = gatewayRequests loop :=
  ⟨rfl, rfl, rfl, rfl, rfl⟩

/-- The confirm loop against the client serving the items one after the other: the loop runs
to its end, leaving the world the client leaves, exactly when every call of the client
succeeds. -/
theorem consumeItems_consumeAll {σ : Type} (uc : ConfirmOrderUseCase σ) (p : Platform σ)
    (tenantID authToken reference : String) (items : List OrderItem) :
    ∀ w : σ,
      (∀ w2, uc.stockClient.consumeAll p tenantID authToken reference items w = some w2 →
        (uc.consumeItems p tenantID authToken reference items w).1 = none ∧
        (uc.consumeItems p tenantID authToken reference items w).2.2 = w2) ∧
      (uc.stockClient.consumeAll p tenantID authToken reference items w = none →
        (uc.consumeItems p tenantID authToken reference items w).1 ≠ none) := by
  induction items with
  | nil =>
    intro w
    constructor
    · intro w2 h
      simp only [StockClient.consumeAll, Option.some.injEq] at h
      exact ⟨rfl, h⟩
    · intro h
      simp [StockClient.consumeAll] at h
  | cons item rest ih =>
    intro w
    rcases hcall : (uc.stockClient.ConsumeStock p tenantID authToken item.SKU item.Quantity
      reference w).1 with err | resp
    · rw [consumeItems_cons_error uc p tenantID authToken reference item rest w err hcall]
      constructor
      · intro w2 h
        simp [StockClient.consumeAll, hcall] at h
      · intro _
        simp
    · rw [consumeItems_cons_ok uc p tenantID authToken reference item rest w resp hcall]
      have hall : uc.stockClient.consumeAll p tenantID authToken reference (item :: rest) w =
          uc.stockClient.consumeAll p tenantID authToken reference rest
            (uc.stockClient.ConsumeStock p tenantID authToken item.SKU item.Quantity
              reference w).2.2 := by
        simp only [StockClient.consumeAll, hcall]
      rw [hall]
      exact ih _

/-- A run whose loop ran to its end calls the repository's `Confirm` on the world the loop
left, as its last event, and returns what that call decides. -/
theorem confirmExecute_after_loop {σ : Type} (uc : ConfirmOrderUseCase σ) (p : Platform σ)
    (ctx : Context) (tenantID authToken orderID reference : String) (w : σ) (o : Order)
    (hf : (uc.orderRepo.FindByID ctx orderID tenantID w).1 = .ok o)
    (hs : o.Status = OrderStatusCreated)
    (hl : (uc.consumeItems p tenantID authToken reference o.Items
      (uc.orderRepo.FindByID ctx orderID tenantID w).2).1 = none) :
    (uc.Execute p ctx tenantID authToken orderID reference w).2.1 =
        Event.FindByID orderID tenantID (.ok o) ::
          (uc.consumeItems p tenantID authToken reference o.Items
            (uc.orderRepo.FindByID ctx orderID tenantID w).2).2.1 ++
          [Event.Confirm orderID tenantID
            (uc.orderRepo.Confirm ctx orderID tenantID
              (uc.consumeItems p tenantID authToken reference o.Items
                (uc.orderRepo.FindByID ctx orderID tenantID w).2).2.2).1] ∧
    (uc.Execute p ctx tenantID authToken orderID reference w).2.2 =
      (uc.orderRepo.Confirm ctx orderID tenantID
        (uc.consumeItems p tenantID authToken reference o.Items
          (uc.orderRepo.FindByID ctx orderID tenantID w).2).2.2).2 ∧
    ((uc.orderRepo.Confirm ctx orderID tenantID
        (uc.consumeItems p tenantID authToken reference o.Items
          (uc.orderRepo.FindByID ctx orderID tenantID w).2).2.2).1 = none →
      (uc.Execute p ctx tenantID authToken orderID reference w).1 =
        .ok { o with Status := OrderStatusConfirmed }) := by
  rcases hc : (uc.orderRepo.Confirm ctx orderID tenantID
      (uc.consumeItems p tenantID authToken reference o.Items
        (uc.orderRepo.FindByID ctx orderID tenantID w).2).2.2).1 with _ | err
  · simp only [ConfirmOrderUseCase.Execute, hf, hs, hl, hc]
    simp
  · simp only [ConfirmOrderUseCase.Execute, hf, hs, hl, hc]
    simp

/-- C3: `ConfirmOrderUseCase.Execute` calls the repository's `Confirm` if and only if the
repository's `FindByID` returned an order in status CREATED and the stock client, serving the
`ConsumeStock` calls for its items one after the other, succeeded on every one. It then calls
`Confirm` exactly once, as the last event of the run, after one succeeded `ConsumeStock` call
per item in stored order, on the world those calls left; and when `Confirm` succeeds `Execute`
returns, without error, the loaded order with status CONFIRMED and with order id, tenant,
creation time and items unchanged. -/
theorem confirm_calls_repository_after_all_items {σ : Type} (uc : ConfirmOrderUseCase σ)
    (p : Platform σ) (ctx : Context) (tenantID authToken orderID reference : String) (w : σ) :
    (confirmCalls (uc.Execute p ctx tenantID authToken orderID reference w).2.1 ≠ [] ↔
      ∃ order w2, (uc.orderRepo.FindByID ctx orderID tenantID w).1 = .ok order ∧
        order.Status = OrderStatusCreated ∧
        uc.stockClient.consumeAll p tenantID authToken reference order.Items
          (uc.orderRepo.FindByID ctx orderID tenantID w).2 = some w2) ∧
    (∀ order w2, (uc.orderRepo.FindByID ctx orderID tenantID w).1 = .ok order →
      order.Status = OrderStatusCreated →
      uc.stockClient.consumeAll p tenantID authToken reference order.Items
        (uc.orderRepo.FindByID ctx orderID tenantID w).2 = some w2 →
      confirmCalls (uc.Execute p ctx tenantID authToken orderID reference w).2.1 =
        [(orderID, tenantID)] ∧
      (∃ before, (uc.Execute p ctx tenantID authToken orderID reference w).2.1 =
          before ++ [Event.Confirm orderID tenantID
            (uc.orderRepo.Confirm ctx orderID tenantID w2).1] ∧
        confirmCalls before = [] ∧
        consumeCalls before =
          order.Items.map (fun item =>
            (tenantID, authToken, item.SKU, item.Quantity, reference)) ∧
        consumeOutcomes before = List.replicate order.Items.length true) ∧
      (uc.Execute p ctx tenantID authToken orderID reference w).2.2 =
        (uc.orderRepo.Confirm ctx orderID tenantID w2).2 ∧
      ((uc.orderRepo.Confirm ctx orderID tenantID w2).1 = none →
        (uc.Execute p ctx tenantID authToken orderID reference w).1 =
          .ok { OrderID := order.OrderID, TenantID := order.TenantID,
                Status := OrderStatusConfirmed, CreatedAt := order.CreatedAt,
                Items := order.Items })) := by
  have hreached : ∀ order w2, (uc.orderRepo.FindByID ctx orderID tenantID w).1 = .ok order →
      order.Status = OrderStatusCreated →
      uc.stockClient.consumeAll p tenantID authToken reference order.Items
        (uc.orderRepo.FindByID ctx orderID tenantID w).2 = some w2 →
      confirmCalls (uc.Execute p ctx tenantID authToken orderID reference w).2.1 =
        [(orderID, tenantID)] ∧
      (∃ before, (uc.Execute p ctx tenantID authToken orderID reference w).2.1 =
          before ++ [Event.Confirm orderID tenantID
            (uc.orderRepo.Confirm ctx orderID tenantID w2).1] ∧
        confirmCalls before = [] ∧
        consumeCalls before =
          order.Items.map (fun item =>
            (tenantID, authToken, item.SKU, item.Quantity, reference)) ∧
        consumeOutcomes before = List.replicate order.Items.length true) ∧
      (uc.Execute p ctx tenantID authToken orderID reference w).2.2 =
        (uc.orderRepo.Confirm ctx orderID tenantID w2).2 ∧
      ((uc.orderRepo.Confirm ctx orderID tenantID w2).1 = none →
        (uc.Execute p ctx tenantID authToken orderID reference w).1 =
          .ok { OrderID := order.OrderID, TenantID := order.TenantID,
                Status := OrderStatusConfirmed, CreatedAt := order.CreatedAt,
                Items := order.Items }) := by
    intro order w2 hf hs hall
    obtain ⟨hl, hw2⟩ := (consumeItems_consumeAll uc p tenantID authToken reference order.Items
      (uc.orderRepo.FindByID ctx orderID tenantID w).2).1 w2 hall
    obtain ⟨htr, hworld, hres⟩ :=
      confirmExecute_after_loop uc p ctx tenantID authToken orderID reference w order hf hs hl
    rw [hw2] at htr hworld hres
    obtain ⟨hk, -, k, hle, hcalls, hcase⟩ := consumeItems_spec uc p tenantID authToken
      reference order.Items (uc.orderRepo.FindByID ctx orderID tenantID w).2
    obtain ⟨hcc, -, -, -, -⟩ := readers_of_confirm_run orderID tenantID (.ok order)
      (uc.consumeItems p tenantID authToken reference order.Items
        (uc.orderRepo.FindByID ctx orderID tenantID w).2).2.1
      (uc.orderRepo.Confirm ctx orderID tenantID w2).1
    obtain ⟨hcb, hob, hoo, -, -⟩ := readers_of_loop_run orderID tenantID (.ok order)
      (uc.consumeItems p tenantID authToken reference order.Items
        (uc.orderRepo.FindByID ctx orderID tenantID w).2).2.1
    rcases hcase with ⟨-, hkeq, hout, -⟩ | ⟨it, e, -, -, hsome, -⟩
    · subst hkeq
      refine ⟨?_, ⟨_, htr, ?_, ?_, ?_⟩, hworld, hres⟩
      · rw [htr, hcc, hk]
        rfl
      · rw [hcb, hk]
      · rw [hob, hcalls, List.take_length]
        rfl
      · rw [hoo, hout]
    · rw [hl] at hsome
      cases hsome
  refine ⟨⟨fun hne => ?_, fun ⟨order, w2, hf, hs, hall⟩ => ?_⟩, hreached⟩
  · rcases confirmExecute_cases uc p ctx tenantID authToken orderID reference w with
      ⟨err, hf, hex⟩ | ⟨o, hf, hs, hex⟩ | ⟨o, err, hf, hs, hl, hex⟩ |
      ⟨o, err, hf, hs, hl, hex⟩ | ⟨o, hf, hs, hl, hex⟩
    · rw [hex] at hne
      exact absurd rfl hne
    · rw [hex] at hne
      exact absurd rfl hne
    · obtain ⟨hk, -⟩ := consumeItems_spec uc p tenantID authToken reference
        o.Items (uc.orderRepo.FindByID ctx orderID tenantID w).2
      rw [hex] at hne
      exact absurd (by simpa [confirmCalls] using hk) hne
    · rcases hall : uc.stockClient.consumeAll p tenantID authToken reference o.Items
          (uc.orderRepo.FindByID ctx orderID tenantID w).2 with _ | w2
      · exact absurd hl ((consumeItems_consumeAll uc p tenantID authToken reference o.Items
          (uc.orderRepo.FindByID ctx orderID tenantID w).2).2 hall)
      · exact ⟨o, w2, hf, hs, hall⟩
    · rcases hall : uc.stockClient.consumeAll p tenantID authToken reference o.Items
          (uc.orderRepo.FindByID ctx orderID tenantID w).2 with _ | w2
      · exact absurd hl ((consumeItems_consumeAll uc p tenantID authToken reference o.Items
          (uc.orderRepo.FindByID ctx orderID tenantID w).2).2 hall)
      · exact ⟨o, w2, hf, hs, hall⟩
  · rw [(hreached order w2 hf hs hall).1]
    simp

/-- C3, at a CREATED order of two items that the gateway can both serve and a repository
whose `Confirm` succeeds: `Confirm` is called once, after the two `ConsumeStock` calls, and
`Execute` returns the order with status CONFIRMED. -/
theorem confirm_calls_repository_after_all_items_witness :
    ((stubRepo.FindByID ⟨false⟩ "o1" "t1"
        (sampleWorld OrderStatusCreated [("A", 1), ("B", 1)] none)).1 =
        .ok (sampleOrder OrderStatusCreated) ∧
      (sampleOrder OrderStatusCreated).Status = OrderStatusCreated ∧
      stubClient.consumeAll stubPlatform "t1" "tok" "ref" (sampleOrder OrderStatusCreated).Items
        (stubRepo.FindByID ⟨false⟩ "o1" "t1"
          (sampleWorld OrderStatusCreated [("A", 1), ("B", 1)] none)).2 =
        some (sampleWorld OrderStatusCreated [("A", 0), ("B", 0)] none) ∧
      (stubRepo.Confirm ⟨false⟩ "o1" "t1"
        (sampleWorld OrderStatusCreated [("A", 0), ("B", 0)] none)).1 = none) ∧
    confirmCalls (stubConfirm.Execute stubPlatform ⟨false⟩ "t1" "tok" "o1" "ref"
        (sampleWorld OrderStatusCreated [("A", 1), ("B", 1)] none)).2.1 = [("o1", "t1")] ∧
    (stubConfirm.Execute stubPlatform ⟨false⟩ "t1" "tok" "o1" "ref"
        (sampleWorld OrderStatusCreated [("A", 1), ("B", 1)] none)).1 =
      .ok { OrderID := "o1", TenantID := "t1", Status := OrderStatusConfirmed, CreatedAt := 0,
            Items := [⟨"i1", "o1", "A", 1⟩, ⟨"i2", "o1", "B", 1⟩] } ∧
    consumeCalls (stubConfirm.Execute stubPlatform ⟨false⟩ "t1" "tok" "o1" "ref"
        (sampleWorld OrderStatusCreated [("A", 1), ("B", 1)] none)).2.1 =
      [("t1", "tok", "A", 1, "ref"), ("t1", "tok", "B", 1, "ref")] :=
  ⟨⟨by decide, by decide, by decide, by decide⟩,
    ((confirm_calls_repository_after_all_items stubConfirm stubPlatform ⟨false⟩ "t1" "tok" "o1"
      "ref" (sampleWorld OrderStatusCreated [("A", 1), ("B", 1)] none)).2
        (sampleOrder OrderStatusCreated) (sampleWorld OrderStatusCreated [("A", 0), ("B", 0)] none)
        (by decide) (by decide) (by decide)).1,
    ((confirm_calls_repository_after_all_items stubConfirm stubPlatform ⟨false⟩ "t1" "tok" "o1"
      "ref" (sampleWorld OrderStatusCreated [("A", 1), ("B", 1)] none)).2
        (sampleOrder OrderStatusCreated) (sampleWorld OrderStatusCreated [("A", 0), ("B", 0)] none)
        (by decide) (by decide) (by decide)).2.2.2 (by decide),
    by decide⟩

/-- C4: when the repository's `Confirm` call of a run fails with `e` (it is only reached when
every `ConsumeStock` call succeeded), `ConfirmOrderUseCase.Execute` returns no order and the
error "error confirming order: ..." wrapping `e`; all `ConsumeStock` calls, one per item,
were issued and succeeded, and the requests handed to the gateway in the whole run are
exactly these consume requests: no `RevertConsume` or other compensating request. -/
theorem confirm_persistence_failure {σ : Type} (uc : ConfirmOrderUseCase σ) (p : Platform σ)
    (ctx : Context) (tenantID authToken orderID reference : String) (w : σ) (order : Order)
    (e : GoError)
    (hfound : (uc.orderRepo.FindByID ctx orderID tenantID w).1 = .ok order)
    (hconfirm : Event.Confirm orderID tenantID (some e) ∈
      (uc.Execute p ctx tenantID authToken orderID reference w).2.1) :
    (uc.Execute p ctx tenantID authToken orderID reference w).1 =
        .error (.wrapf ("error confirming order: " ++ e.Error) e) ∧
      consumeCalls (uc.Execute p ctx tenantID authToken orderID reference w).2.1 =
        order.Items.map (fun item => (tenantID, authToken, item.SKU, item.Quantity, reference)) ∧
      consumeOutcomes (uc.Execute p ctx tenantID authToken orderID reference w).2.1 =
        List.replicate order.Items.length true ∧
      gatewayRequests (uc.Execute p ctx tenantID authToken orderID reference w).2.1 =
        order.Items.map (fun item =>
          uc.stockClient.consumeRequest tenantID authToken item.SKU item.Quantity reference) := by
  have hmem := mem_confirmCalls _ _ _ _ hconfirm
  rcases confirmExecute_cases uc p ctx tenantID authToken orderID reference w with
    ⟨err, hf, hex⟩ | ⟨o, hf, hs, hex⟩ | ⟨o, err, hf, hs, hl, hex⟩ | ⟨o, err, hf, hs, hl, hex⟩ |
    ⟨o, hf, hs, hl, hex⟩
  · rw [hex] at hmem
    simp [confirmCalls] at hmem
  · rw [hex] at hmem
    simp [confirmCalls] at hmem
  · obtain ⟨hk, -⟩ := consumeItems_spec uc p tenantID authToken reference
      o.Items (uc.orderRepo.FindByID ctx orderID tenantID w).2
    rw [hex] at hmem
    simp [confirmCalls, hk] at hmem
  · obtain ⟨hk, -, k, hle, hcalls, hcase⟩ := consumeItems_spec uc p tenantID authToken reference
      o.Items (uc.orderRepo.FindByID ctx orderID tenantID w).2
    obtain ⟨-, hcc, hoo, -, hgg⟩ := readers_of_confirm_run orderID tenantID (.ok o)
      (uc.consumeItems p tenantID authToken reference o.Items
        (uc.orderRepo.FindByID ctx orderID tenantID w).2).2.1 (some err)
    rw [hfound] at hf
    cases hf
    rw [hex] at hconfirm ⊢
    have hres : err = e := by
      rcases List.mem_cons.mp hconfirm with h | h
      · cases h
      · rcases List.mem_append.mp h with h | h
        · have := mem_confirmCalls _ _ _ _ h
          rw [hk] at this
          simp at this
        · have h2 := List.mem_singleton.mp h
          injection h2 with _ _ h3
          injection h3 with h4
          exact h4.symm
    subst hres
    rcases hcase with ⟨-, hkeq, hout, -, hgw⟩ | ⟨it, e2, -, -, hsome, -⟩
    · subst hkeq
      refine ⟨rfl, ?_, ?_, ?_⟩
      · show consumeCalls _ = _
        rw [hcc, hcalls, List.take_length]
        rfl
      · show consumeOutcomes _ = _
        rw [hoo, hout]
      · show gatewayRequests _ = _
        rw [hgg, hgw]
    · rw [hl] at hsome
      cases hsome
  · obtain ⟨hk, -⟩ := consumeItems_spec uc p tenantID authToken reference
      o.Items (uc.orderRepo.FindByID ctx orderID tenantID w).2
    rw [hex] at hconfirm
    rcases List.mem_cons.mp hconfirm with h | h
    · cases h
    · rcases List.mem_append.mp h with h | h
      · have := mem_confirmCalls _ _ _ _ h
        rw [hk] at this
        simp at this
      · have h2 := List.mem_singleton.mp h
        injection h2 with _ _ h3
        cases h3

/-- C4, at a CREATED order of two items the gateway serves, with a repository whose `Confirm`
answers "db down". -/
theorem confirm_persistence_failure_witness :
    ((stubRepo.FindByID ⟨false⟩ "o1" "t1"
        (sampleWorld OrderStatusCreated [("A", 1), ("B", 1)] (some (.errorf "db down")))).1 =
        .ok (sampleOrder OrderStatusCreated) ∧
      Event.Confirm "o1" "t1" (some (.errorf "db down")) ∈
        (stubConfirm.Execute stubPlatform ⟨false⟩ "t1" "tok" "o1" "ref"
          (sampleWorld OrderStatusCreated [("A", 1), ("B", 1)] (some (.errorf "db down")))).2.1) ∧
    ((stubConfirm.Execute stubPlatform ⟨false⟩ "t1" "tok" "o1" "ref"
        (sampleWorld OrderStatusCreated [("A", 1), ("B", 1)] (some (.errorf "db down")))).1 =
        .error (.wrapf ("error confirming order: " ++ (GoError.errorf "db down").Error)
          (.errorf "db down")) ∧
      consumeCalls (stubConfirm.Execute stubPlatform ⟨false⟩ "t1" "tok" "o1" "ref"
        (sampleWorld OrderStatusCreated [("A", 1), ("B", 1)] (some (.errorf "db down")))).2.1 =
        (sampleOrder OrderStatusCreated).Items.map (fun item =>
          ("t1", "tok", item.SKU, item.Quantity, "ref")) ∧
      consumeOutcomes (stubConfirm.Execute stubPlatform ⟨false⟩ "t1" "tok" "o1" "ref"
        (sampleWorld OrderStatusCreated [("A", 1), ("B", 1)] (some (.errorf "db down")))).2.1 =
        List.replicate (sampleOrder OrderStatusCreated).Items.length true ∧
      gatewayRequests (stubConfirm.Execute stubPlatform ⟨false⟩ "t1" "tok" "o1" "ref"
        (sampleWorld OrderStatusCreated [("A", 1), ("B", 1)] (some (.errorf "db down")))).2.1 =
        (sampleOrder OrderStatusCreated).Items.map (fun item =>
          stubConfirm.stockClient.consumeRequest "t1" "tok" item.SKU item.Quantity "ref")) :=
  ⟨⟨by decide, by decide⟩,
    confirm_persistence_failure stubConfirm stubPlatform ⟨false⟩ "t1" "tok" "o1" "ref"
      (sampleWorld OrderStatusCreated [("A", 1), ("B", 1)] (some (.errorf "db down")))
      (sampleOrder OrderStatusCreated) (.errorf "db down") (by decide) (by decide)⟩

/-- C5, the run that breaks it: a CREATED order with items `A` and `B`, a gateway holding one
reserved unit of `A` and none of `B`. `Execute` returns an error (the consume of `B` is
answered 409), the consume of `A` has succeeded and has taken the unit of `A` from the
reserve, and the only requests sent are the two consume requests: nothing reverts `A`. -/
theorem confirm_leaves_earlier_items_consumed :
    (stubConfirm.Execute stubPlatform ⟨false⟩ "t1" "tok" "o1" "ref"
        (sampleWorld OrderStatusCreated [("A", 1), ("B", 0)] none)).1 =
      .error (.wrapf
        "insufficient_reserved_stock for SKU B: insufficient reserved stock: not enough reserved"
        (.errorf "insufficient reserved stock: not enough reserved")) ∧
    consumeOutcomes (stubConfirm.Execute stubPlatform ⟨false⟩ "t1" "tok" "o1" "ref"
        (sampleWorld OrderStatusCreated [("A", 1), ("B", 0)] none)).2.1 = [true, false] ∧
    gatewayRequests (stubConfirm.Execute stubPlatform ⟨false⟩ "t1" "tok" "o1" "ref"
        (sampleWorld OrderStatusCreated [("A", 1), ("B", 0)] none)).2.1 =
      [stubClient.consumeRequest "t1" "tok" "A" 1 "ref",
        stubClient.consumeRequest "t1" "tok" "B" 1 "ref"] ∧
    reservedOf (sampleWorld OrderStatusCreated [("A", 1), ("B", 0)] none).reserved "A" = 1 ∧
    reservedOf (stubConfirm.Execute stubPlatform ⟨false⟩ "t1" "tok" "o1" "ref"
        (sampleWorld OrderStatusCreated [("A", 1), ("B", 0)] none)).2.2.reserved "A" = 0 := by
  decide

/-- C6 as stated fails: the gateway answers the consume request with status 500, not with the
conflict status, and a body quoting "insufficient reserved stock"; `Execute` nevertheless
returns the insufficient-reserved-stock classification. -/
theorem confirm_classifies_by_status_counterexample :
    (stubConfirm.Execute failingPlatform ⟨false⟩ "t1" "tok" "o1" "ref"
        (sampleWorld OrderStatusCreated [("A", 1), ("B", 1)] none)).2.1 =
      [Event.FindByID "o1" "t1" (.ok (sampleOrder OrderStatusCreated)),
        Event.ConsumeStock "t1" "tok" "A" 1 "ref"
          (.error (.errorf "stock-service returned status 500: insufficient reserved stock")),
        Event.HttpDo (stubClient.consumeRequest "t1" "tok" "A" 1 "ref")
          (.ok ⟨500, .ok "insufficient reserved stock"⟩)] ∧
    (500 : Int) ≠ StatusConflict ∧
    (stubConfirm.Execute failingPlatform ⟨false⟩ "t1" "tok" "o1" "ref"
        (sampleWorld OrderStatusCreated [("A", 1), ("B", 1)] none)).1 =
      .error (.wrapf
        "insufficient_reserved_stock for SKU A: stock-service returned status 500: insufficient reserved stock"
        (.errorf "stock-service returned status 500: insufficient reserved stock")) := by
  decide

/-- C6, amended: when a `ConsumeStock` call of a confirm fails with the client error `e` for
the item with SKU `sku`, `Execute` returns "insufficient_reserved_stock for SKU <sku>: ..."
exactly when the message of `e` contains "insufficient reserved stock", and "error consuming
stock for SKU <sku>: ..." otherwise, both wrapping `e`. The message of the client's error for
a conflict answer (409) is "insufficient reserved stock: <body>" and contains the phrase for
every body; for any other status than 409 and 200 it is "stock-service returned status
<code>: <body>", which is classified by whether that text contains the phrase. -/
theorem confirm_classifies_by_message {σ : Type} (uc : ConfirmOrderUseCase σ) (p : Platform σ)
    (ctx : Context) (tenantID authToken orderID reference : String) (w : σ)
    (sku : String) (e : GoError)
    (hfail : (sku, e) ∈ failedConsume (uc.Execute p ctx tenantID authToken orderID reference w).2.1) :
    ((uc.Execute p ctx tenantID authToken orderID reference w).1 =
      .error (if contains e.Error "insufficient reserved stock" = true then
          .wrapf ("insufficient_reserved_stock for SKU " ++ sku ++ ": " ++ e.Error) e
        else .wrapf ("error consuming stock for SKU " ++ sku ++ ": " ++ e.Error) e)) ∧
    (∀ body : String,
      StockClient.consumeResult p (.ok ⟨StatusConflict, .ok body⟩) =
          .error (.errorf ("insufficient reserved stock: " ++ body)) ∧
        contains (GoError.errorf ("insufficient reserved stock: " ++ body)).Error
          "insufficient reserved stock" = true) ∧
    (∀ (status : Int) (body : String), status ≠ StatusConflict → status ≠ StatusOK →
      StockClient.consumeResult p (.ok ⟨status, .ok body⟩) =
        .error (.errorf ("stock-service returned status " ++ toString status ++ ": " ++ body))) := by
  refine ⟨?_, fun body => ⟨by simp [StockClient.consumeResult], contains_conflict_message body⟩,
    fun status body h1 h2 => by simp [StockClient.consumeResult, h1, h2]⟩
  rcases confirmExecute_cases uc p ctx tenantID authToken orderID reference w with
    ⟨err, hf, hex⟩ | ⟨o, hf, hs, hex⟩ | ⟨o, err, hf, hs, hl, hex⟩ | ⟨o, err, hf, hs, hl, hex⟩ |
    ⟨o, hf, hs, hl, hex⟩
  · rw [hex] at hfail
    simp [failedConsume] at hfail
  · rw [hex] at hfail
    simp [failedConsume] at hfail
  · obtain ⟨-, -, k, -, -, hcase⟩ := consumeItems_spec uc p tenantID authToken reference
      o.Items (uc.orderRepo.FindByID ctx orderID tenantID w).2
    rw [hex] at hfail ⊢
    rcases hcase with ⟨hnone, -⟩ | ⟨it, e2, -, -, hsome, -, hfc⟩
    · rw [hl] at hnone
      cases hnone
    · have hmem : (sku, e) ∈ failedConsume (uc.consumeItems p tenantID authToken reference
          o.Items (uc.orderRepo.FindByID ctx orderID tenantID w).2).2.1 := hfail
      rw [hfc] at hmem
      have heq := List.mem_singleton.mp hmem
      injection heq with h1 h2
      subst h1
      subst h2
      rw [hl] at hsome
      injection hsome with h3
      subst h3
      rfl
  · obtain ⟨-, -, k, -, -, hcase⟩ := consumeItems_spec uc p tenantID authToken reference
      o.Items (uc.orderRepo.FindByID ctx orderID tenantID w).2
    obtain ⟨-, -, -, hff, -⟩ := readers_of_confirm_run orderID tenantID (.ok o)
      (uc.consumeItems p tenantID authToken reference o.Items
        (uc.orderRepo.FindByID ctx orderID tenantID w).2).2.1 (some err)
    rw [hex] at hfail
    rcases hcase with ⟨-, -, -, hfc, -⟩ | ⟨it, e2, -, -, hsome, -⟩
    · have hmem : (sku, e) ∈ failedConsume (Event.FindByID orderID tenantID (.ok o) ::
          (uc.consumeItems p tenantID authToken reference o.Items
            (uc.orderRepo.FindByID ctx orderID tenantID w).2).2.1 ++
          [Event.Confirm orderID tenantID (some err)]) := hfail
      rw [hff, hfc] at hmem
      cases hmem
    · rw [hl] at hsome
      cases hsome
  · obtain ⟨-, -, k, -, -, hcase⟩ := consumeItems_spec uc p tenantID authToken reference
      o.Items (uc.orderRepo.FindByID ctx orderID tenantID w).2
    obtain ⟨-, -, -, hff, -⟩ := readers_of_confirm_run orderID tenantID (.ok o)
      (uc.consumeItems p tenantID authToken reference o.Items
        (uc.orderRepo.FindByID ctx orderID tenantID w).2).2.1 none
    rw [hex] at hfail
    rcases hcase with ⟨-, -, -, hfc, -⟩ | ⟨it, e2, -, -, hsome, -⟩
    · have hmem : (sku, e) ∈ failedConsume (Event.FindByID orderID tenantID (.ok o) ::
          (uc.consumeItems p tenantID authToken reference o.Items
            (uc.orderRepo.FindByID ctx orderID tenantID w).2).2.1 ++
          [Event.Confirm orderID tenantID none]) := hfail
      rw [hff, hfc] at hmem
      cases hmem
    · rw [hl] at hsome
      cases hsome

/-- C6 amended, at a CREATED order whose second item the gateway refuses with 409. -/
theorem confirm_classifies_by_message_witness :
    ("B", GoError.errorf "insufficient reserved stock: not enough reserved") ∈
        failedConsume (stubConfirm.Execute stubPlatform ⟨false⟩ "t1" "tok" "o1" "ref"
          (sampleWorld OrderStatusCreated [("A", 1), ("B", 0)] none)).2.1 ∧
      (stubConfirm.Execute stubPlatform ⟨false⟩ "t1" "tok" "o1" "ref"
          (sampleWorld OrderStatusCreated [("A", 1), ("B", 0)] none)).1 =
        .error (if contains (GoError.errorf "insufficient reserved stock: not enough reserved").Error
              "insufficient reserved stock" = true then
            .wrapf ("insufficient_reserved_stock for SKU " ++ "B" ++ ": " ++
              (GoError.errorf "insufficient reserved stock: not enough reserved").Error)
              (.errorf "insufficient reserved stock: not enough reserved")
          else
            .wrapf ("error consuming stock for SKU " ++ "B" ++ ": " ++
              (GoError.errorf "insufficient reserved stock: not enough reserved").Error)
              (.errorf "insufficient reserved stock: not enough reserved")) :=
  ⟨by decide,
    (confirm_classifies_by_message stubConfirm stubPlatform ⟨false⟩ "t1" "tok" "o1" "ref"
      (sampleWorld OrderStatusCreated [("A", 1), ("B", 0)] none) "B"
      (.errorf "insufficient reserved stock: not enough reserved") (by decide)).1⟩

/-! ## Claims on the create use case -/

/-- The item loop fails on the first request item that does not validate, with that item's
validation error wrapped. -/
theorem buildItems_invalid {σ : Type} (p : Platform σ) (reqs : List CreateOrderItemRequest) :
    ∀ (items : List OrderItem) (w : σ) (bad : CreateOrderItemRequest),
      reqs.find? (fun r => decide (r.SKU = "" ∨ r.Quantity ≤ 0)) = some bad →
      (CreateOrderUseCase.buildItems p reqs items w).1 =
        .error (.wrapf ("error creating order item: " ++
            (if bad.SKU = "" then ErrSKURequired else ErrInvalidQuantity).Error)
          (if bad.SKU = "" then ErrSKURequired else ErrInvalidQuantity)) := by
  induction reqs with
  | nil => intro items w bad h; simp at h
  | cons r rest ih =>
    intro items w bad h
    by_cases hr : r.SKU = "" ∨ r.Quantity ≤ 0
    · have hb : bad = r := by
        simp [List.find?, hr] at h
        exact h.symm
      subst hb
      by_cases hsku : bad.SKU = ""
      · simp [CreateOrderUseCase.buildItems, NewOrderItem, hsku]
      · have hq : bad.Quantity ≤ 0 := hr.resolve_left hsku
        simp [CreateOrderUseCase.buildItems, NewOrderItem, hsku, hq]
    · have hrest : rest.find? (fun r => decide (r.SKU = "" ∨ r.Quantity ≤ 0)) = some bad := by
        simpa [List.find?, hr] using h
      have hsku : r.SKU ≠ "" := fun h0 => hr (Or.inl h0)
      have hq : ¬ r.Quantity ≤ 0 := fun h0 => hr (Or.inr h0)
      simp only [CreateOrderUseCase.buildItems, NewOrderItem, hsku, hq, if_false]
      exact ih _ _ bad hrest

/-- On request items that all validate, the item loop returns one item per request item, in
request order, with that item's SKU and quantity. -/
theorem buildItems_valid {σ : Type} (p : Platform σ) (reqs : List CreateOrderItemRequest) :
    ∀ (items : List OrderItem) (w : σ),
      (∀ r ∈ reqs, r.SKU ≠ "" ∧ 0 < r.Quantity) →
      ∃ made, (CreateOrderUseCase.buildItems p reqs items w).1 = .ok (items ++ made) ∧
        made.map (fun i => (i.SKU, i.Quantity)) = reqs.map (fun r => (r.SKU, r.Quantity)) := by
  induction reqs with
  | nil =>
    intro items w _
    exact ⟨[], by simp [CreateOrderUseCase.buildItems], rfl⟩
  | cons r rest ih =>
    intro items w h
    obtain ⟨hsku, hq⟩ := h r (List.mem_cons_self _ _)
    have hq2 : ¬ r.Quantity ≤ 0 := not_le.mpr hq
    obtain ⟨made, hmade, hmap⟩ := ih
      (items ++ [{ ItemID := (p.uuidNew w).1, OrderID := "", SKU := r.SKU, Quantity := r.Quantity }])
      (p.uuidNew w).2 (fun x hx => h x (List.mem_cons_of_mem _ hx))
    refine ⟨{ ItemID := (p.uuidNew w).1, OrderID := "", SKU := r.SKU, Quantity := r.Quantity } ::
      made, ?_, ?_⟩
    · simp only [CreateOrderUseCase.buildItems, NewOrderItem, hsku, hq2, if_false]
      rw [hmade]
      simp
    · simp [hmap]

/-- C7: when some item of the request has an empty SKU or a quantity `≤ 0`,
`CreateOrderUseCase.Execute` returns no response and the error "error creating order item:
..." wrapping the validation error of the first such item in request order (`ErrSKURequired`
when its SKU is empty, `ErrInvalidQuantity` otherwise), and its trace is empty: the
repository's `Save` is not called, nor anything else outside the process. -/
theorem create_rejects_invalid_item {σ : Type} (uc : CreateOrderUseCase σ) (p : Platform σ)
    (ctx : Context) (tenantID : String) (req : CreateOrderRequest) (w : σ)
    (hbad : ∃ r ∈ req.Items, r.SKU = "" ∨ r.Quantity ≤ 0) :
    ∃ bad, req.Items.find? (fun r => decide (r.SKU = "" ∨ r.Quantity ≤ 0)) = some bad ∧
      (uc.Execute p ctx tenantID req w).1 =
        .error (.wrapf ("error creating order item: " ++
            (if bad.SKU = "" then ErrSKURequired else ErrInvalidQuantity).Error)
          (if bad.SKU = "" then ErrSKURequired else ErrInvalidQuantity)) ∧
      saveCalls (uc.Execute p ctx tenantID req w).2.1 = [] ∧
      (uc.Execute p ctx tenantID req w).2.1 = [] := by
  obtain ⟨r, hr, hinv⟩ := hbad
  have hsome : (req.Items.find? (fun r => decide (r.SKU = "" ∨ r.Quantity ≤ 0))).isSome := by
    rw [List.find?_isSome]
    exact ⟨r, hr, by simpa using hinv⟩
  obtain ⟨bad, hfind⟩ := Option.isSome_iff_exists.mp hsome
  have hb := buildItems_invalid p req.Items [] w bad hfind
  refine ⟨bad, hfind, ?_, ?_, ?_⟩ <;>
    simp only [CreateOrderUseCase.Execute, hb, saveCalls]

/-- C7, at a request whose second item has no SKU and whose third has quantity 0. -/
theorem create_rejects_invalid_item_witness :
    (∃ r ∈ (CreateOrderRequest.mk [⟨"A", 2⟩, ⟨"", 3⟩, ⟨"C", 0⟩]).Items,
        r.SKU = "" ∨ r.Quantity ≤ 0) ∧
    ∃ bad, (CreateOrderRequest.mk [⟨"A", 2⟩, ⟨"", 3⟩, ⟨"C", 0⟩]).Items.find?
        (fun r => decide (r.SKU = "" ∨ r.Quantity ≤ 0)) = some bad ∧
      (stubCreate.Execute stubPlatform ⟨false⟩ "t1" ⟨[⟨"A", 2⟩, ⟨"", 3⟩, ⟨"C", 0⟩]⟩
          (sampleWorld OrderStatusCreated [] none)).1 =
        .error (.wrapf ("error creating order item: " ++
            (if bad.SKU = "" then ErrSKURequired else ErrInvalidQuantity).Error)
          (if bad.SKU = "" then ErrSKURequired else ErrInvalidQuantity)) ∧
      saveCalls (stubCreate.Execute stubPlatform ⟨false⟩ "t1" ⟨[⟨"A", 2⟩, ⟨"", 3⟩, ⟨"C", 0⟩]⟩
          (sampleWorld OrderStatusCreated [] none)).2.1 = [] ∧
      (stubCreate.Execute stubPlatform ⟨false⟩ "t1" ⟨[⟨"A", 2⟩, ⟨"", 3⟩, ⟨"C", 0⟩]⟩
          (sampleWorld OrderStatusCreated [] none)).2.1 = [] :=
  ⟨⟨⟨"", 3⟩, by decide, by decide⟩,
    create_rejects_invalid_item stubCreate stubPlatform ⟨false⟩ "t1"
      ⟨[⟨"A", 2⟩, ⟨"", 3⟩, ⟨"C", 0⟩]⟩ (sampleWorld OrderStatusCreated [] none)
      ⟨⟨"", 3⟩, by decide, by decide⟩⟩

/-- C8: for a non-empty tenant and a request with at least one item, all with a non-empty
SKU and a quantity `> 0`, the items are built and the order entity is created in status
CREATED for that tenant, with the requested SKUs and quantities in request order;
`CreateOrderUseCase.Execute` calls the repository's `Save` exactly once, with that order (the
call is the whole trace, and the run ends in the world `Save` leaves); and when `Save`
succeeds `Execute` returns a response with the order's id, Status "CREATED", `TotalItems`
equal to the number of requested items, and `Items` of that length whose i-th entry has the
i-th requested SKU and quantity. -/
theorem create_persists_valid_order {σ : Type} (uc : CreateOrderUseCase σ) (p : Platform σ)
    (ctx : Context) (tenantID : String) (req : CreateOrderRequest) (w : σ)
    (htenant : tenantID ≠ "") (hlen : 1 ≤ req.Items.length)
    (hvalid : ∀ r ∈ req.Items, r.SKU ≠ "" ∧ 0 < r.Quantity) :
    ∃ items order,
      (CreateOrderUseCase.buildItems p req.Items [] w).1 = .ok items ∧
      (NewOrder p tenantID items (CreateOrderUseCase.buildItems p req.Items [] w).2).1 =
        .ok order ∧
      order.Status = OrderStatusCreated ∧ order.TenantID = tenantID ∧
      order.Items.map (fun i => (i.SKU, i.Quantity)) =
        req.Items.map (fun r => (r.SKU, r.Quantity)) ∧
      (uc.Execute p ctx tenantID req w).2.1 =
        [Event.Save order (uc.orderRepo.Save ctx order
          (NewOrder p tenantID items (CreateOrderUseCase.buildItems p req.Items [] w).2).2).1] ∧
      saveCalls (uc.Execute p ctx tenantID req w).2.1 = [order] ∧
      (uc.Execute p ctx tenantID req w).2.2 =
        (uc.orderRepo.Save ctx order
          (NewOrder p tenantID items (CreateOrderUseCase.buildItems p req.Items [] w).2).2).2 ∧
      ((uc.orderRepo.Save ctx order
          (NewOrder p tenantID items (CreateOrderUseCase.buildItems p req.Items [] w).2).2).1 =
          none →
        ∃ resp, (uc.Execute p ctx tenantID req w).1 = .ok resp ∧
          resp.OrderID = order.OrderID ∧
          resp.Status = "CREATED" ∧
          resp.TotalItems = (req.Items.length : Int) ∧
          resp.Items.length = req.Items.length ∧
          resp.Items.map (fun i => (i.SKU, i.Quantity)) =
            req.Items.map (fun r => (r.SKU, r.Quantity))) := by
  obtain ⟨made, hmade, hmap⟩ := buildItems_valid p req.Items [] w hvalid
  rw [List.nil_append] at hmade
  have hlenmade : made.length = req.Items.length := by
    have := congrArg List.length hmap
    simpa using this
  have hne : made.length ≠ 0 := by omega
  have horder : NewOrder p tenantID made (CreateOrderUseCase.buildItems p req.Items [] w).2 =
      (.ok { OrderID := (p.uuidNew (CreateOrderUseCase.buildItems p req.Items [] w).2).1,
             TenantID := tenantID, Status := OrderStatusCreated,
             CreatedAt :=
               (p.timeNow (p.uuidNew (CreateOrderUseCase.buildItems p req.Items [] w).2).2).1,
             Items := made },
        (p.timeNow (p.uuidNew (CreateOrderUseCase.buildItems p req.Items [] w).2).2).2) := by
    simp only [NewOrder, htenant, hne, if_false]
  refine ⟨made, _, hmade, by rw [horder], rfl, rfl, hmap, ?_, ?_, ?_, ?_⟩
  · simp only [CreateOrderUseCase.Execute, hmade, horder]
    split <;> rfl
  · simp only [CreateOrderUseCase.Execute, hmade, horder]
    split <;> rfl
  · simp only [CreateOrderUseCase.Execute, hmade, horder]
    split <;> rfl
  · intro hsave
    rw [horder] at hsave
    refine ⟨{ OrderID := (p.uuidNew (CreateOrderUseCase.buildItems p req.Items [] w).2).1,
              Items := made.map (fun item =>
                { ItemID := item.ItemID, SKU := item.SKU, Quantity := item.Quantity }),
              TotalItems := (made.length : Int), Status := OrderStatusCreated },
      ?_, rfl, rfl, ?_, ?_, ?_⟩
    · simp only [CreateOrderUseCase.Execute, hmade, horder, hsave]
    · simp [hlenmade]
    · simp [hlenmade]
    · simpa [List.map_map, Function.comp_def] using hmap

/-- C8, at a request of two valid items for tenant `t1` and a repository whose `Save`
succeeds: the order is saved once, in status CREATED, and the response lists the two items. -/
theorem create_persists_valid_order_witness :
    (("t1" : String) ≠ "" ∧ 1 ≤ (CreateOrderRequest.mk [⟨"A", 2⟩, ⟨"B", 3⟩]).Items.length ∧
      ∀ r ∈ (CreateOrderRequest.mk [⟨"A", 2⟩, ⟨"B", 3⟩]).Items, r.SKU ≠ "" ∧ 0 < r.Quantity) ∧
    (∃ items order,
      (CreateOrderUseCase.buildItems stubPlatform
          (CreateOrderRequest.mk [⟨"A", 2⟩, ⟨"B", 3⟩]).Items []
          (sampleWorld OrderStatusCreated [] none)).1 = .ok items ∧
      (NewOrder stubPlatform "t1" items (CreateOrderUseCase.buildItems stubPlatform
          (CreateOrderRequest.mk [⟨"A", 2⟩, ⟨"B", 3⟩]).Items []
          (sampleWorld OrderStatusCreated [] none)).2).1 = .ok order ∧
      order.Status = OrderStatusCreated ∧ order.TenantID = "t1" ∧
      order.Items.map (fun i => (i.SKU, i.Quantity)) =
        (CreateOrderRequest.mk [⟨"A", 2⟩, ⟨"B", 3⟩]).Items.map (fun r => (r.SKU, r.Quantity)) ∧
      (stubCreate.Execute stubPlatform ⟨false⟩ "t1" ⟨[⟨"A", 2⟩, ⟨"B", 3⟩]⟩
          (sampleWorld OrderStatusCreated [] none)).2.1 =
        [Event.Save order (stubCreate.orderRepo.Save ⟨false⟩ order
          (NewOrder stubPlatform "t1" items (CreateOrderUseCase.buildItems stubPlatform
            (CreateOrderRequest.mk [⟨"A", 2⟩, ⟨"B", 3⟩]).Items []
            (sampleWorld OrderStatusCreated [] none)).2).2).1] ∧
      saveCalls (stubCreate.Execute stubPlatform ⟨false⟩ "t1" ⟨[⟨"A", 2⟩, ⟨"B", 3⟩]⟩
          (sampleWorld OrderStatusCreated [] none)).2.1 = [order] ∧
      (stubCreate.Execute stubPlatform ⟨false⟩ "t1" ⟨[⟨"A", 2⟩, ⟨"B", 3⟩]⟩
          (sampleWorld OrderStatusCreated [] none)).2.2 =
        (stubCreate.orderRepo.Save ⟨false⟩ order
          (NewOrder stubPlatform "t1" items (CreateOrderUseCase.buildItems stubPlatform
            (CreateOrderRequest.mk [⟨"A", 2⟩, ⟨"B", 3⟩]).Items []
            (sampleWorld OrderStatusCreated [] none)).2).2).2 ∧
      ((stubCreate.orderRepo.Save ⟨false⟩ order
          (NewOrder stubPlatform "t1" items (CreateOrderUseCase.buildItems stubPlatform
            (CreateOrderRequest.mk [⟨"A", 2⟩, ⟨"B", 3⟩]).Items []
            (sampleWorld OrderStatusCreated [] none)).2).2).1 = none →
        ∃ resp, (stubCreate.Execute stubPlatform ⟨false⟩ "t1" ⟨[⟨"A", 2⟩, ⟨"B", 3⟩]⟩
            (sampleWorld OrderStatusCreated [] none)).1 = .ok resp ∧
          resp.OrderID = order.OrderID ∧
          resp.Status = "CREATED" ∧
          resp.TotalItems = ((CreateOrderRequest.mk [⟨"A", 2⟩, ⟨"B", 3⟩]).Items.length : Int) ∧
          resp.Items.length = (CreateOrderRequest.mk [⟨"A", 2⟩, ⟨"B", 3⟩]).Items.length ∧
          resp.Items.map (fun i => (i.SKU, i.Quantity)) =
            (CreateOrderRequest.mk [⟨"A", 2⟩, ⟨"B", 3⟩]).Items.map
              (fun r => (r.SKU, r.Quantity)))) ∧
    (stubCreate.Execute stubPlatform ⟨false⟩ "t1" ⟨[⟨"A", 2⟩, ⟨"B", 3⟩]⟩
        (sampleWorld OrderStatusCreated [] none)).1 =
      .ok { OrderID := "id-2",
            Items := [⟨"id-0", "A", 2⟩, ⟨"id-1", "B", 3⟩],
            TotalItems := 2, Status := "CREATED" } ∧
    (stubCreate.Execute stubPlatform ⟨false⟩ "t1" ⟨[⟨"A", 2⟩, ⟨"B", 3⟩]⟩
        (sampleWorld OrderStatusCreated [] none)).2.2.orders =
      [sampleOrder OrderStatusCreated,
        { OrderID := "id-2", TenantID := "t1", Status := OrderStatusCreated, CreatedAt := 0,
          Items := [⟨"id-0", "", "A", 2⟩, ⟨"id-1", "", "B", 3⟩] }] :=
  ⟨⟨by decide, by decide, by decide⟩,
    create_persists_valid_order stubCreate stubPlatform ⟨false⟩ "t1" ⟨[⟨"A", 2⟩, ⟨"B", 3⟩]⟩
      (sampleWorld OrderStatusCreated [] none) (by decide) (by decide) (by decide),
    by decide, by decide⟩

/-! ## Claims on the sequence generator -/

/-- On a value of Go's `int`, `wrapInt` is the identity. -/
theorem wrapInt_of_isGoInt (x : Int) (h : IsGoInt x) : wrapInt x = x := by
  unfold IsGoInt minInt maxInt at h
  unfold wrapInt
  norm_num at h ⊢
  omega

/-- One attempt over the table as a map: the row read is the one the other sessions have
left when the read runs, and the update is applied exactly when the version stored when the
update runs is still the version read. -/
theorem tryGetNextNumber_mapService (ctx : Context) (tenantID documentType : String)
    (w : SeqWorld) (c v : Int)
    (hrow : w.advance.store (tenantID, documentType) = some ⟨c, v⟩) :
    ((∃ row, w.advance.advance.store (tenantID, documentType) = some row ∧ row.version = v) →
      (mapService.tryGetNextNumber ctx tenantID documentType w).1 = (wrapInt (c + 1), none) ∧
      (mapService.tryGetNextNumber ctx tenantID documentType w).2.2 =
        { store := Function.update w.advance.advance.store (tenantID, documentType)
            (some ⟨wrapInt (c + 1), wrapInt (v + 1)⟩),
          others := w.advance.advance.others }) ∧
    ((¬ ∃ row, w.advance.advance.store (tenantID, documentType) = some row ∧ row.version = v) →
      (mapService.tryGetNextNumber ctx tenantID documentType w).1 =
        (0, some ErrConcurrentUpdate) ∧
      (mapService.tryGetNextNumber ctx tenantID documentType w).2.2 = w.advance.advance) := by
  constructor
  · rintro ⟨row, hrow2, hver⟩
    simp [SequenceService.tryGetNextNumber, mapService, mapDB, selectSequence, hrow,
      updateSequence, hrow2, hver]
  · intro hno
    rcases hrow2 : w.advance.advance.store (tenantID, documentType) with _ | row
    · simp [SequenceService.tryGetNextNumber, mapService, mapDB, selectSequence, hrow,
        updateSequence, hrow2]
    · have hver : ¬ row.version = v := fun h => hno ⟨row, hrow2, h⟩
      simp [SequenceService.tryGetNextNumber, mapService, mapDB, selectSequence, hrow,
        updateSequence, hrow2, hver]

/-- With no other writer, the statements of this session see the table as it is. -/
theorem advance_of_no_others (w : SeqWorld) (h : w.others = []) : w.advance = w := by
  unfold SeqWorld.advance
  rw [h]

/-- With no other writer, one `NextNumber` call on the row `(c, v)` returns `c + 1` and
leaves the table with that row at `(c + 1, v + 1)` and every other row as it was. -/
theorem nextNumber_no_others (ctx : Context) (tenantID documentType : String)
    (w : SeqWorld) (c v : Int) (hno : w.others = [])
    (hrow : w.store (tenantID, documentType) = some ⟨c, v⟩)
    (hc : IsGoInt (c + 1)) (hv : IsGoInt (v + 1)) :
    (mapService.NextNumber ctx tenantID documentType w).1 = (c + 1, none) ∧
    (mapService.NextNumber ctx tenantID documentType w).2.2 =
      { store := Function.update w.store (tenantID, documentType) (some ⟨c + 1, v + 1⟩),
        others := [] } := by
  have hadv := advance_of_no_others w hno
  have hrow1 : w.advance.store (tenantID, documentType) = some ⟨c, v⟩ := by rw [hadv]; exact hrow
  obtain ⟨hyes, -⟩ := tryGetNextNumber_mapService ctx tenantID documentType w c v hrow1
  obtain ⟨h1, h2⟩ := hyes ⟨⟨c, v⟩, by rw [hadv, hadv]; exact hrow, rfl⟩
  rw [wrapInt_of_isGoInt _ hc] at h1
  rw [wrapInt_of_isGoInt _ hc, wrapInt_of_isGoInt _ hv, hadv, hadv, hno] at h2
  have hloop : mapService.NextNumber ctx tenantID documentType w =
      ((c + 1, none), (mapService.tryGetNextNumber ctx tenantID documentType w).2.1,
        (mapService.tryGetNextNumber ctx tenantID documentType w).2.2) := by
    simp only [SequenceService.NextNumber, maxRetries, SequenceService.nextNumberLoop, h1]
  rw [hloop]
  exact ⟨rfl, h2⟩

/-- Successive calls with no other writer, by induction on the number of calls: the results,
the row of the key, the other rows, and the absence of other writers afterwards. -/
theorem callN_no_others (ctx : Context) (tenantID documentType : String) (k : Nat) :
    ∀ (w : SeqWorld) (c v : Int), w.others = [] →
      w.store (tenantID, documentType) = some ⟨c, v⟩ →
      IsGoInt c → IsGoInt (c + k) → IsGoInt v → IsGoInt (v + k) →
      (mapService.callN ctx tenantID documentType k w).1 =
          (List.range k).map (fun (i : Nat) => (c + 1 + (i : Int), none)) ∧
        (mapService.callN ctx tenantID documentType k w).2.store (tenantID, documentType) =
          some ⟨c + k, v + k⟩ ∧
        (∀ key, key ≠ (tenantID, documentType) →
          (mapService.callN ctx tenantID documentType k w).2.store key = w.store key) ∧
        (mapService.callN ctx tenantID documentType k w).2.others = [] := by
  induction k with
  | zero =>
    intro w c v hno hrow _ _ _ _
    simp [SequenceService.callN, hrow, hno]
  | succ k ih =>
    intro w c v hno hrow hc hck hv hvk
    have hc1 : IsGoInt (c + 1) := by
      unfold IsGoInt minInt maxInt at *
      push_cast at hck
      omega
    have hv1 : IsGoInt (v + 1) := by
      unfold IsGoInt minInt maxInt at *
      push_cast at hvk
      omega
    have hck1 : IsGoInt (c + 1 + k) := by
      unfold IsGoInt minInt maxInt at *
      push_cast at hck
      omega
    have hvk1 : IsGoInt (v + 1 + k) := by
      unfold IsGoInt minInt maxInt at *
      push_cast at hvk
      omega
    obtain ⟨h1, h2⟩ := nextNumber_no_others ctx tenantID documentType w c v hno hrow hc1 hv1
    obtain ⟨ih1, ih2, ih3, ih4⟩ := ih (mapService.NextNumber ctx tenantID documentType w).2.2
      (c + 1) (v + 1) (by rw [h2]) (by rw [h2]; simp) hc1 hck1 hv1 hvk1
    refine ⟨?_, ?_, ?_, ?_⟩
    · simp only [SequenceService.callN, ih1, h1]
      rw [List.range_succ_eq_map]
      simp only [List.map_cons, List.map_map, Nat.cast_zero, add_zero, List.cons.injEq, true_and]
      apply List.map_congr_left
      intro i _
      show (c + 1 + 1 + (i : Int), (none : Option GoError)) = (c + 1 + ((i + 1 : Nat) : Int), none)
      push_cast
      congr 1
      ring
    · simp only [SequenceService.callN]
      rw [ih2]
      push_cast
      congr 2 <;> ring
    · intro key hkey
      simp only [SequenceService.callN]
      rw [ih3 key hkey, h2]
      simp [Function.update_noteq hkey]
    · simp only [SequenceService.callN]
      exact ih4

/-- C9 as stated fails: on the row `(2 ^ 63 - 1, 2)`, whose number is the largest Go's `int`
holds, with no other writer, the conditional update of the first attempt succeeds and
`NextNumber` returns `-(2 ^ 63)` with no error, not `c + 1 = 2 ^ 63`, and leaves the row at
`(-(2 ^ 63), 3)`. -/
theorem nextNumber_wraps_counterexample :
    fullSeqWorld.advance.store ("t1", "invoice") = some ⟨2 ^ 63 - 1, 2⟩ ∧
    IsGoInt (2 ^ 63 - 1) ∧
    (mapService.NextNumber ⟨false⟩ "t1" "invoice" fullSeqWorld).1 = (-(2 ^ 63), none) ∧
    (mapService.NextNumber ⟨false⟩ "t1" "invoice" fullSeqWorld).2.2.store ("t1", "invoice") =
      some ⟨-(2 ^ 63), 3⟩ ∧
    (mapService.NextNumber ⟨false⟩ "t1" "invoice" fullSeqWorld).1 ≠
      ((2 ^ 63 - 1 : Int) + 1, none) := by
  decide

/-- C9, amended: over the table as a map, when the first attempt of `NextNumber` reads the
row `(c, v)` for the key and its conditional update succeeds, that is the version stored when
the update runs is still `v`, then `NextNumber` returns with no error the sum `c + 1` as Go's
64 bit `int` computes it, and leaves the row at `(c + 1, v + 1)` computed likewise; whenever
`c + 1` and `v + 1` are values of Go's `int`, it returns `c + 1` and the row is
`(c + 1, v + 1)`. When the stored version is no longer `v`, or the row is gone, the attempt
reports `ErrConcurrentUpdate` and writes nothing: the update is applied only if the stored
version still equals the version read. -/
theorem nextNumber_first_attempt (ctx : Context) (tenantID documentType : String)
    (w : SeqWorld) (c v : Int)
    (hrow : w.advance.store (tenantID, documentType) = some ⟨c, v⟩) :
    ((∃ row, w.advance.advance.store (tenantID, documentType) = some row ∧ row.version = v) →
      (mapService.NextNumber ctx tenantID documentType w).1 = (wrapInt (c + 1), none) ∧
      (mapService.NextNumber ctx tenantID documentType w).2.2.store (tenantID, documentType) =
        some ⟨wrapInt (c + 1), wrapInt (v + 1)⟩ ∧
      (IsGoInt (c + 1) → IsGoInt (v + 1) →
        (mapService.NextNumber ctx tenantID documentType w).1 = (c + 1, none) ∧
        (mapService.NextNumber ctx tenantID documentType w).2.2.store (tenantID, documentType) =
          some ⟨c + 1, v + 1⟩)) ∧
    ((¬ ∃ row, w.advance.advance.store (tenantID, documentType) = some row ∧ row.version = v) →
      (mapService.tryGetNextNumber ctx tenantID documentType w).1 =
        (0, some ErrConcurrentUpdate) ∧
      (mapService.tryGetNextNumber ctx tenantID documentType w).2.2.store =
        w.advance.advance.store) := by
  obtain ⟨hyes, hno⟩ := tryGetNextNumber_mapService ctx tenantID documentType w c v hrow
  constructor
  · intro h
    obtain ⟨h1, h2⟩ := hyes h
    have hloop : mapService.NextNumber ctx tenantID documentType w =
        ((wrapInt (c + 1), none), (mapService.tryGetNextNumber ctx tenantID documentType w).2.1,
          (mapService.tryGetNextNumber ctx tenantID documentType w).2.2) := by
      simp only [SequenceService.NextNumber, maxRetries, SequenceService.nextNumberLoop, h1]
    have hstore : (mapService.NextNumber ctx tenantID documentType w).2.2.store
        (tenantID, documentType) = some ⟨wrapInt (c + 1), wrapInt (v + 1)⟩ := by
      rw [hloop]
      simp [h2]
    refine ⟨by rw [hloop], hstore, fun hc hv => ?_⟩
    rw [hstore, hloop, wrapInt_of_isGoInt _ hc, wrapInt_of_isGoInt _ hv]
    exact ⟨rfl, rfl⟩
  · intro h
    obtain ⟨h1, h2⟩ := hno h
    exact ⟨h1, by rw [h2]⟩

/-- C9, amended, at the row `(7, 2)` with no other writer. -/
theorem nextNumber_first_attempt_witness :
    (sampleSeqWorld.advance.store ("t1", "invoice") = some ⟨7, 2⟩ ∧
      (∃ row, sampleSeqWorld.advance.advance.store ("t1", "invoice") = some row ∧
        row.version = 2) ∧ IsGoInt (7 + 1) ∧ IsGoInt (2 + 1)) ∧
    (mapService.NextNumber ⟨false⟩ "t1" "invoice" sampleSeqWorld).1 = (7 + 1, none) ∧
    (mapService.NextNumber ⟨false⟩ "t1" "invoice" sampleSeqWorld).2.2.store
      ("t1", "invoice") = some ⟨7 + 1, 2 + 1⟩ :=
  ⟨⟨by decide, ⟨⟨7, 2⟩, by decide, by decide⟩, by decide, by decide⟩,
    ((nextNumber_first_attempt ⟨false⟩ "t1" "invoice" sampleSeqWorld 7 2 (by decide)).1
      ⟨⟨7, 2⟩, by decide, by decide⟩).2.2 (by decide) (by decide)⟩

/-- C10 as stated fails: from the row `(2 ^ 63 - 1, 2)` with no other writer, two successive
`NextNumber` calls return `-(2 ^ 63)` and `-(2 ^ 63) + 1` with no error, not `c + 1` and
`c + 2`, and leave the row at `(-(2 ^ 63) + 1, 4)`. -/
theorem nextNumber_successive_counterexample :
    fullSeqWorld.others = [] ∧
    fullSeqWorld.store ("t1", "invoice") = some ⟨2 ^ 63 - 1, 2⟩ ∧
    IsGoInt (2 ^ 63 - 1) ∧
    (mapService.callN ⟨false⟩ "t1" "invoice" 2 fullSeqWorld).1 =
      [(-(2 ^ 63), none), (-(2 ^ 63) + 1, none)] ∧
    (mapService.callN ⟨false⟩ "t1" "invoice" 2 fullSeqWorld).2.store ("t1", "invoice") =
      some ⟨-(2 ^ 63) + 1, 4⟩ ∧
    (mapService.callN ⟨false⟩ "t1" "invoice" 2 fullSeqWorld).1 ≠
      (List.range 2).map (fun (i : Nat) => ((2 ^ 63 - 1 : Int) + 1 + (i : Int), none)) := by
  refine ⟨rfl, by decide, by decide, by decide, by decide, by decide⟩

/-- C10, amended: starting from the row `(c, v)` for a key, with no other writer and with
`c`, `c + k`, `v` and `v + k` values of Go's 64 bit `int`, `k` successive `NextNumber` calls
for that key return `c + 1, c + 2, ..., c + k` in that order, each with no error, and leave
the row at `(c + k, v + k)`; the rows of every other key are unchanged. -/
theorem nextNumber_successive_calls (ctx : Context) (tenantID documentType : String)
    (w : SeqWorld) (c v : Int) (k : Nat)
    (hno : w.others = []) (hrow : w.store (tenantID, documentType) = some ⟨c, v⟩)
    (hc : IsGoInt c) (hck : IsGoInt (c + k)) (hv : IsGoInt v) (hvk : IsGoInt (v + k)) :
    (mapService.callN ctx tenantID documentType k w).1 =
        (List.range k).map (fun (i : Nat) => (c + 1 + (i : Int), none)) ∧
      (mapService.callN ctx tenantID documentType k w).2.store (tenantID, documentType) =
        some ⟨c + k, v + k⟩ ∧
      (∀ key, key ≠ (tenantID, documentType) →
        (mapService.callN ctx tenantID documentType k w).2.store key = w.store key) := by
  obtain ⟨h1, h2, h3, -⟩ :=
    callN_no_others ctx tenantID documentType k w c v hno hrow hc hck hv hvk
  exact ⟨h1, h2, h3⟩

/-- C10, amended, at three calls on the row `(7, 2)`. -/
theorem nextNumber_successive_calls_witness :
    (sampleSeqWorld.others = [] ∧ sampleSeqWorld.store ("t1", "invoice") = some ⟨7, 2⟩ ∧
      IsGoInt 7 ∧ IsGoInt (7 + (3 : Nat)) ∧ IsGoInt 2 ∧ IsGoInt (2 + (3 : Nat))) ∧
    ((mapService.callN ⟨false⟩ "t1" "invoice" 3 sampleSeqWorld).1 =
        (List.range 3).map (fun (i : Nat) => (7 + 1 + (i : Int), none)) ∧
      (mapService.callN ⟨false⟩ "t1" "invoice" 3 sampleSeqWorld).2.store ("t1", "invoice") =
        some ⟨7 + (3 : Nat), 2 + (3 : Nat)⟩ ∧
      (∀ key, key ≠ ("t1", "invoice") →
        (mapService.callN ⟨false⟩ "t1" "invoice" 3 sampleSeqWorld).2.store key =
          sampleSeqWorld.store key)) :=
  ⟨⟨rfl, by decide, by decide, by decide, by decide, by decide⟩,
    nextNumber_successive_calls ⟨false⟩ "t1" "invoice" sampleSeqWorld 7 2 3 rfl
      (by decide) (by decide) (by decide) (by decide) (by decide)⟩

/-! ## Lemmas on the retry loop -/

theorem nextNumberLoop_zero {σ : Type} (s : SequenceService σ) (ctx : Context)
    (tenantID documentType : String) (w : σ) :
    s.nextNumberLoop ctx tenantID documentType 0 w =
      ((0, some (.errorf "failed to get next number after 5 retries")), [], w) := by
  have h : "failed to get next number after " ++ toString maxRetries ++ " retries" =
      "failed to get next number after 5 retries" := by decide
  simp only [SequenceService.nextNumberLoop, h]

/-- An attempt without error ends the call with its number. -/
theorem nextNumberLoop_succ_ok {σ : Type} (s : SequenceService σ) (ctx : Context)
    (tenantID documentType : String) (remaining : Nat) (w : σ)
    (h : (s.tryGetNextNumber ctx tenantID documentType w).1.2 = none) :
    s.nextNumberLoop ctx tenantID documentType (remaining + 1) w =
      (((s.tryGetNextNumber ctx tenantID documentType w).1.1, none),
        (s.tryGetNextNumber ctx tenantID documentType w).2.1,
        (s.tryGetNextNumber ctx tenantID documentType w).2.2) := by
  simp only [SequenceService.nextNumberLoop, h]

/-- An attempt with an error other than `ErrConcurrentUpdate` ends the call with that error. -/
theorem nextNumberLoop_succ_fail {σ : Type} (s : SequenceService σ) (ctx : Context)
    (tenantID documentType : String) (remaining : Nat) (w : σ) (err : GoError)
    (h : (s.tryGetNextNumber ctx tenantID documentType w).1.2 = some err)
    (hne : err ≠ ErrConcurrentUpdate) :
    s.nextNumberLoop ctx tenantID documentType (remaining + 1) w =
      ((0, some err), (s.tryGetNextNumber ctx tenantID documentType w).2.1,
        (s.tryGetNextNumber ctx tenantID documentType w).2.2) := by
  simp only [SequenceService.nextNumberLoop, h, hne, ne_eq, not_false_eq_true, if_true]

/-- An attempt that lost the race is followed by the back-off, when the attempt is not the
last, and by the rest of the loop. -/
theorem nextNumberLoop_succ_lost {σ : Type} (s : SequenceService σ) (ctx : Context)
    (tenantID documentType : String) (remaining : Nat) (w : σ)
    (h : (s.tryGetNextNumber ctx tenantID documentType w).1.2 = some ErrConcurrentUpdate) :
    s.nextNumberLoop ctx tenantID documentType (remaining + 1) w =
      ((s.nextNumberLoop ctx tenantID documentType remaining
          (s.tryGetNextNumber ctx tenantID documentType w).2.2).1,
        (s.tryGetNextNumber ctx tenantID documentType w).2.1 ++
          ((if maxRetries - (remaining + 1) < maxRetries - 1 then
              [SeqEvent.Sleep ((maxRetries - (remaining + 1) + 1) * 10)] else []) ++
            (s.nextNumberLoop ctx tenantID documentType remaining
              (s.tryGetNextNumber ctx tenantID documentType w).2.2).2.1),
        (s.nextNumberLoop ctx tenantID documentType remaining
          (s.tryGetNextNumber ctx tenantID documentType w).2.2).2.2) := by
  simp only [SequenceService.nextNumberLoop, h, ne_eq, not_true_eq_false, if_false]
  split <;> simp

/-- The three ways an attempt can end: it lost the race; it failed with another error, on the
read or on the update; or its update affected a row and it returns the new number. -/
theorem tryGetNextNumber_cases {σ : Type} (s : SequenceService σ) (ctx : Context)
    (tenantID documentType : String) (w : σ) :
    ((s.tryGetNextNumber ctx tenantID documentType w).1 = (0, some ErrConcurrentUpdate) ∧
      seqSteps (s.tryGetNextNumber ctx tenantID documentType w).2.1 = [.read, .updateLost]) ∨
    ((∃ err, (s.tryGetNextNumber ctx tenantID documentType w).1 = (0, some err) ∧
        err ≠ ErrConcurrentUpdate) ∧
      (seqSteps (s.tryGetNextNumber ctx tenantID documentType w).2.1 = [.readFailed] ∨
        seqSteps (s.tryGetNextNumber ctx tenantID documentType w).2.1 =
          [.read, .updateFailed])) ∨
    ((∃ read number newVersion version rows,
        (s.tryGetNextNumber ctx tenantID documentType w).2.1 =
          [read, SeqEvent.Exec number newVersion tenantID documentType version
            (.ok (.ok rows))] ∧
        rows ≠ 0 ∧ (s.tryGetNextNumber ctx tenantID documentType w).1 = (number, none)) ∧
      seqSteps (s.tryGetNextNumber ctx tenantID documentType w).2.1 =
        [.read, .updateApplied]) := by
  simp only [SequenceService.tryGetNextNumber]
  rcases hsel : (s.db.QueryRowScan ctx tenantID documentType w).1 with err | ⟨c, v⟩
  · right; left
    by_cases hno : err = sqlErrNoRows
    · simp [hno, seqSteps, SeqEvent.step, ErrConcurrentUpdate]
    · simp [hno, seqSteps, SeqEvent.step, ErrConcurrentUpdate]
  · rcases hupd : (s.db.Exec ctx (wrapInt (c + 1)) (wrapInt (v + 1)) tenantID documentType v
        (s.db.QueryRowScan ctx tenantID documentType w).2).1 with err | res
    · right; left
      simp only [hupd]
      simp [seqSteps, SeqEvent.step, ErrConcurrentUpdate]
    · rcases res with err | rows
      · right; left
        simp only [hupd]
        simp [seqSteps, SeqEvent.step, ErrConcurrentUpdate]
      · by_cases hrows : rows = 0
        · left
          simp only [hupd]
          simp [hrows, seqSteps, SeqEvent.step]
        · right; right
          simp only [hupd]
          simp only [hrows, seqSteps, SeqEvent.step, if_false, List.map_cons, List.map_nil,
            and_true]
          exact ⟨_, _, _, _, rows, rfl, hrows, rfl⟩

theorem seqSteps_append (a b : List SeqEvent) : seqSteps (a ++ b) = seqSteps a ++ seqSteps b := by
  simp [seqSteps]

/-- The shape of a run of the retry loop with `remaining` attempts left: `j` lost attempts,
each followed by its back-off when it is not the last attempt of the call, and then either
nothing (the loop is exhausted and the contention error is returned), or a last attempt that
failed with another error, or a last attempt whose update affected a row and whose number is
returned. -/
theorem nextNumberLoop_shape {σ : Type} (s : SequenceService σ) (ctx : Context)
    (tenantID documentType : String) (remaining : Nat) :
    ∀ w : σ, remaining ≤ maxRetries →
      ∃ j tail, j ≤ remaining ∧
        seqSteps (s.nextNumberLoop ctx tenantID documentType remaining w).2.1 =
          lostBlocks (maxRetries - remaining) j ++ tail ∧
        ((j = remaining ∧ tail = [] ∧
            (s.nextNumberLoop ctx tenantID documentType remaining w).1 =
              (0, some (.errorf "failed to get next number after 5 retries"))) ∨
          (j < remaining ∧ (tail = [.readFailed] ∨ tail = [.read, .updateFailed]) ∧
            ∃ err, (s.nextNumberLoop ctx tenantID documentType remaining w).1 = (0, some err) ∧
              err ≠ ErrConcurrentUpdate) ∨
          (j < remaining ∧ tail = [.read, .updateApplied] ∧
            ∃ before number newVersion version rows,
              (s.nextNumberLoop ctx tenantID documentType remaining w).2.1 =
                before ++ [SeqEvent.Exec number newVersion tenantID documentType version
                  (.ok (.ok rows))] ∧
              rows ≠ 0 ∧
              (s.nextNumberLoop ctx tenantID documentType remaining w).1 = (number, none))) := by
  induction remaining with
  | zero =>
    intro w _
    rw [nextNumberLoop_zero]
    exact ⟨0, [], Nat.le_refl _, rfl, Or.inl ⟨rfl, rfl, rfl⟩⟩
  | succ rem ih =>
    intro w hle
    rcases tryGetNextNumber_cases s ctx tenantID documentType w with
      ⟨h1, hsteps⟩ | ⟨⟨err, h1, hne⟩, hsteps⟩ | ⟨⟨read, n, nv, ver, rows, htr, hrows, h1⟩, hsteps⟩
    · have h2 : (s.tryGetNextNumber ctx tenantID documentType w).1.2 =
          some ErrConcurrentUpdate := by rw [h1]
      rw [nextNumberLoop_succ_lost s ctx tenantID documentType rem w h2]
      obtain ⟨j, tail, hj, hst, hcase⟩ :=
        ih (s.tryGetNextNumber ctx tenantID documentType w).2.2 (by omega)
      have hidx : maxRetries - (rem + 1) + 1 = maxRetries - rem := by omega
      refine ⟨j + 1, tail, by omega, ?_, ?_⟩
      · show seqSteps (_ ++ (_ ++ _)) = lostBlock _ ++ lostBlocks _ j ++ tail
        rw [seqSteps_append, seqSteps_append, hsteps, hst, ← hidx]
        unfold lostBlock
        split <;> simp [seqSteps, SeqEvent.step]
      · rcases hcase with ⟨hj2, ht, hres⟩ | ⟨hj2, ht, hres⟩ | ⟨hj2, ht, before, n, nv, ver, rows,
          htr, hrows, hres⟩
        · exact Or.inl ⟨by omega, ht, hres⟩
        · exact Or.inr (Or.inl ⟨by omega, ht, hres⟩)
        · refine Or.inr (Or.inr ⟨by omega, ht,
            (s.tryGetNextNumber ctx tenantID documentType w).2.1 ++
              ((if maxRetries - (rem + 1) < maxRetries - 1 then
                  [SeqEvent.Sleep ((maxRetries - (rem + 1) + 1) * 10)] else []) ++ before),
            n, nv, ver, rows, ?_, hrows, hres⟩)
          show _ ++ (_ ++ _) = _
          rw [htr]
          simp only [List.append_assoc]
    · have h2 : (s.tryGetNextNumber ctx tenantID documentType w).1.2 = some err := by rw [h1]
      rw [nextNumberLoop_succ_fail s ctx tenantID documentType rem w err h2 hne]
      refine ⟨0, _, Nat.zero_le _, rfl, Or.inr (Or.inl ⟨Nat.succ_pos _, hsteps, err, rfl, hne⟩)⟩
    · have h2 : (s.tryGetNextNumber ctx tenantID documentType w).1.2 = none := by rw [h1]
      rw [nextNumberLoop_succ_ok s ctx tenantID documentType rem w h2]
      refine ⟨0, _, Nat.zero_le _, rfl, Or.inr (Or.inr ⟨Nat.succ_pos _, hsteps, [read], n, nv,
        ver, rows, htr, hrows, ?_⟩)⟩
      rw [h1]

/-- The back-offs of a trace are those of its steps. -/
theorem sleeps_eq_filterMap (tr : List SeqEvent) :
    sleeps tr = (seqSteps tr).filterMap SeqStep.sleepMs := by
  induction tr with
  | nil => rfl
  | cons e rest ih =>
    cases e with
    | QueryRow t d res =>
      cases res <;> simp [sleeps, seqSteps, SeqEvent.step, SeqStep.sleepMs, ih]
    | Exec n nv t d v res =>
      rcases res with err | (err | rows)
      · simp [sleeps, seqSteps, SeqEvent.step, SeqStep.sleepMs, ih]
      · simp [sleeps, seqSteps, SeqEvent.step, SeqStep.sleepMs, ih]
      · by_cases h : rows = 0 <;> simp [sleeps, seqSteps, SeqEvent.step, SeqStep.sleepMs, ih, h]
    | Sleep ms => simp [sleeps, seqSteps, SeqEvent.step, SeqStep.sleepMs, ih]

/-- The steps of `j` lost attempts from the first attempt of a call are the first `3 * j` steps
of an exhausted call. -/
theorem lostBlocks_zero_eq_take (j : Nat) (hj : j ≤ 5) :
    lostBlocks 0 j = exhaustedSteps.take (3 * j) := by
  interval_cases j <;> decide

/-- C11: a `NextNumber` call in which every read found the row and every conditional update
affected zero rows (its trace has no failed read, no failed update and no applied update)
makes exactly five read-then-update attempts and returns the number 0 with the error "failed
to get next number after 5 retries". For every behaviour of the database, a call that returns
with a nil error ends with a conditional update that affected a row, and returns the number
that update wrote. -/
theorem nextNumber_exhausts_retries {σ : Type} (s : SequenceService σ) (ctx : Context)
    (tenantID documentType : String) (w : σ) :
    ((∀ st ∈ seqSteps (s.NextNumber ctx tenantID documentType w).2.1,
          st ≠ .readFailed ∧ st ≠ .updateFailed ∧ st ≠ .updateApplied) →
        seqSteps (s.NextNumber ctx tenantID documentType w).2.1 = exhaustedSteps ∧
        (seqSteps (s.NextNumber ctx tenantID documentType w).2.1).count .read = 5 ∧
        (seqSteps (s.NextNumber ctx tenantID documentType w).2.1).count .updateLost = 5 ∧
        (s.NextNumber ctx tenantID documentType w).1 =
          (0, some (.errorf "failed to get next number after 5 retries"))) ∧
    ((s.NextNumber ctx tenantID documentType w).1.2 = none →
      ∃ before number newVersion version rows,
        (s.NextNumber ctx tenantID documentType w).2.1 =
          before ++ [SeqEvent.Exec number newVersion tenantID documentType version
            (.ok (.ok rows))] ∧
        rows ≠ 0 ∧ (s.NextNumber ctx tenantID documentType w).1.1 = number) := by
  obtain ⟨j, tail, hj, hst, hcase⟩ :=
    nextNumberLoop_shape s ctx tenantID documentType maxRetries w (Nat.le_refl _)
  rw [Nat.sub_self] at hst
  unfold SequenceService.NextNumber
  constructor
  · intro hall
    rw [hst] at hall ⊢
    rcases hcase with ⟨hj2, ht, hres⟩ | ⟨-, ht, -⟩ | ⟨-, ht, -⟩
    · subst hj2
      subst ht
      exact ⟨by decide, by decide, by decide, hres⟩
    · have hmem : SeqStep.readFailed ∈ lostBlocks 0 j ++ tail ∨
          SeqStep.updateFailed ∈ lostBlocks 0 j ++ tail := by
        rcases ht with ht | ht <;> subst ht <;> simp
      rcases hmem with hmem | hmem
      · exact absurd rfl (hall _ hmem).1
      · exact absurd rfl (hall _ hmem).2.1
    · have hmem : SeqStep.updateApplied ∈ lostBlocks 0 j ++ tail := by
        subst ht
        simp
      exact absurd rfl (hall _ hmem).2.2
  · intro hnone
    rcases hcase with ⟨-, -, hres⟩ | ⟨-, -, err, hres, -⟩ |
      ⟨-, -, before, n, nv, ver, rows, htr, hrows, hres⟩
    · rw [hres] at hnone
      cases hnone
    · rw [hres] at hnone
      cases hnone
    · exact ⟨before, n, nv, ver, rows, htr, hrows, by rw [hres]⟩

/-- C12: when the read of the first attempt finds no row (`sql.ErrNoRows`), `NextNumber`
returns the number 0 and the error "sequence not found for tenant ..., document_type ...",
its trace is that one read (no update, no retry, no back-off) and the database is as the read
left it; over the table as a map the row is still absent afterwards. More generally, at any
point of the loop an attempt that fails with an error other than `ErrConcurrentUpdate` ends
the call at once with that error. -/
theorem nextNumber_not_found {σ : Type} (s : SequenceService σ) (ctx : Context)
    (tenantID documentType : String) (w : σ) :
    ((s.db.QueryRowScan ctx tenantID documentType w).1 = .error sqlErrNoRows →
      s.NextNumber ctx tenantID documentType w =
        ((0, some (.errorf ("sequence not found for tenant " ++ tenantID ++
            ", document_type " ++ documentType))),
          [SeqEvent.QueryRow tenantID documentType (.error sqlErrNoRows)],
          (s.db.QueryRowScan ctx tenantID documentType w).2)) ∧
    (∀ ws : SeqWorld, ws.advance.store (tenantID, documentType) = none →
      (mapService.NextNumber ctx tenantID documentType ws).1 =
          (0, some (.errorf ("sequence not found for tenant " ++ tenantID ++
            ", document_type " ++ documentType))) ∧
        (mapService.NextNumber ctx tenantID documentType ws).2.2 = ws.advance ∧
        (mapService.NextNumber ctx tenantID documentType ws).2.2.store
          (tenantID, documentType) = none) ∧
    (∀ (remaining : Nat) (err : GoError),
      (s.tryGetNextNumber ctx tenantID documentType w).1.2 = some err →
      err ≠ ErrConcurrentUpdate →
      s.nextNumberLoop ctx tenantID documentType (remaining + 1) w =
        ((0, some err), (s.tryGetNextNumber ctx tenantID documentType w).2.1,
          (s.tryGetNextNumber ctx tenantID documentType w).2.2)) := by
  have hgen : ∀ {τ : Type} (s : SequenceService τ) (w : τ),
      (s.db.QueryRowScan ctx tenantID documentType w).1 = .error sqlErrNoRows →
      s.NextNumber ctx tenantID documentType w =
        ((0, some (.errorf ("sequence not found for tenant " ++ tenantID ++
            ", document_type " ++ documentType))),
          [SeqEvent.QueryRow tenantID documentType (.error sqlErrNoRows)],
          (s.db.QueryRowScan ctx tenantID documentType w).2) := by
    intro τ s w h
    have htry : s.tryGetNextNumber ctx tenantID documentType w =
        ((0, some (.errorf ("sequence not found for tenant " ++ tenantID ++
            ", document_type " ++ documentType))),
          [SeqEvent.QueryRow tenantID documentType (.error sqlErrNoRows)],
          (s.db.QueryRowScan ctx tenantID documentType w).2) := by
      simp only [SequenceService.tryGetNextNumber, h, if_true]
    unfold SequenceService.NextNumber
    rw [show maxRetries = 4 + 1 from rfl,
      nextNumberLoop_succ_fail s ctx tenantID documentType 4 w _ (by rw [htry])
        (by simp [ErrConcurrentUpdate]), htry]
  refine ⟨hgen s w, ?_, fun remaining err h hne =>
    nextNumberLoop_succ_fail s ctx tenantID documentType remaining w err h hne⟩
  intro ws hrow
  have hq : (mapService.db.QueryRowScan ctx tenantID documentType ws).1 =
      .error sqlErrNoRows := by
    simp [mapService, mapDB, selectSequence, hrow]
  rw [hgen mapService ws hq]
  refine ⟨rfl, ?_, ?_⟩
  · simp [mapService, mapDB]
  · simpa [mapService, mapDB] using hrow

/-- C12, at a table without rows. -/
theorem nextNumber_not_found_witness :
    mapService.NextNumber ⟨false⟩ "t1" "invoice" emptySeqWorld =
      ((0, some (.errorf ("sequence not found for tenant " ++ "t1" ++
          ", document_type " ++ "invoice"))),
        [SeqEvent.QueryRow "t1" "invoice" (.error sqlErrNoRows)],
        (mapService.db.QueryRowScan ⟨false⟩ "t1" "invoice" emptySeqWorld).2) :=
  (nextNumber_not_found mapService ⟨false⟩ "t1" "invoice" emptySeqWorld).1 (by decide)

/-- C11, at the row `(7, 2)` with another session that increments the row between each read
and the update that follows it. -/
theorem nextNumber_exhausts_retries_witness :
    seqSteps (mapService.NextNumber ⟨false⟩ "t1" "invoice" contendedSeqWorld).2.1 =
        exhaustedSteps ∧
      (seqSteps (mapService.NextNumber ⟨false⟩ "t1" "invoice" contendedSeqWorld).2.1).count
        .read = 5 ∧
      (seqSteps (mapService.NextNumber ⟨false⟩ "t1" "invoice" contendedSeqWorld).2.1).count
        .updateLost = 5 ∧
      (mapService.NextNumber ⟨false⟩ "t1" "invoice" contendedSeqWorld).1 =
        (0, some (.errorf "failed to get next number after 5 retries")) :=
  (nextNumber_exhausts_retries mapService ⟨false⟩ "t1" "invoice" contendedSeqWorld).1
    (by decide)

/-- C14: the trace of every `NextNumber` call is `j ≤ 5` lost attempts followed by at most one
last attempt that did not lose. The `k`-th lost attempt (from 1), for `k ≤ 4`, is directly
followed by a back-off of `k * 10` milliseconds and then by the read of the next attempt; the
fifth is followed by nothing. So the back-offs of a call are `10, 20, ...` up to the number
of lost attempts and at most four, and a call that exhausts its retries sleeps 10, 20, 30 and
40 milliseconds in that order. -/
theorem nextNumber_backoff {σ : Type} (s : SequenceService σ) (ctx : Context)
    (tenantID documentType : String) (w : σ) :
    ∃ j tail, j ≤ 5 ∧
      seqSteps (s.NextNumber ctx tenantID documentType w).2.1 =
        exhaustedSteps.take (3 * j) ++ tail ∧
      (tail = [] ∨ tail = [.readFailed] ∨ tail = [.read, .updateFailed] ∨
        tail = [.read, .updateApplied]) ∧
      (tail = [] ↔ j = 5) ∧
      (seqSteps (s.NextNumber ctx tenantID documentType w).2.1).count .updateLost = j ∧
      sleeps (s.NextNumber ctx tenantID documentType w).2.1 =
        (List.range (min j 4)).map (fun (k : Nat) => (k + 1) * 10) ∧
      (j = 5 → sleeps (s.NextNumber ctx tenantID documentType w).2.1 = [10, 20, 30, 40]) := by
  obtain ⟨j, tail, hj, hst, hcase⟩ :=
    nextNumberLoop_shape s ctx tenantID documentType maxRetries w (Nat.le_refl _)
  rw [Nat.sub_self] at hst
  have hj5 : j ≤ 5 := hj
  rw [lostBlocks_zero_eq_take j hj5] at hst
  unfold SequenceService.NextNumber
  refine ⟨j, tail, hj5, hst, ?_⟩
  rw [sleeps_eq_filterMap, hst]
  have hlt : ∀ {k : Nat}, k < maxRetries → k < 5 := fun h => h
  rcases hcase with ⟨hj2, ht, -⟩ | ⟨hj2, ht | ht, -⟩ | ⟨hj2, ht, -⟩
  · subst ht
    have h5 : j = 5 := hj2
    subst h5
    decide
  · subst ht
    have := hlt hj2
    interval_cases j <;> decide
  · subst ht
    have := hlt hj2
    interval_cases j <;> decide
  · subst ht
    have := hlt hj2
    interval_cases j <;> decide

/-! ## Concurrent callers -/

theorem runAmid_done (tenantID documentType : String) (fuel : Nat) (result : Int × Option GoError)
    (w : SeqWorld) :
    Caller.runAmid tenantID documentType fuel (.done result) w = (.done result, w) := by
  cases fuel <;> rfl

/-- Where a call stands when `remaining` attempts are left. -/
theorem runAmid_loop (ctx : Context) (tenantID documentType : String) (remaining : Nat) :
    ∀ w : SeqWorld, remaining ≤ maxRetries →
      Caller.runAmid tenantID documentType (2 * remaining)
          (if remaining = 0 then
            .done (0, some (.errorf "failed to get next number after 5 retries"))
          else .reading (maxRetries - remaining)) w =
        (.done (mapService.nextNumberLoop ctx tenantID documentType remaining w).1,
          (mapService.nextNumberLoop ctx tenantID documentType remaining w).2.2) := by
  induction remaining with
  | zero =>
    intro w _
    rw [nextNumberLoop_zero]
    rfl
  | succ rem ih =>
    intro w hle
    have hfuel : 2 * (rem + 1) = (2 * rem + 1) + 1 := by ring
    rw [hfuel, if_neg (Nat.succ_ne_zero rem)]
    rcases hrow : w.advance.store (tenantID, documentType) with _ | ⟨c, v⟩
    · have htry : mapService.tryGetNextNumber ctx tenantID documentType w =
          ((0, some (.errorf ("sequence not found for tenant " ++ tenantID ++
            ", document_type " ++ documentType))),
            [SeqEvent.QueryRow tenantID documentType (.error sqlErrNoRows)], w.advance) := by
        simp [SequenceService.tryGetNextNumber, mapService, mapDB, selectSequence, hrow]
      rw [nextNumberLoop_succ_fail mapService ctx tenantID documentType rem w _
        (by rw [htry]) (by simp [ErrConcurrentUpdate]), htry]
      simp only [Caller.runAmid, Caller.step, selectSequence, hrow, if_true]
    · obtain ⟨hyes, hno⟩ := tryGetNextNumber_mapService ctx tenantID documentType w c v hrow
      have hstep1 : Caller.runAmid tenantID documentType ((2 * rem + 1) + 1)
          (.reading (maxRetries - (rem + 1))) w =
          Caller.runAmid tenantID documentType (2 * rem + 1)
            (.updating (maxRetries - (rem + 1)) c v) w.advance := by
        simp only [Caller.runAmid, Caller.step, selectSequence, hrow]
      rw [hstep1]
      by_cases hver : ∃ row, w.advance.advance.store (tenantID, documentType) = some row ∧
          row.version = v
      · obtain ⟨h1, h2⟩ := hyes hver
        obtain ⟨row, hrow2, hv⟩ := hver
        rw [nextNumberLoop_succ_ok mapService ctx tenantID documentType rem w (by rw [h1]), h1, h2]
        simp only [Caller.runAmid, Caller.step, updateSequence, hrow2, hv, if_true]
        simp [runAmid_done]
      · obtain ⟨h1, h2⟩ := hno hver
        rw [nextNumberLoop_succ_lost mapService ctx tenantID documentType rem w (by rw [h1]), h2]
        have hupd : updateSequence w.advance.advance.store (wrapInt (c + 1)) (wrapInt (v + 1))
            tenantID documentType v = (w.advance.advance.store, 0) := by
          unfold updateSequence
          rcases hrow2 : w.advance.advance.store (tenantID, documentType) with _ | row
          · rfl
          · have hne : ¬ row.version = v := fun h => hver ⟨row, hrow2, h⟩
            simp [hne]
        have hnext : (if maxRetries - (rem + 1) + 1 < maxRetries then
              Caller.reading (maxRetries - (rem + 1) + 1)
            else .done (0, some (.errorf
              ("failed to get next number after " ++ toString maxRetries ++ " retries")))) =
            (if rem = 0 then
              Caller.done (0, some (.errorf "failed to get next number after 5 retries"))
            else .reading (maxRetries - rem)) := by
          have hmsg : "failed to get next number after " ++ toString maxRetries ++ " retries" =
              "failed to get next number after 5 retries" := by decide
          rw [hmsg]
          by_cases h0 : rem = 0
          · subst h0
            decide
          · have h3 : maxRetries - (rem + 1) + 1 = maxRetries - rem := by omega
            have h4 : maxRetries - rem < maxRetries := by
              unfold maxRetries at *
              omega
            rw [if_neg h0, h3, if_pos h4]
        have hstep2 : Caller.runAmid tenantID documentType (2 * rem + 1)
            (.updating (maxRetries - (rem + 1)) c v) w.advance =
            Caller.runAmid tenantID documentType (2 * rem)
              (if rem = 0 then
                .done (0, some (.errorf "failed to get next number after 5 retries"))
              else .reading (maxRetries - rem)) w.advance.advance := by
          simp only [Caller.runAmid, Caller.step, hupd, if_true]
          rw [← hnext]
          split <;> rfl
        rw [hstep2, ih w.advance.advance (by omega)]

/-- The state machine of a caller is the method `NextNumber`: a call running by itself for
ten statements on the database of `SeqWorld`, whatever the other sessions write in between,
ends where `NextNumber` over `mapService` ends, with its result. -/
theorem runAmid_eq_NextNumber (ctx : Context) (tenantID documentType : String) (w : SeqWorld) :
    Caller.runAmid tenantID documentType 10 (.reading 0) w =
      (.done (mapService.NextNumber ctx tenantID documentType w).1,
        (mapService.NextNumber ctx tenantID documentType w).2.2) :=
  runAmid_loop ctx tenantID documentType maxRetries w (Nat.le_refl _)

theorem set_self_of_getElem? {α : Type} (l : List α) (i : Nat) (x : α) (h : l[i]? = some x) :
    l.set i x = l := by
  induction l generalizing i with
  | nil => rfl
  | cons a rest ih =>
    cases i with
    | zero =>
      simp at h
      simp [h]
    | succ k =>
      simp at h
      simp [ih k h]

/-- A call that had not returned a number and still has not leaves the numbers as they are. -/
theorem numbers_set_none (l : List Caller) (i : Nat) (old new : Caller)
    (h : l[i]? = some old) (hold : old.number = none) (hnew : new.number = none) :
    (l.set i new).filterMap Caller.number = l.filterMap Caller.number := by
  induction l generalizing i with
  | nil => rfl
  | cons a rest ih =>
    cases i with
    | zero =>
      simp at h
      subst h
      simp [List.filterMap_cons, hold, hnew]
    | succ k =>
      simp at h
      simp [List.filterMap_cons, ih k h]

/-- A call that returns a number adds it to the numbers. -/
theorem numbers_set_some (l : List Caller) (i : Nat) (old new : Caller) (x : Int)
    (h : l[i]? = some old) (hold : old.number = none) (hnew : new.number = some x) :
    ((l.set i new).filterMap Caller.number).Perm (x :: l.filterMap Caller.number) := by
  induction l generalizing i with
  | nil => simp at h
  | cons a rest ih =>
    cases i with
    | zero =>
      simp at h
      subst h
      simp [List.filterMap_cons, hold, hnew]
    | succ k =>
      simp at h
      have ih2 := ih k h
      rcases ha : a.number with _ | y
      · simpa [List.filterMap_cons, ha] using ih2
      · simp only [List.set_cons_succ, List.filterMap_cons, ha]
        exact (List.Perm.cons y ih2).trans (List.Perm.swap x y _)

/-- While some call has not returned a number, fewer numbers than calls have been returned. -/
theorem numbers_length_lt (l : List Caller) (i : Nat) (old : Caller)
    (h : l[i]? = some old) (hold : old.number = none) :
    (l.filterMap Caller.number).length < l.length := by
  induction l generalizing i with
  | nil => simp at h
  | cons a rest ih =>
    cases i with
    | zero =>
      simp at h
      subst h
      simp only [List.filterMap_cons, hold, List.length_cons]
      exact Nat.lt_succ_of_le (List.length_filterMap_le _ _)
    | succ k =>
      simp at h
      have ih2 := ih k h
      rcases ha : a.number with _ | y
      · simp only [List.filterMap_cons, ha, List.length_cons]
        omega
      · simp only [List.filterMap_cons, ha, List.length_cons]
        omega

theorem numbers_start (st : SequenceStore) (n : Nat) : (Contest.start st n).numbers = [] := by
  unfold Contest.numbers Contest.start
  induction n with
  | zero => rfl
  | succ k ih =>
    simp only [List.replicate_succ, List.filterMap_cons, Caller.number]
    exact ih

set_option maxRecDepth 100000 in
/-- C13 as stated fails: an interleaving of 100 concurrent calls on the row `(7, 2)` after
which all 100 calls have returned, call 0 has returned the contention error and no number
(it lost its five attempts to calls 1 to 5), and the numbers returned are the 99 numbers
`8, ..., 106`. -/
theorem concurrent_calls_counterexample :
    ((Contest.start sampleSeqWorld.store 100).run "t1" "invoice" contestSchedule).callers.length
        = 100 ∧
    ((Contest.start sampleSeqWorld.store 100).run "t1" "invoice" contestSchedule).callers.all
        Caller.isDone = true ∧
    ((Contest.start sampleSeqWorld.store 100).run "t1" "invoice" contestSchedule).callers[0]? =
      some (.done (0, some (.errorf "failed to get next number after 5 retries"))) ∧
    ((Contest.start sampleSeqWorld.store 100).run "t1" "invoice" contestSchedule).numbers =
      (List.range 99).map (fun (i : Nat) => (8 + i : Int)) := by
  decide

/-- Each statement of each call keeps `ContestInv`, and the number of calls. -/
theorem contestInv_step (tenantID documentType : String) (c v : Int) (sys : Contest) (i : Nat)
    (hc : IsGoInt c) (hcn : IsGoInt (c + sys.callers.length))
    (hv : IsGoInt v) (hvn : IsGoInt (v + sys.callers.length))
    (hinv : ContestInv tenantID documentType c v sys) :
    ContestInv tenantID documentType c v (sys.step tenantID documentType i) ∧
      (sys.step tenantID documentType i).callers.length = sys.callers.length := by
  rcases hget : sys.callers[i]? with _ | caller
  · have hs : sys.step tenantID documentType i = sys := by
      simp only [Contest.step, hget]
    rw [hs]
    exact ⟨hinv, rfl⟩
  · obtain ⟨m, hstore, hperm, hread, hupd, hdone⟩ := hinv
    have hmemc : caller ∈ sys.callers := List.getElem?_mem hget
    simp only [Contest.step, hget]
    refine ⟨?_, List.length_set _ _ _⟩
    cases caller with
    | reading a =>
      have ham : a ≤ m := hread _ hmemc a rfl
      have hstep : (Caller.reading a).step tenantID documentType sys.store =
          (.updating a (c + m) (v + m), sys.store) := by
        simp [Caller.step, selectSequence, hstore]
      rw [hstep]
      refine ⟨m, hstore, ?_, ?_, ?_, ?_⟩
      · show ((sys.callers.set i _).filterMap Caller.number).Perm _
        rw [numbers_set_none sys.callers i _ (.updating a (c + m) (v + m)) hget rfl rfl]
        exact hperm
      · intro caller2 hmem a2 heq
        rcases List.mem_or_eq_of_mem_set hmem with h | h
        · exact hread caller2 h a2 heq
        · rw [h] at heq
          cases heq
      · intro caller2 hmem a2 c1 v1 heq
        rcases List.mem_or_eq_of_mem_set hmem with h | h
        · exact hupd caller2 h a2 c1 v1 heq
        · rw [h] at heq
          injection heq with h0 h1 h2
          exact ⟨m, by omega, Nat.le_refl _, h1.symm, h2.symm⟩
      · intro caller2 hmem result heq
        rcases List.mem_or_eq_of_mem_set hmem with h | h
        · exact hdone caller2 h result heq
        · rw [h] at heq
          cases heq
    | updating a c1 v1 =>
      obtain ⟨j, haj, hj, hc1, hv1⟩ := hupd _ hmemc a c1 v1 rfl
      have hlen : m < sys.callers.length := by
        have h1 := numbers_length_lt sys.callers i _ hget rfl
        have h2 := hperm.length_eq
        simp only [Contest.numbers, List.length_map, List.length_range] at h2
        omega
      by_cases hjm : j = m
      · subst hjm
        subst hc1
        subst hv1
        have hc2 : IsGoInt (c + j + 1) := by
          unfold IsGoInt minInt maxInt at *
          omega
        have hv2 : IsGoInt (v + j + 1) := by
          unfold IsGoInt minInt maxInt at *
          omega
        have hstep : (Caller.updating a (c + j) (v + j)).step tenantID documentType sys.store =
            (.done (c + j + 1, none),
              Function.update sys.store (tenantID, documentType)
                (some ⟨c + j + 1, v + j + 1⟩)) := by
          simp [Caller.step, updateSequence, hstore, wrapInt_of_isGoInt _ hc2,
            wrapInt_of_isGoInt _ hv2]
        rw [hstep]
        refine ⟨j + 1, ?_, ?_, ?_, ?_, ?_⟩
        · simp only [Function.update_same]
          push_cast
          congr 2 <;> ring
        · show ((sys.callers.set i _).filterMap Caller.number).Perm _
          have h1 := numbers_set_some sys.callers i _ (Caller.done (c + j + 1, none)) (c + j + 1)
            hget rfl rfl
          refine h1.trans ?_
          rw [List.range_succ, List.map_append]
          have h2 : [j].map (fun (i : Nat) => c + 1 + (i : Int)) = [c + j + 1] := by
            simp only [List.map_cons, List.map_nil]
            congr 1
            ring
          rw [h2]
          exact (List.Perm.cons _ hperm).trans (List.perm_append_singleton _ _).symm
        · intro caller2 hmem a2 heq
          rcases List.mem_or_eq_of_mem_set hmem with h | h
          · have := hread caller2 h a2 heq
            omega
          · rw [h] at heq
            cases heq
        · intro caller2 hmem a2 c2 v2 heq
          rcases List.mem_or_eq_of_mem_set hmem with h | h
          · obtain ⟨k, hak, hk, h3, h4⟩ := hupd caller2 h a2 c2 v2 heq
            exact ⟨k, hak, by omega, h3, h4⟩
          · rw [h] at heq
            cases heq
        · intro caller2 hmem result heq
          rcases List.mem_or_eq_of_mem_set hmem with h | h
          · rcases hdone caller2 h result heq with h5 | ⟨h5, h6⟩
            · exact Or.inl h5
            · exact Or.inr ⟨h5, by omega⟩
          · rw [h] at heq
            injection heq with h3
            subst h3
            exact Or.inl rfl
      · have hver : ¬ (v + (m : Int) = v1) := by
          rw [hv1]
          intro h
          apply hjm
          omega
        have hmsg : "failed to get next number after " ++ toString maxRetries ++ " retries" =
            "failed to get next number after 5 retries" := by decide
        have hstep : (Caller.updating a c1 v1).step tenantID documentType sys.store =
            ((if a + 1 < maxRetries then Caller.reading (a + 1)
              else .done (0, some (.errorf "failed to get next number after 5 retries"))),
              sys.store) := by
          simp only [Caller.step, updateSequence, hstore, hver, if_false, if_true, hmsg]
          split <;> rfl
        rw [hstep]
        have hnum : (if a + 1 < maxRetries then Caller.reading (a + 1)
            else Caller.done (0, some (.errorf "failed to get next number after 5 retries"))).number
            = none := by
          split <;> rfl
        have hjlt : j < m := lt_of_le_of_ne hj hjm
        refine ⟨m, hstore, ?_, ?_, ?_, ?_⟩
        · show ((sys.callers.set i _).filterMap Caller.number).Perm _
          rw [numbers_set_none sys.callers i _ _ hget rfl hnum]
          exact hperm
        · intro caller2 hmem a2 heq
          rcases List.mem_or_eq_of_mem_set hmem with h | h
          · exact hread caller2 h a2 heq
          · rw [h] at heq
            split at heq
            · injection heq with h3
              omega
            · cases heq
        · intro caller2 hmem a2 c2 v2 heq
          rcases List.mem_or_eq_of_mem_set hmem with h | h
          · exact hupd caller2 h a2 c2 v2 heq
          · rw [h] at heq
            split at heq <;> cases heq
        · intro caller2 hmem result heq
          rcases List.mem_or_eq_of_mem_set hmem with h | h
          · exact hdone caller2 h result heq
          · rw [h] at heq
            split at heq
            · cases heq
            · rename_i hnot
              injection heq with h3
              exact Or.inr ⟨h3.symm, by omega⟩
    | done r =>
      have hstep : (Caller.done r).step tenantID documentType sys.store = (.done r, sys.store) :=
        rfl
      rw [hstep, set_self_of_getElem? _ _ _ hget]
      exact ⟨m, hstore, hperm, hread, hupd, hdone⟩

/-- Every interleaving keeps `ContestInv`, and the number of calls. -/
theorem contestInv_run (tenantID documentType : String) (c v : Int) (schedule : List Nat) :
    ∀ sys : Contest, IsGoInt c → IsGoInt (c + sys.callers.length) →
      IsGoInt v → IsGoInt (v + sys.callers.length) →
      ContestInv tenantID documentType c v sys →
      ContestInv tenantID documentType c v (sys.run tenantID documentType schedule) ∧
        (sys.run tenantID documentType schedule).callers.length = sys.callers.length := by
  induction schedule with
  | nil =>
    intro sys _ _ _ _ hinv
    exact ⟨hinv, rfl⟩
  | cons i rest ih =>
    intro sys hc hcn hv hvn hinv
    obtain ⟨h1, h2⟩ := contestInv_step tenantID documentType c v sys i hc hcn hv hvn hinv
    have h3 := ih (sys.step tenantID documentType i) hc (by rw [h2]; exact hcn) hv
      (by rw [h2]; exact hvn) h1
    exact ⟨h3.1, h3.2.trans h2⟩

/-- Each statement of a call brings it nearer to its return. -/
theorem step_left (tenantID documentType : String) (st : SequenceStore) (caller : Caller) :
    (caller.step tenantID documentType st).1.left ≤ caller.left - 1 := by
  cases caller with
  | reading a =>
    simp only [Caller.step]
    split
    · split <;> simp [Caller.left]
    · simp only [Caller.left]
      omega
  | updating a c1 v1 =>
    simp only [Caller.step]
    split
    · split
      · rename_i h
        simp only [Caller.left, maxRetries] at h ⊢
        omega
      · simp [Caller.left]
    · simp [Caller.left]
  | done r => simp [Caller.step, Caller.left]

/-- A call with no statement left has returned. -/
theorem isDone_of_left (caller : Caller) (h : caller.left = 0) : caller.isDone = true := by
  cases caller with
  | reading a =>
    simp only [Caller.left] at h
    omega
  | updating a c1 v1 =>
    simp only [Caller.left] at h
    omega
  | done r => rfl

/-- Along an interleaving, the statements a call has left go down by one each time the
schedule names it. -/
theorem run_left (tenantID documentType : String) (schedule : List Nat) :
    ∀ (sys : Contest) (i : Nat) (after : Caller),
      (sys.run tenantID documentType schedule).callers[i]? = some after →
      ∃ before, sys.callers[i]? = some before ∧
        after.left ≤ before.left - schedule.count i := by
  induction schedule with
  | nil =>
    intro sys i after h
    exact ⟨after, h, by simp⟩
  | cons j rest ih =>
    intro sys i after h
    have hrun : sys.run tenantID documentType (j :: rest) =
        (sys.step tenantID documentType j).run tenantID documentType rest := rfl
    rw [hrun] at h
    obtain ⟨mid, hmid, hle⟩ := ih (sys.step tenantID documentType j) i after h
    rcases hget : sys.callers[j]? with _ | caller
    · have hs : sys.step tenantID documentType j = sys := by
        simp only [Contest.step, hget]
      rw [hs] at hmid
      have hji : j ≠ i := by
        intro hji
        rw [hji, hmid] at hget
        cases hget
      refine ⟨mid, hmid, ?_⟩
      rw [List.count_cons_of_ne (Ne.symm hji)]
      exact hle
    · simp only [Contest.step, hget] at hmid
      by_cases hji : j = i
      · subst hji
        have hlt : j < sys.callers.length := by
          by_contra hnot
          rw [List.getElem?_eq_none (by omega)] at hget
          cases hget
        rw [List.getElem?_set_self hlt] at hmid
        injection hmid with hmid
        refine ⟨caller, hget, ?_⟩
        rw [List.count_cons_self]
        have := step_left tenantID documentType sys.store caller
        rw [hmid] at this
        omega
      · rw [List.getElem?_set_ne hji] at hmid
        refine ⟨mid, hmid, ?_⟩
        rw [List.count_cons_of_ne (Ne.symm hji)]
        exact hle

/-- When every call has returned a number, there are as many numbers as calls. -/
theorem numbers_length_of_all (l : List Caller) (h : ∀ caller ∈ l, caller.number ≠ none) :
    (l.filterMap Caller.number).length = l.length := by
  induction l with
  | nil => rfl
  | cons a rest ih =>
    rcases ha : a.number with _ | x
    · exact absurd ha (h a (List.mem_cons_self _ _))
    · simp only [List.filterMap_cons, ha, List.length_cons]
      rw [ih (fun caller hmem => h caller (List.mem_cons_of_mem _ hmem))]

/-- C13, amended: `n` concurrent `NextNumber` calls (100 in particular) for a key whose row is
`(c, v)`, with `c`, `c + n`, `v` and `v + n` values of Go's 64 bit `int`, under every
interleaving of their read and conditional-update statements and at every point of it: the
numbers returned with a nil error are distinct and are, in some order, exactly
`c + 1, ..., c + m`, where `m ≤ n` is the number of calls that have returned a number, and the
row is `(c + m, v + m)`; every call that has returned has returned a number or the contention
error "failed to get next number after 5 retries", and the latter only when at least 5 calls
have returned a number. Once the interleaving has given each call ten statements (five
attempts), every call has returned and at least `min n 5` of them have returned a number. -/
theorem concurrent_numbers_unbroken (tenantID documentType : String) (st : SequenceStore)
    (c v : Int) (n : Nat) (schedule : List Nat)
    (hrow : st (tenantID, documentType) = some ⟨c, v⟩)
    (hc : IsGoInt c) (hcn : IsGoInt (c + n)) (hv : IsGoInt v) (hvn : IsGoInt (v + n)) :
    ∃ m : Nat, m ≤ n ∧
      ((Contest.start st n).run tenantID documentType schedule).numbers.Perm
        ((List.range m).map (fun (i : Nat) => c + 1 + (i : Int))) ∧
      ((Contest.start st n).run tenantID documentType schedule).store
        (tenantID, documentType) = some ⟨c + m, v + m⟩ ∧
      (∀ caller ∈ ((Contest.start st n).run tenantID documentType schedule).callers,
        ∀ result, caller = .done result →
          result.2 = none ∨
            (result = (0, some (.errorf "failed to get next number after 5 retries")) ∧
              maxRetries ≤ m)) ∧
      ((Contest.start st n).run tenantID documentType schedule).callers.length = n ∧
      ((∀ i, i < n → 2 * maxRetries ≤ schedule.count i) →
        ((Contest.start st n).run tenantID documentType schedule).callers.all Caller.isDone =
          true ∧
        min n maxRetries ≤ m) := by
  have hlen0 : (Contest.start st n).callers.length = n := by
    simp [Contest.start]
  have hinit : ContestInv tenantID documentType c v (Contest.start st n) := by
    refine ⟨0, ?_, ?_, ?_, ?_, ?_⟩
    · simpa [Contest.start] using hrow
    · rw [numbers_start]
      exact List.Perm.refl _
    · intro caller hmem a heq
      rw [Contest.start, List.mem_replicate] at hmem
      rw [hmem.2] at heq
      injection heq with h0
      omega
    · intro caller hmem a c1 v1 heq
      rw [Contest.start, List.mem_replicate] at hmem
      rw [hmem.2] at heq
      cases heq
    · intro caller hmem result heq
      rw [Contest.start, List.mem_replicate] at hmem
      rw [hmem.2] at heq
      cases heq
  obtain ⟨⟨m, hstore, hperm, -, -, hdone⟩, hlen⟩ :=
    contestInv_run tenantID documentType c v schedule (Contest.start st n) hc
      (by rw [hlen0]; exact hcn) hv (by rw [hlen0]; exact hvn) hinit
  have hnum : ((Contest.start st n).run tenantID documentType schedule).numbers.length = m := by
    have h1 := hperm.length_eq
    simpa only [List.length_map, List.length_range] using h1
  have hmn : m ≤ n := by
    have h2 := List.length_filterMap_le Caller.number
      ((Contest.start st n).run tenantID documentType schedule).callers
    rw [hlen, hlen0] at h2
    unfold Contest.numbers at hnum
    omega
  refine ⟨m, hmn, hperm, hstore, hdone, hlen.trans hlen0, fun hfair => ?_⟩
  have hall : ∀ caller ∈ ((Contest.start st n).run tenantID documentType schedule).callers,
      caller.isDone = true := by
    intro caller hmem
    obtain ⟨i, hi⟩ := List.mem_iff_getElem?.mp hmem
    obtain ⟨before, hbefore, hle⟩ :=
      run_left tenantID documentType schedule (Contest.start st n) i caller hi
    have hin : i < n := by
      by_contra hnot
      rw [List.getElem?_eq_none (by omega)] at hbefore
      cases hbefore
    have hb : before = .reading 0 := by
      have hmemb : before ∈ (Contest.start st n).callers := List.getElem?_mem hbefore
      rw [Contest.start, List.mem_replicate] at hmemb
      exact hmemb.2
    have hcount := hfair i hin
    apply isDone_of_left
    have h10 : (Caller.reading 0).left = 10 := by decide
    rw [hb, h10] at hle
    simp only [maxRetries] at hcount
    omega
  refine ⟨List.all_eq_true.mpr hall, ?_⟩
  by_cases hex : ∃ caller ∈ ((Contest.start st n).run tenantID documentType schedule).callers,
      caller.number = none
  · obtain ⟨caller, hmem, hno⟩ := hex
    have hd := hall caller hmem
    cases caller with
    | reading a => cases hd
    | updating a c1 v1 => cases hd
    | done result =>
      rcases hdone _ hmem result rfl with h | ⟨-, h⟩
      · obtain ⟨x, e⟩ := result
        simp only at h
        subst h
        simp [Caller.number] at hno
      · exact le_trans (Nat.min_le_right _ _) h
  · have hcnt := numbers_length_of_all
      ((Contest.start st n).run tenantID documentType schedule).callers
      (fun caller hmem hno => hex ⟨caller, hmem, hno⟩)
    unfold Contest.numbers at hnum
    rw [hcnt, hlen, hlen0] at hnum
    rw [← hnum]
    exact Nat.min_le_left _ _

set_option maxRecDepth 100000 in
/-- C13, amended, at 100 calls on the row `(7, 2)` under an interleaving in which call 0
loses its five attempts and every call is then given ten statements. -/
theorem concurrent_numbers_unbroken_witness :
    (sampleSeqWorld.store ("t1", "invoice") = some ⟨7, 2⟩ ∧ IsGoInt 7 ∧
      IsGoInt (7 + (100 : Nat)) ∧ IsGoInt 2 ∧ IsGoInt (2 + (100 : Nat))) ∧
    (∀ i, i < 100 → 2 * maxRetries ≤ (contestSchedule ++ fairSchedule 100).count i) ∧
    ∃ m : Nat, m ≤ 100 ∧
      ((Contest.start sampleSeqWorld.store 100).run "t1" "invoice"
        (contestSchedule ++ fairSchedule 100)).numbers.Perm
        ((List.range m).map (fun (i : Nat) => 7 + 1 + (i : Int))) ∧
      ((Contest.start sampleSeqWorld.store 100).run "t1" "invoice"
        (contestSchedule ++ fairSchedule 100)).store ("t1", "invoice") = some ⟨7 + m, 2 + m⟩ ∧
      (∀ caller ∈ ((Contest.start sampleSeqWorld.store 100).run "t1" "invoice"
          (contestSchedule ++ fairSchedule 100)).callers,
        ∀ result, caller = .done result →
          result.2 = none ∨
            (result = (0, some (.errorf "failed to get next number after 5 retries")) ∧
              maxRetries ≤ m)) ∧
      ((Contest.start sampleSeqWorld.store 100).run "t1" "invoice"
        (contestSchedule ++ fairSchedule 100)).callers.length = 100 ∧
      ((∀ i, i < 100 → 2 * maxRetries ≤ (contestSchedule ++ fairSchedule 100).count i) →
        ((Contest.start sampleSeqWorld.store 100).run "t1" "invoice"
          (contestSchedule ++ fairSchedule 100)).callers.all Caller.isDone = true ∧
        min 100 maxRetries ≤ m) :=
  ⟨⟨by decide, by decide, by decide, by decide, by decide⟩, by decide,
    concurrent_numbers_unbroken "t1" "invoice" sampleSeqWorld.store 7 2 100
      (contestSchedule ++ fairSchedule 100) (by decide) (by decide) (by decide) (by decide)
      (by decide)⟩

/-! ## Claims on the stock gateway client -/

/-- The two conflict messages differ, whatever the bodies: they differ at their 14th
character. -/
theorem conflict_messages_differ (b1 b2 : String) :
    "insufficient stock: " ++ b1 ≠ "insufficient reserved stock: " ++ b2 := by
  intro h
  have h1 := congrArg (fun s : String => s.data[13]?) h
  simp only [String.data_append] at h1
  rw [List.getElem?_append_left (by decide), List.getElem?_append_left (by decide)] at h1
  revert h1
  decide

/-! ## The gateway's answer decides the result of a client call -/

/-- A `ReserveStock` call whose request is created sends it, once, and its result is read off
the gateway's answer. -/
theorem ReserveStock_of_answer {σ : Type} (c : StockClient) (p : Platform σ)
    (tenantID authToken sku : String) (quantity : Int) (reference : String) (w : σ)
    (hreq : p.NewRequest (c.reserveRequest tenantID authToken sku quantity reference).method
      (c.reserveRequest tenantID authToken sku quantity reference).url = none) :
    c.ReserveStock p tenantID authToken sku quantity reference w =
      (StockClient.reserveResult p
          (p.Do (c.reserveRequest tenantID authToken sku quantity reference) w).1,
        [Event.HttpDo (c.reserveRequest tenantID authToken sku quantity reference)
          (p.Do (c.reserveRequest tenantID authToken sku quantity reference) w).1],
        (p.Do (c.reserveRequest tenantID authToken sku quantity reference) w).2) := by
  simp only [StockClient.ReserveStock, hreq]

/-- A `ReleaseStock` call whose request is created sends it, once, and its result is read off
the gateway's answer. -/
theorem ReleaseStock_of_answer {σ : Type} (c : StockClient) (p : Platform σ)
    (tenantID authToken sku : String) (quantity : Int) (reference : String) (w : σ)
    (hreq : p.NewRequest (c.releaseRequest tenantID authToken sku quantity reference).method
      (c.releaseRequest tenantID authToken sku quantity reference).url = none) :
    c.ReleaseStock p tenantID authToken sku quantity reference w =
      (StockClient.releaseResult p
          (p.Do (c.releaseRequest tenantID authToken sku quantity reference) w).1,
        [Event.HttpDo (c.releaseRequest tenantID authToken sku quantity reference)
          (p.Do (c.releaseRequest tenantID authToken sku quantity reference) w).1],
        (p.Do (c.releaseRequest tenantID authToken sku quantity reference) w).2) := by
  simp only [StockClient.ReleaseStock, hreq]

/-- A `ConsumeStock` call whose request is created sends it, once, and its result is read off
the gateway's answer. -/
theorem ConsumeStock_of_answer {σ : Type} (c : StockClient) (p : Platform σ)
    (tenantID authToken sku : String) (quantity : Int) (reference : String) (w : σ)
    (hreq : p.NewRequest (c.consumeRequest tenantID authToken sku quantity reference).method
      (c.consumeRequest tenantID authToken sku quantity reference).url = none) :
    c.ConsumeStock p tenantID authToken sku quantity reference w =
      (StockClient.consumeResult p
          (p.Do (c.consumeRequest tenantID authToken sku quantity reference) w).1,
        [Event.HttpDo (c.consumeRequest tenantID authToken sku quantity reference)
          (p.Do (c.consumeRequest tenantID authToken sku quantity reference) w).1],
        (p.Do (c.consumeRequest tenantID authToken sku quantity reference) w).2) := by
  simp only [StockClient.ConsumeStock, hreq]

/-- A `RevertConsume` call whose request is created sends it, once, and its result is read
off the gateway's answer. -/
theorem RevertConsume_of_answer {σ : Type} (c : StockClient) (p : Platform σ)
    (tenantID authToken sku : String) (quantity : Int) (reference : String) (w : σ)
    (hreq : p.NewRequest
      (c.revertConsumeRequest tenantID authToken sku quantity reference).method
      (c.revertConsumeRequest tenantID authToken sku quantity reference).url = none) :
    c.RevertConsume p tenantID authToken sku quantity reference w =
      (StockClient.revertConsumeResult p
          (p.Do (c.revertConsumeRequest tenantID authToken sku quantity reference) w).1,
        [Event.HttpDo (c.revertConsumeRequest tenantID authToken sku quantity reference)
          (p.Do (c.revertConsumeRequest tenantID authToken sku quantity reference) w).1],
        (p.Do (c.revertConsumeRequest tenantID authToken sku quantity reference) w).2) := by
  simp only [StockClient.RevertConsume, hreq]

/-- A `ValidateStock` call whose request is created sends it, once, and its result is read
off the gateway's answer. -/
theorem ValidateStock_of_answer {σ : Type} (c : StockClient) (p : Platform σ)
    (tenantID authToken sku : String) (quantity : Int) (w : σ)
    (hreq : p.NewRequest (c.availabilityRequest tenantID authToken sku).method
      (c.availabilityRequest tenantID authToken sku).url = none) :
    c.ValidateStock p tenantID authToken sku quantity w =
      (StockClient.validateResult p quantity
          (p.Do (c.availabilityRequest tenantID authToken sku) w).1,
        [Event.HttpDo (c.availabilityRequest tenantID authToken sku)
          (p.Do (c.availabilityRequest tenantID authToken sku) w).1],
        (p.Do (c.availabilityRequest tenantID authToken sku) w).2) := by
  simp only [StockClient.ValidateStock, hreq]

/-- C15: for every body, when the gateway answers the request of a `ReserveStock` call with
the conflict status (409) and that body, the call fails with the error
"insufficient stock: <body>"; when it so answers the request of a `ReleaseStock` or of a
`ConsumeStock` call, the call fails with the error "insufficient reserved stock: <body>". In
each case the call has sent its one request and nothing else. The two kinds are
distinguishable: for every pair of bodies the error of `ReserveStock` differs from the error
of `ReleaseStock` and `ConsumeStock`. -/
theorem conflict_status_errors {σ : Type} (c : StockClient) (p : Platform σ)
    (tenantID authToken sku : String) (quantity : Int) (reference : String) (w : σ)
    (body : String) :
    (p.NewRequest (c.reserveRequest tenantID authToken sku quantity reference).method
        (c.reserveRequest tenantID authToken sku quantity reference).url = none →
      (p.Do (c.reserveRequest tenantID authToken sku quantity reference) w).1 =
        .ok ⟨StatusConflict, .ok body⟩ →
      (c.ReserveStock p tenantID authToken sku quantity reference w).1 =
          .error (.errorf ("insufficient stock: " ++ body)) ∧
        (c.ReserveStock p tenantID authToken sku quantity reference w).2.1 =
          [Event.HttpDo (c.reserveRequest tenantID authToken sku quantity reference)
            (.ok ⟨StatusConflict, .ok body⟩)]) ∧
    (p.NewRequest (c.releaseRequest tenantID authToken sku quantity reference).method
        (c.releaseRequest tenantID authToken sku quantity reference).url = none →
      (p.Do (c.releaseRequest tenantID authToken sku quantity reference) w).1 =
        .ok ⟨StatusConflict, .ok body⟩ →
      (c.ReleaseStock p tenantID authToken sku quantity reference w).1 =
          .error (.errorf ("insufficient reserved stock: " ++ body)) ∧
        (c.ReleaseStock p tenantID authToken sku quantity reference w).2.1 =
          [Event.HttpDo (c.releaseRequest tenantID authToken sku quantity reference)
            (.ok ⟨StatusConflict, .ok body⟩)]) ∧
    (p.NewRequest (c.consumeRequest tenantID authToken sku quantity reference).method
        (c.consumeRequest tenantID authToken sku quantity reference).url = none →
      (p.Do (c.consumeRequest tenantID authToken sku quantity reference) w).1 =
        .ok ⟨StatusConflict, .ok body⟩ →
      (c.ConsumeStock p tenantID authToken sku quantity reference w).1 =
          .error (.errorf ("insufficient reserved stock: " ++ body)) ∧
        (c.ConsumeStock p tenantID authToken sku quantity reference w).2.1 =
          [Event.HttpDo (c.consumeRequest tenantID authToken sku quantity reference)
            (.ok ⟨StatusConflict, .ok body⟩)]) ∧
    (∀ b1 b2 : String,
      GoError.errorf ("insufficient stock: " ++ b1) ≠
        GoError.errorf ("insufficient reserved stock: " ++ b2)) := by
  refine ⟨fun hreq hdo => ?_, fun hreq hdo => ?_, fun hreq hdo => ?_, fun b1 b2 h => ?_⟩
  · rw [ReserveStock_of_answer c p tenantID authToken sku quantity reference w hreq, hdo]
    exact ⟨by simp [StockClient.reserveResult], rfl⟩
  · rw [ReleaseStock_of_answer c p tenantID authToken sku quantity reference w hreq, hdo]
    exact ⟨by simp [StockClient.releaseResult], rfl⟩
  · rw [ConsumeStock_of_answer c p tenantID authToken sku quantity reference w hreq, hdo]
    exact ⟨by simp [StockClient.consumeResult], rfl⟩
  · injection h with h1
    exact conflict_messages_differ b1 b2 h1

/-- C15, at a gateway that answers 409 with the body "none left", for each of the three
calls. -/
theorem conflict_status_errors_witness :
    ((answeringPlatform 409 "none left").NewRequest
        (stubClient.reserveRequest "t1" "tok" "A" 1 "ref").method
        (stubClient.reserveRequest "t1" "tok" "A" 1 "ref").url = none ∧
      ((answeringPlatform 409 "none left").Do (stubClient.reserveRequest "t1" "tok" "A" 1 "ref")
        (sampleWorld OrderStatusCreated [] none)).1 = .ok ⟨StatusConflict, .ok "none left"⟩ ∧
      (answeringPlatform 409 "none left").NewRequest
        (stubClient.releaseRequest "t1" "tok" "A" 1 "ref").method
        (stubClient.releaseRequest "t1" "tok" "A" 1 "ref").url = none ∧
      ((answeringPlatform 409 "none left").Do (stubClient.releaseRequest "t1" "tok" "A" 1 "ref")
        (sampleWorld OrderStatusCreated [] none)).1 = .ok ⟨StatusConflict, .ok "none left"⟩ ∧
      (answeringPlatform 409 "none left").NewRequest
        (stubClient.consumeRequest "t1" "tok" "A" 1 "ref").method
        (stubClient.consumeRequest "t1" "tok" "A" 1 "ref").url = none ∧
      ((answeringPlatform 409 "none left").Do (stubClient.consumeRequest "t1" "tok" "A" 1 "ref")
        (sampleWorld OrderStatusCreated [] none)).1 = .ok ⟨StatusConflict, .ok "none left"⟩) ∧
    (stubClient.ReserveStock (answeringPlatform 409 "none left") "t1" "tok" "A" 1 "ref"
        (sampleWorld OrderStatusCreated [] none)).1 =
      .error (.errorf ("insufficient stock: " ++ "none left")) ∧
    (stubClient.ReleaseStock (answeringPlatform 409 "none left") "t1" "tok" "A" 1 "ref"
        (sampleWorld OrderStatusCreated [] none)).1 =
      .error (.errorf ("insufficient reserved stock: " ++ "none left")) ∧
    (stubClient.ConsumeStock (answeringPlatform 409 "none left") "t1" "tok" "A" 1 "ref"
        (sampleWorld OrderStatusCreated [] none)).1 =
      .error (.errorf ("insufficient reserved stock: " ++ "none left")) :=
  ⟨⟨by decide, by decide, by decide, by decide, by decide, by decide⟩,
    ((conflict_status_errors stubClient (answeringPlatform 409 "none left") "t1" "tok" "A" 1
      "ref" (sampleWorld OrderStatusCreated [] none) "none left").1
        (by decide) (by decide)).1,
    ((conflict_status_errors stubClient (answeringPlatform 409 "none left") "t1" "tok" "A" 1
      "ref" (sampleWorld OrderStatusCreated [] none) "none left").2.1
        (by decide) (by decide)).1,
    ((conflict_status_errors stubClient (answeringPlatform 409 "none left") "t1" "tok" "A" 1
      "ref" (sampleWorld OrderStatusCreated [] none) "none left").2.2.1
        (by decide) (by decide)).1⟩

/-- C16: when the gateway answers the request of a `ReserveStock`, `ReleaseStock` or
`ConsumeStock` call with a status that is neither 200 nor the conflict status 409, and when it
answers the request of a `RevertConsume` or `ValidateStock` call with any status other than
200 (409 included), the call returns no response value and the error
"stock-service returned status <code>: <body>", carrying the status code and the body
unchanged; it has sent its one request and nothing else. -/
theorem upstream_failure_errors {σ : Type} (c : StockClient) (p : Platform σ)
    (tenantID authToken sku : String) (quantity : Int) (reference : String) (w : σ)
    (status : Int) (body : String) (hstatus : status ≠ StatusOK) :
    (status ≠ StatusConflict →
      p.NewRequest (c.reserveRequest tenantID authToken sku quantity reference).method
        (c.reserveRequest tenantID authToken sku quantity reference).url = none →
      (p.Do (c.reserveRequest tenantID authToken sku quantity reference) w).1 =
        .ok ⟨status, .ok body⟩ →
      (c.ReserveStock p tenantID authToken sku quantity reference w).1 =
          .error (.errorf
            ("stock-service returned status " ++ toString status ++ ": " ++ body)) ∧
        (c.ReserveStock p tenantID authToken sku quantity reference w).2.1 =
          [Event.HttpDo (c.reserveRequest tenantID authToken sku quantity reference)
            (.ok ⟨status, .ok body⟩)]) ∧
    (status ≠ StatusConflict →
      p.NewRequest (c.releaseRequest tenantID authToken sku quantity reference).method
        (c.releaseRequest tenantID authToken sku quantity reference).url = none →
      (p.Do (c.releaseRequest tenantID authToken sku quantity reference) w).1 =
        .ok ⟨status, .ok body⟩ →
      (c.ReleaseStock p tenantID authToken sku quantity reference w).1 =
          .error (.errorf
            ("stock-service returned status " ++ toString status ++ ": " ++ body)) ∧
        (c.ReleaseStock p tenantID authToken sku quantity reference w).2.1 =
          [Event.HttpDo (c.releaseRequest tenantID authToken sku quantity reference)
            (.ok ⟨status, .ok body⟩)]) ∧
    (status ≠ StatusConflict →
      p.NewRequest (c.consumeRequest tenantID authToken sku quantity reference).method
        (c.consumeRequest tenantID authToken sku quantity reference).url = none →
      (p.Do (c.consumeRequest tenantID authToken sku quantity reference) w).1 =
        .ok ⟨status, .ok body⟩ →
      (c.ConsumeStock p tenantID authToken sku quantity reference w).1 =
          .error (.errorf
            ("stock-service returned status " ++ toString status ++ ": " ++ body)) ∧
        (c.ConsumeStock p tenantID authToken sku quantity reference w).2.1 =
          [Event.HttpDo (c.consumeRequest tenantID authToken sku quantity reference)
            (.ok ⟨status, .ok body⟩)]) ∧
    (p.NewRequest (c.revertConsumeRequest tenantID authToken sku quantity reference).method
        (c.revertConsumeRequest tenantID authToken sku quantity reference).url = none →
      (p.Do (c.revertConsumeRequest tenantID authToken sku quantity reference) w).1 =
        .ok ⟨status, .ok body⟩ →
      (c.RevertConsume p tenantID authToken sku quantity reference w).1 =
          .error (.errorf
            ("stock-service returned status " ++ toString status ++ ": " ++ body)) ∧
        (c.RevertConsume p tenantID authToken sku quantity reference w).2.1 =
          [Event.HttpDo (c.revertConsumeRequest tenantID authToken sku quantity reference)
            (.ok ⟨status, .ok body⟩)]) ∧
    (p.NewRequest (c.availabilityRequest tenantID authToken sku).method
        (c.availabilityRequest tenantID authToken sku).url = none →
      (p.Do (c.availabilityRequest tenantID authToken sku) w).1 = .ok ⟨status, .ok body⟩ →
      (c.ValidateStock p tenantID authToken sku quantity w).1 =
          (none, false, some (.errorf
            ("stock-service returned status " ++ toString status ++ ": " ++ body))) ∧
        (c.ValidateStock p tenantID authToken sku quantity w).2.1 =
          [Event.HttpDo (c.availabilityRequest tenantID authToken sku)
            (.ok ⟨status, .ok body⟩)]) := by
  refine ⟨fun hc hreq hdo => ?_, fun hc hreq hdo => ?_, fun hc hreq hdo => ?_,
    fun hreq hdo => ?_, fun hreq hdo => ?_⟩
  · rw [ReserveStock_of_answer c p tenantID authToken sku quantity reference w hreq, hdo]
    exact ⟨by simp [StockClient.reserveResult, hstatus, hc], rfl⟩
  · rw [ReleaseStock_of_answer c p tenantID authToken sku quantity reference w hreq, hdo]
    exact ⟨by simp [StockClient.releaseResult, hstatus, hc], rfl⟩
  · rw [ConsumeStock_of_answer c p tenantID authToken sku quantity reference w hreq, hdo]
    exact ⟨by simp [StockClient.consumeResult, hstatus, hc], rfl⟩
  · rw [RevertConsume_of_answer c p tenantID authToken sku quantity reference w hreq, hdo]
    exact ⟨by simp [StockClient.revertConsumeResult, hstatus], rfl⟩
  · rw [ValidateStock_of_answer c p tenantID authToken sku quantity w hreq, hdo]
    exact ⟨by simp [StockClient.validateResult, hstatus], rfl⟩

/-- C16, at a gateway that answers 503 with the body "busy", for each of the five calls, and
at one that answers 409 for `RevertConsume` and `ValidateStock`. -/
theorem upstream_failure_errors_witness :
    ((503 : Int) ≠ StatusOK ∧ (503 : Int) ≠ StatusConflict ∧ (409 : Int) ≠ StatusOK ∧
      ((answeringPlatform 503 "busy").Do (stubClient.reserveRequest "t1" "tok" "A" 1 "ref")
        (sampleWorld OrderStatusCreated [] none)).1 = .ok ⟨503, .ok "busy"⟩ ∧
      ((answeringPlatform 503 "busy").Do (stubClient.availabilityRequest "t1" "tok" "A")
        (sampleWorld OrderStatusCreated [] none)).1 = .ok ⟨503, .ok "busy"⟩ ∧
      ((answeringPlatform 409 "busy").Do (stubClient.revertConsumeRequest "t1" "tok" "A" 1 "ref")
        (sampleWorld OrderStatusCreated [] none)).1 = .ok ⟨409, .ok "busy"⟩) ∧
    (stubClient.ReserveStock (answeringPlatform 503 "busy") "t1" "tok" "A" 1 "ref"
        (sampleWorld OrderStatusCreated [] none)).1 =
      .error (.errorf ("stock-service returned status " ++ toString (503 : Int) ++ ": " ++
        "busy")) ∧
    (stubClient.ReleaseStock (answeringPlatform 503 "busy") "t1" "tok" "A" 1 "ref"
        (sampleWorld OrderStatusCreated [] none)).1 =
      .error (.errorf ("stock-service returned status " ++ toString (503 : Int) ++ ": " ++
        "busy")) ∧
    (stubClient.ConsumeStock (answeringPlatform 503 "busy") "t1" "tok" "A" 1 "ref"
        (sampleWorld OrderStatusCreated [] none)).1 =
      .error (.errorf ("stock-service returned status " ++ toString (503 : Int) ++ ": " ++
        "busy")) ∧
    (stubClient.RevertConsume (answeringPlatform 503 "busy") "t1" "tok" "A" 1 "ref"
        (sampleWorld OrderStatusCreated [] none)).1 =
      .error (.errorf ("stock-service returned status " ++ toString (503 : Int) ++ ": " ++
        "busy")) ∧
    (stubClient.ValidateStock (answeringPlatform 503 "busy") "t1" "tok" "A" 1
        (sampleWorld OrderStatusCreated [] none)).1 =
      (none, false, some (.errorf ("stock-service returned status " ++ toString (503 : Int) ++
        ": " ++ "busy"))) ∧
    (stubClient.RevertConsume (answeringPlatform 409 "busy") "t1" "tok" "A" 1 "ref"
        (sampleWorld OrderStatusCreated [] none)).1 =
      .error (.errorf ("stock-service returned status " ++ toString (409 : Int) ++ ": " ++
        "busy")) ∧
    (stubClient.ValidateStock (answeringPlatform 409 "busy") "t1" "tok" "A" 1
        (sampleWorld OrderStatusCreated [] none)).1 =
      (none, false, some (.errorf ("stock-service returned status " ++ toString (409 : Int) ++
        ": " ++ "busy"))) :=
  ⟨⟨by decide, by decide, by decide, by decide, by decide, by decide⟩,
    ((upstream_failure_errors stubClient (answeringPlatform 503 "busy") "t1" "tok" "A" 1 "ref"
      (sampleWorld OrderStatusCreated [] none) 503 "busy" (by decide)).1
        (by decide) (by decide) (by decide)).1,
    ((upstream_failure_errors stubClient (answeringPlatform 503 "busy") "t1" "tok" "A" 1 "ref"
      (sampleWorld OrderStatusCreated [] none) 503 "busy" (by decide)).2.1
        (by decide) (by decide) (by decide)).1,
    ((upstream_failure_errors stubClient (answeringPlatform 503 "busy") "t1" "tok" "A" 1 "ref"
      (sampleWorld OrderStatusCreated [] none) 503 "busy" (by decide)).2.2.1
        (by decide) (by decide) (by decide)).1,
    ((upstream_failure_errors stubClient (answeringPlatform 503 "busy") "t1" "tok" "A" 1 "ref"
      (sampleWorld OrderStatusCreated [] none) 503 "busy" (by decide)).2.2.2.1
        (by decide) (by decide)).1,
    ((upstream_failure_errors stubClient (answeringPlatform 503 "busy") "t1" "tok" "A" 1 "ref"
      (sampleWorld OrderStatusCreated [] none) 503 "busy" (by decide)).2.2.2.2
        (by decide) (by decide)).1,
    ((upstream_failure_errors stubClient (answeringPlatform 409 "busy") "t1" "tok" "A" 1 "ref"
      (sampleWorld OrderStatusCreated [] none) 409 "busy" (by decide)).2.2.2.1
        (by decide) (by decide)).1,
    ((upstream_failure_errors stubClient (answeringPlatform 409 "busy") "t1" "tok" "A" 1 "ref"
      (sampleWorld OrderStatusCreated [] none) 409 "busy" (by decide)).2.2.2.2
        (by decide) (by decide)).1⟩

/-- A `ReleaseStock` call sends at most its release request. -/
theorem ReleaseStock_requests {σ : Type} (c : StockClient) (p : Platform σ)
    (tenantID authToken sku : String) (quantity : Int) (reference : String) (w : σ) :
    ∀ req ∈ gatewayRequests (c.ReleaseStock p tenantID authToken sku quantity reference w).2.1,
      req = c.releaseRequest tenantID authToken sku quantity reference := by
  simp only [StockClient.ReleaseStock]
  split <;> simp [gatewayRequests]

/-- The release use case passes the client's trace and world on, and classifies the client's
error by its text. -/
theorem releaseExecute_cases {σ : Type} (uc : ReleaseStockUseCase) (p : Platform σ)
    (tenantID authToken : String) (req : ReleaseStockRequest) (w : σ) :
    (uc.Execute p tenantID authToken req w).2 =
        (uc.stockClient.ReleaseStock p tenantID authToken req.SKU req.Quantity req.Reference w).2 ∧
    (∀ e, (uc.stockClient.ReleaseStock p tenantID authToken req.SKU req.Quantity
        req.Reference w).1 = .error e →
      (uc.Execute p tenantID authToken req w).1 =
        .error (if (contains e.Error "insufficient reserved stock" || contains e.Error "409")
            = true then
          .wrapf ("insufficient_reserved_stock: " ++ e.Error) e
        else .wrapf ("error releasing stock: " ++ e.Error) e)) ∧
    (∀ resp, (uc.stockClient.ReleaseStock p tenantID authToken req.SKU req.Quantity
        req.Reference w).1 = .ok resp →
      (uc.Execute p tenantID authToken req w).1 =
        .ok { Released := true, SKU := resp.SKU, Quantity := resp.ReleasedQty,
              Reference := resp.Reference }) := by
  refine ⟨?_, fun e h => ?_, fun resp h => ?_⟩
  · simp only [ReleaseStockUseCase.Execute]
    split
    · split <;> rfl
    · rfl
  · simp only [ReleaseStockUseCase.Execute, h]
    split <;> rfl
  · simp only [ReleaseStockUseCase.Execute, h]

/-- C17 as stated fails: the gateway answers the release request with status 500, not with
the conflict status, and the body "E409"; `Execute` nevertheless returns the
insufficient-reserved-stock error. -/
theorem release_classifies_by_status_counterexample :
    (stubRelease.Execute (answeringPlatform 500 "E409") "t1" "tok" ⟨"A", 1, "ref"⟩
        (sampleWorld OrderStatusCreated [] none)).2.1 =
      [Event.HttpDo (stubRelease.stockClient.releaseRequest "t1" "tok" "A" 1 "ref")
        (.ok ⟨500, .ok "E409"⟩)] ∧
    (500 : Int) ≠ StatusConflict ∧
    (stubRelease.Execute (answeringPlatform 500 "E409") "t1" "tok" ⟨"A", 1, "ref"⟩
        (sampleWorld OrderStatusCreated [] none)).1 =
      .error (.wrapf "insufficient_reserved_stock: stock-service returned status 500: E409"
        (.errorf "stock-service returned status 500: E409")) := by
  decide

/-- C17, amended: when the release call of `ReleaseStockUseCase.Execute` fails with the client
error `e`, `Execute` returns "insufficient_reserved_stock: ..." exactly when the message of
`e` contains "insufficient reserved stock" or contains "409", and "error releasing stock:
..." otherwise, both wrapping `e`. The message of the client's error for a conflict answer
(409) is "insufficient reserved stock: <body>" and contains the phrase for every body; for any
other status than 409 and 200 it is "stock-service returned status <code>: <body>", which is
classified by whether that text contains the phrase or "409". -/
theorem release_classifies_by_message {σ : Type} (uc : ReleaseStockUseCase) (p : Platform σ)
    (tenantID authToken : String) (req : ReleaseStockRequest) (w : σ) (e : GoError)
    (hfail : (uc.stockClient.ReleaseStock p tenantID authToken req.SKU req.Quantity
      req.Reference w).1 = .error e) :
    (uc.Execute p tenantID authToken req w).1 =
      .error (if (contains e.Error "insufficient reserved stock" || contains e.Error "409")
          = true then
        .wrapf ("insufficient_reserved_stock: " ++ e.Error) e
      else .wrapf ("error releasing stock: " ++ e.Error) e) ∧
    (∀ body : String,
      StockClient.releaseResult p (.ok ⟨StatusConflict, .ok body⟩) =
          .error (.errorf ("insufficient reserved stock: " ++ body)) ∧
        contains (GoError.errorf ("insufficient reserved stock: " ++ body)).Error
          "insufficient reserved stock" = true) ∧
    (∀ (status : Int) (body : String), status ≠ StatusConflict → status ≠ StatusOK →
      StockClient.releaseResult p (.ok ⟨status, .ok body⟩) =
        .error (.errorf ("stock-service returned status " ++ toString status ++ ": " ++ body))) :=
  ⟨(releaseExecute_cases uc p tenantID authToken req w).2.1 e hfail,
    fun body => ⟨by simp [StockClient.releaseResult], contains_conflict_message body⟩,
    fun status body h1 h2 => by simp [StockClient.releaseResult, h1, h2]⟩

/-- C17 amended, at a gateway that answers the release request with 409. -/
theorem release_classifies_by_message_witness :
    (stubRelease.stockClient.ReleaseStock (answeringPlatform 409 "none") "t1" "tok"
        (ReleaseStockRequest.mk "A" 1 "ref").SKU (ReleaseStockRequest.mk "A" 1 "ref").Quantity
        (ReleaseStockRequest.mk "A" 1 "ref").Reference
        (sampleWorld OrderStatusCreated [] none)).1 =
      .error (.errorf "insufficient reserved stock: none") ∧
    (stubRelease.Execute (answeringPlatform 409 "none") "t1" "tok" ⟨"A", 1, "ref"⟩
        (sampleWorld OrderStatusCreated [] none)).1 =
      .error (if (contains (GoError.errorf "insufficient reserved stock: none").Error
            "insufficient reserved stock" ||
          contains (GoError.errorf "insufficient reserved stock: none").Error "409") = true then
        .wrapf ("insufficient_reserved_stock: " ++
          (GoError.errorf "insufficient reserved stock: none").Error)
          (.errorf "insufficient reserved stock: none")
      else
        .wrapf ("error releasing stock: " ++
          (GoError.errorf "insufficient reserved stock: none").Error)
          (.errorf "insufficient reserved stock: none")) :=
  ⟨by decide,
    (release_classifies_by_message stubRelease (answeringPlatform 409 "none") "t1" "tok"
      ⟨"A", 1, "ref"⟩ (sampleWorld OrderStatusCreated [] none)
      (.errorf "insufficient reserved stock: none") (by decide)).1⟩

/-- A natural number below `2 ^ 53` is a `float64`. -/
theorem roundFloat64_exact (n : Nat) (h : n < 2 ^ 53) : roundFloat64 n = n := by
  have hshift : float64Shift n = 0 := by
    unfold float64Shift
    rw [List.length_eq_zero, List.filter_eq_nil_iff]
    intro s _
    have h1 : 2 ^ 53 ≤ 2 ^ (53 + s) := Nat.pow_le_pow_right (by decide) (by omega)
    simp only [decide_eq_true_eq, not_le]
    omega
  simp [roundFloat64, hshift]

/-- An `int` of absolute value below `2 ^ 53` converts to `float64` without rounding. -/
theorem float64OfInt_exact (n : Int) (h : n.natAbs < 2 ^ 53) : float64OfInt n = (n : ℚ) := by
  unfold float64OfInt
  rw [roundFloat64_exact _ h]
  by_cases hneg : n < 0
  · rw [if_pos hneg, Nat.cast_natAbs, abs_of_neg hneg]
    push_cast
    ring
  · rw [if_neg hneg, Nat.cast_natAbs, abs_of_nonneg (not_lt.mp hneg)]

/-- C18 as stated fails: for the requested quantity `2 ^ 53 + 1`, which `float64` does not
hold (`float64(2 ^ 53 + 1)` is `2 ^ 53`), and a gateway answering 200 with a snapshot of
`2 ^ 53` available units, `ValidateStock` returns `sufficient = true` although the available
quantity is below the requested one. -/
theorem validateStock_rounds_counterexample :
    IsGoInt (2 ^ 53 + 1) ∧
    (snapshotPlatform (2 ^ 53)).UnmarshalAvailability (snapshotBody (2 ^ 53)) =
      .ok ⟨"A", "A", 2 ^ 53, 0, 2 ^ 53, false, false⟩ ∧
    (stubClient.ValidateStock (snapshotPlatform (2 ^ 53)) "t1" "tok" "A" (2 ^ 53 + 1)
        (sampleWorld OrderStatusCreated [] none)).1 =
      (some ⟨"A", "A", 2 ^ 53, 0, 2 ^ 53, false, false⟩, true, none) ∧
    ¬ ((((2 ^ 53 + 1 : Int) : ℚ)) ≤
      (StockAvailabilityResponse.mk "A" "A" (2 ^ 53) 0 (2 ^ 53) false false).AvailableQuantity) := by
  have hround : roundFloat64 (2 ^ 53) = 2 ^ 53 := by decide
  have hround1 : roundFloat64 (2 ^ 53 + 1 : Int).natAbs = 2 ^ 53 := by decide
  have hdec : (snapshotPlatform (2 ^ 53)).UnmarshalAvailability (snapshotBody (2 ^ 53)) =
      .ok ⟨"A", "A", 2 ^ 53, 0, 2 ^ 53, false, false⟩ := by
    simp only [snapshotPlatform, if_true, hround]
    norm_num
  have hconv : float64OfInt (2 ^ 53 + 1) = 2 ^ 53 := by
    unfold float64OfInt
    rw [if_neg (by decide), hround1]
    norm_num
  refine ⟨by decide, hdec, ?_, by norm_num⟩
  rw [ValidateStock_of_answer stubClient (snapshotPlatform (2 ^ 53)) "t1" "tok" "A" (2 ^ 53 + 1)
    (sampleWorld OrderStatusCreated [] none) rfl]
  have hdo : ((snapshotPlatform (2 ^ 53)).Do (stubClient.availabilityRequest "t1" "tok" "A")
      (sampleWorld OrderStatusCreated [] none)).1 =
      .ok ⟨200, .ok (snapshotBody (2 ^ 53))⟩ := rfl
  simp only [hdo, StockClient.validateResult, hdec, hconv]
  simp [StatusOK]

/-- C18, amended: for every requested quantity, when the gateway answers the availability
request with 200 and a body that decodes to a snapshot, `ValidateStock` returns that snapshot
unchanged, no error, and `sufficient = true` exactly when the snapshot's
`available_quantity` is at least `float64(quantity)`, the quantity rounded to the nearest
`float64`; for a quantity of absolute value below `2 ^ 53`, which `float64` holds exactly,
that is exactly when `available_quantity >= quantity`. Every request `ValidateStock` hands to
the gateway is its `GET .../availability?sku=<sku>` request without a body, and there is at
most one. On every error path it returns no snapshot and `sufficient = false`. -/
theorem validateStock_sufficient {σ : Type} (c : StockClient) (p : Platform σ)
    (tenantID authToken sku : String) (quantity : Int) (w : σ) :
    (∀ body snapshot,
      p.NewRequest (c.availabilityRequest tenantID authToken sku).method
        (c.availabilityRequest tenantID authToken sku).url = none →
      (p.Do (c.availabilityRequest tenantID authToken sku) w).1 =
        .ok ⟨StatusOK, .ok body⟩ →
      p.UnmarshalAvailability body = .ok snapshot →
      (c.ValidateStock p tenantID authToken sku quantity w).1 =
          (some snapshot, decide (float64OfInt quantity ≤ snapshot.AvailableQuantity), none) ∧
        (quantity.natAbs < 2 ^ 53 →
          (c.ValidateStock p tenantID authToken sku quantity w).1 =
            (some snapshot, decide ((quantity : ℚ) ≤ snapshot.AvailableQuantity), none)) ∧
        (c.ValidateStock p tenantID authToken sku quantity w).2.1 =
          [Event.HttpDo (c.availabilityRequest tenantID authToken sku)
            (.ok ⟨StatusOK, .ok body⟩)]) ∧
    (∀ req ∈ gatewayRequests (c.ValidateStock p tenantID authToken sku quantity w).2.1,
      req = c.availabilityRequest tenantID authToken sku ∧ req.method = "GET" ∧
        req.body = none) ∧
    (gatewayRequests (c.ValidateStock p tenantID authToken sku quantity w).2.1).length ≤ 1 ∧
    (∀ err, (c.ValidateStock p tenantID authToken sku quantity w).1.2.2 = some err →
      (c.ValidateStock p tenantID authToken sku quantity w).1.1 = none ∧
        (c.ValidateStock p tenantID authToken sku quantity w).1.2.1 = false) := by
  refine ⟨fun body snapshot hreq hdo hdec => ?_, ?_, ?_, ?_⟩
  · rw [ValidateStock_of_answer c p tenantID authToken sku quantity w hreq, hdo]
    refine ⟨by simp [StockClient.validateResult, hdec], fun hq => ?_, rfl⟩
    simp [StockClient.validateResult, hdec, float64OfInt_exact quantity hq]
  · simp only [StockClient.ValidateStock]
    split
    · simp [gatewayRequests]
    · simp [gatewayRequests, StockClient.availabilityRequest]
  · simp only [StockClient.ValidateStock]
    split <;> simp [gatewayRequests]
  · intro err
    simp only [StockClient.ValidateStock]
    split
    · simp
    · simp only [StockClient.validateResult]
      split
      · simp
      · split
        · simp
        · split
          · simp
          · split <;> simp

/-- C18, amended, at a gateway that answers 200 with the JSON snapshot of 5 available units,
for 3 requested units and for 7. -/
theorem validateStock_sufficient_witness :
    ((snapshotPlatform 5).NewRequest (stubClient.availabilityRequest "t1" "tok" "A").method
        (stubClient.availabilityRequest "t1" "tok" "A").url = none ∧
      ((snapshotPlatform 5).Do (stubClient.availabilityRequest "t1" "tok" "A")
        (sampleWorld OrderStatusCreated [] none)).1 = .ok ⟨StatusOK, .ok (snapshotBody 5)⟩ ∧
      (snapshotPlatform 5).UnmarshalAvailability (snapshotBody 5) =
        .ok ⟨"A", "A", ((roundFloat64 5 : Nat) : ℚ), 0, ((roundFloat64 5 : Nat) : ℚ), false,
          false⟩ ∧
      (3 : Int).natAbs < 2 ^ 53 ∧ (7 : Int).natAbs < 2 ^ 53) ∧
    (stubClient.ValidateStock (snapshotPlatform 5) "t1" "tok" "A" 3
        (sampleWorld OrderStatusCreated [] none)).1 =
      (some ⟨"A", "A", ((roundFloat64 5 : Nat) : ℚ), 0, ((roundFloat64 5 : Nat) : ℚ), false,
          false⟩,
        decide (((3 : Int) : ℚ) ≤ (StockAvailabilityResponse.mk "A" "A"
          ((roundFloat64 5 : Nat) : ℚ) 0 ((roundFloat64 5 : Nat) : ℚ) false
          false).AvailableQuantity), none) ∧
    (stubClient.ValidateStock (snapshotPlatform 5) "t1" "tok" "A" 7
        (sampleWorld OrderStatusCreated [] none)).1 =
      (some ⟨"A", "A", ((roundFloat64 5 : Nat) : ℚ), 0, ((roundFloat64 5 : Nat) : ℚ), false,
          false⟩,
        decide (((7 : Int) : ℚ) ≤ (StockAvailabilityResponse.mk "A" "A"
          ((roundFloat64 5 : Nat) : ℚ) 0 ((roundFloat64 5 : Nat) : ℚ) false
          false).AvailableQuantity), none) ∧
    decide (((3 : Int) : ℚ) ≤ ((roundFloat64 5 : Nat) : ℚ)) = true ∧
    decide (((7 : Int) : ℚ) ≤ ((roundFloat64 5 : Nat) : ℚ)) = false :=
  ⟨⟨rfl, rfl, rfl, by decide, by decide⟩,
    ((validateStock_sufficient stubClient (snapshotPlatform 5) "t1" "tok" "A" 3
      (sampleWorld OrderStatusCreated [] none)).1 (snapshotBody 5) _ rfl rfl rfl).2.1
      (by decide),
    ((validateStock_sufficient stubClient (snapshotPlatform 5) "t1" "tok" "A" 7
      (sampleWorld OrderStatusCreated [] none)).1 (snapshotBody 5) _ rfl rfl rfl).2.1
      (by decide),
    by
      have h : roundFloat64 5 = 5 := by decide
      rw [h]
      norm_num,
    by
      have h : roundFloat64 5 = 5 := by decide
      rw [h]
      norm_num⟩

/-- The reference member of a marshalled stock request. -/
theorem jsonMember_reference (sku : String) (quantity : Int) (reference : String) :
    jsonMember [("sku", .str sku), ("quantity", .num quantity), ("reference", .str reference)]
      "reference" = some (.str reference) := by
  simp [jsonMember, List.find?]

/-- C19: each of `ReserveStock`, `ReleaseStock`, `ConsumeStock` and `RevertConsume` builds a
request whose body has the given sku, quantity and reference; when requests can be created
and the gateway is a stub that answers success echoing the request's reference, each of them
sends exactly that request and returns a response whose `Reference` is the reference passed
in, and `ReleaseStockUseCase.Execute` returns a response with that same reference. -/
theorem reference_round_trip {σ : Type} (c : StockClient) (p : Platform σ)
    (tenantID authToken sku : String) (quantity : Int) (reference : String) (w : σ)
    (hnew : ∀ method url, p.NewRequest method url = none) (hecho : EchoesReference p) :
    ((c.reserveRequest tenantID authToken sku quantity reference).body =
        some [("sku", .str sku), ("quantity", .num quantity), ("reference", .str reference)] ∧
      (c.releaseRequest tenantID authToken sku quantity reference).body =
        some [("sku", .str sku), ("quantity", .num quantity), ("reference", .str reference)] ∧
      (c.consumeRequest tenantID authToken sku quantity reference).body =
        some [("sku", .str sku), ("quantity", .num quantity), ("reference", .str reference)] ∧
      (c.revertConsumeRequest tenantID authToken sku quantity reference).body =
        some [("sku", .str sku), ("quantity", .num quantity), ("reference", .str reference)]) ∧
    (gatewayRequests (c.ReserveStock p tenantID authToken sku quantity reference w).2.1 =
        [c.reserveRequest tenantID authToken sku quantity reference] ∧
      ∃ resp, (c.ReserveStock p tenantID authToken sku quantity reference w).1 = .ok resp ∧
        resp.Reference = reference) ∧
    (gatewayRequests (c.ReleaseStock p tenantID authToken sku quantity reference w).2.1 =
        [c.releaseRequest tenantID authToken sku quantity reference] ∧
      ∃ resp, (c.ReleaseStock p tenantID authToken sku quantity reference w).1 = .ok resp ∧
        resp.Reference = reference) ∧
    (gatewayRequests (c.ConsumeStock p tenantID authToken sku quantity reference w).2.1 =
        [c.consumeRequest tenantID authToken sku quantity reference] ∧
      ∃ resp, (c.ConsumeStock p tenantID authToken sku quantity reference w).1 = .ok resp ∧
        resp.Reference = reference) ∧
    (gatewayRequests (c.RevertConsume p tenantID authToken sku quantity reference w).2.1 =
        [c.revertConsumeRequest tenantID authToken sku quantity reference] ∧
      ∃ resp, (c.RevertConsume p tenantID authToken sku quantity reference w).1 = .ok resp ∧
        resp.Reference = reference) ∧
    (∃ resp, (ReleaseStockUseCase.Execute ⟨c⟩ p tenantID authToken ⟨sku, quantity, reference⟩
        w).1 = .ok resp ∧ resp.Reference = reference) := by
  have hrelease : gatewayRequests
        (c.ReleaseStock p tenantID authToken sku quantity reference w).2.1 =
        [c.releaseRequest tenantID authToken sku quantity reference] ∧
      ∃ resp, (c.ReleaseStock p tenantID authToken sku quantity reference w).1 = .ok resp ∧
        resp.Reference = reference := by
    obtain ⟨body, hdo, -, ⟨x, hx, hr⟩, -, -⟩ :=
      hecho (c.releaseRequest tenantID authToken sku quantity reference) w reference
        (by simp [StockClient.releaseRequest, StockReleaseRequest.marshal, jsonMember_reference])
    simp only [StockClient.ReleaseStock, hnew, hdo, gatewayRequests]
    exact ⟨trivial, x, by simp [StockClient.releaseResult, StatusOK, StatusConflict, hx], hr⟩
  refine ⟨⟨rfl, rfl, rfl, rfl⟩, ?_, hrelease, ?_, ?_, ?_⟩
  · obtain ⟨body, hdo, ⟨x, hx, hr⟩, -, -, -⟩ :=
      hecho (c.reserveRequest tenantID authToken sku quantity reference) w reference
        (by simp [StockClient.reserveRequest, StockReserveRequest.marshal, jsonMember_reference])
    simp only [StockClient.ReserveStock, hnew, hdo, gatewayRequests]
    exact ⟨trivial, x, by simp [StockClient.reserveResult, StatusOK, StatusConflict, hx], hr⟩
  · obtain ⟨body, hdo, -, -, ⟨x, hx, hr⟩, -⟩ :=
      hecho (c.consumeRequest tenantID authToken sku quantity reference) w reference
        (by simp [StockClient.consumeRequest, StockConsumeRequest.marshal, jsonMember_reference])
    simp only [StockClient.ConsumeStock, hnew, hdo, gatewayRequests]
    exact ⟨trivial, x, by simp [StockClient.consumeResult, StatusOK, StatusConflict, hx], hr⟩
  · obtain ⟨body, hdo, -, -, -, ⟨x, hx, hr⟩⟩ :=
      hecho (c.revertConsumeRequest tenantID authToken sku quantity reference) w reference
        (by simp [StockClient.revertConsumeRequest, StockRevertConsumeRequest.marshal,
          jsonMember_reference])
    simp only [StockClient.RevertConsume, hnew, hdo, gatewayRequests]
    exact ⟨trivial, x, by simp [StockClient.revertConsumeResult, StatusOK, hx], hr⟩
  · obtain ⟨-, resp, hresp, hr⟩ := hrelease
    exact ⟨_, (releaseExecute_cases ⟨c⟩ p tenantID authToken ⟨sku, quantity, reference⟩ w).2.2
      resp hresp, hr⟩

/-- The gateway of `echoPlatform` is a stub that echoes the reference. -/
theorem echoPlatform_echoes : EchoesReference echoPlatform := by
  intro req w r h
  refine ⟨r, ?_, ⟨_, rfl, rfl⟩, ⟨_, rfl, rfl⟩, ⟨_, rfl, rfl⟩, ⟨_, rfl, rfl⟩⟩
  simp only [echoPlatform, h]
  rfl

/-- C19, at the reference "order-77/reserve" against the echoing stub. -/
theorem reference_round_trip_witness :
    ((∀ method url, echoPlatform.NewRequest method url = none) ∧ EchoesReference echoPlatform) ∧
    (gatewayRequests (stubClient.ReserveStock echoPlatform "t1" "tok" "A" 2 "order-77/reserve"
        (sampleWorld OrderStatusCreated [] none)).2.1 =
        [stubClient.reserveRequest "t1" "tok" "A" 2 "order-77/reserve"] ∧
      ∃ resp, (stubClient.ReserveStock echoPlatform "t1" "tok" "A" 2 "order-77/reserve"
        (sampleWorld OrderStatusCreated [] none)).1 = .ok resp ∧
        resp.Reference = "order-77/reserve") :=
  ⟨⟨fun _ _ => rfl, echoPlatform_echoes⟩,
    (reference_round_trip stubClient echoPlatform "t1" "tok" "A" 2 "order-77/reserve"
      (sampleWorld OrderStatusCreated [] none) (fun _ _ => rfl) echoPlatform_echoes).2.1⟩

/-! ## The error policy of the confirm use case -/

/-- C20, the run that breaks it: the repository's `FindByID` fails with the storage error
"connection refused", which is not a not-found condition; `Execute` returns `ErrOrderNotFound`,
whose unwrap chain does not reach the storage error, so that error is discarded. -/
theorem confirm_discards_storage_error :
    (brokenConfirm.Execute stubPlatform ⟨false⟩ "t1" "tok" "o1" "ref"
        (sampleWorld OrderStatusCreated [("A", 1), ("B", 1)] none)).2.1 =
      [Event.FindByID "o1" "t1" (.error (.errorf "connection refused"))] ∧
    (brokenConfirm.Execute stubPlatform ⟨false⟩ "t1" "tok" "o1" "ref"
        (sampleWorld OrderStatusCreated [("A", 1), ("B", 1)] none)).1 =
      .error ErrOrderNotFound ∧
    ErrOrderNotFound.Is (.errorf "connection refused") = false ∧
    ErrOrderNotFound.Unwrap = none ∧
    ErrOrderNotFound.Error = "order not found" := by
  decide

/-! ## Claims on the order item -/

/-- C22: `NewOrderItem(orderID, sku, quantity)` returns an item exactly when `sku` is not
empty and `quantity > 0`; the item it returns carries the given order id, SKU and quantity
(and a freshly drawn item id), so its SKU is not empty and its quantity is positive. With an
empty `sku` it returns `ErrSKURequired` and no item, whatever the quantity; with a non-empty
`sku` and `quantity <= 0` it returns `ErrInvalidQuantity` and no item. The two errors are
distinct values, and a failing call draws no id. -/
theorem newOrderItem_valid_iff {σ : Type} (p : Platform σ) (orderID sku : String)
    (quantity : Int) (w : σ) :
    ((∃ item, (NewOrderItem p orderID sku quantity w).1 = .ok item) ↔
      (sku ≠ "" ∧ 0 < quantity)) ∧
    (∀ item, (NewOrderItem p orderID sku quantity w).1 = .ok item →
      item.OrderID = orderID ∧ item.SKU = sku ∧ item.Quantity = quantity ∧
      item.ItemID = (p.uuidNew w).1 ∧ item.SKU ≠ "" ∧ 0 < item.Quantity) ∧
    (sku = "" → NewOrderItem p orderID sku quantity w = (.error ErrSKURequired, w)) ∧
    (sku ≠ "" → quantity ≤ 0 →
      NewOrderItem p orderID sku quantity w = (.error ErrInvalidQuantity, w)) ∧
    ErrSKURequired ≠ ErrInvalidQuantity := by
  by_cases hs : sku = ""
  · refine ⟨?_, ?_, ?_, ?_, by decide⟩
    · simp [NewOrderItem, hs]
    · intro item h
      simp [NewOrderItem, hs] at h
    · intro _
      simp [NewOrderItem, hs]
    · intro h
      exact absurd hs h
  · by_cases hq : quantity ≤ 0
    · refine ⟨?_, ?_, ?_, ?_, by decide⟩
      · simp [NewOrderItem, hs, hq]
      · intro item h
        simp [NewOrderItem, hs, hq] at h
      · intro h
        exact absurd h hs
      · intro _ _
        simp [NewOrderItem, hs, hq]
    · refine ⟨?_, ?_, ?_, ?_, by decide⟩
      · simp [NewOrderItem, hs, hq]
        omega
      · intro item h
        simp only [NewOrderItem, hs, hq, if_false] at h
        cases h
        exact ⟨rfl, rfl, rfl, rfl, hs, not_le.mp hq⟩
      · intro h
        exact absurd h hs
      · intro _ h
        exact absurd h hq

/-- C22, at an empty SKU together with an invalid quantity: the error is `ErrSKURequired`. -/
theorem newOrderItem_valid_iff_witness :
    ("" : String) = "" ∧
    NewOrderItem stubPlatform "o1" "" 0 (sampleWorld OrderStatusCreated [] none) =
      (.error ErrSKURequired, sampleWorld OrderStatusCreated [] none) :=
  ⟨rfl, (newOrderItem_valid_iff stubPlatform "o1" "" 0
    (sampleWorld OrderStatusCreated [] none)).2.2.1 rfl⟩

/-! ## The caller's context in the confirm use case -/

/-- C21 as stated fails: with a context that is already cancelled when the first item is
about to be processed, and a repository that has answered `FindByID` with the CREATED order
of items `A` and `B`, `Execute` still issues the `ConsumeStock` call for `A` and the one for
`B`, both succeed and take the reserved units, and `Execute` returns the confirmed order, not
an error. -/
theorem confirm_checks_context_counterexample :
    (⟨true⟩ : Context).cancelled = true ∧
    consumeCalls (stubConfirm.Execute stubPlatform ⟨true⟩ "t1" "tok" "o1" "ref"
        (sampleWorld OrderStatusCreated [("A", 1), ("B", 1)] none)).2.1 =
      [("t1", "tok", "A", 1, "ref"), ("t1", "tok", "B", 1, "ref")] ∧
    consumeOutcomes (stubConfirm.Execute stubPlatform ⟨true⟩ "t1" "tok" "o1" "ref"
        (sampleWorld OrderStatusCreated [("A", 1), ("B", 1)] none)).2.1 = [true, true] ∧
    (stubConfirm.Execute stubPlatform ⟨true⟩ "t1" "tok" "o1" "ref"
        (sampleWorld OrderStatusCreated [("A", 1), ("B", 1)] none)).2.2.reserved =
      [("A", 0), ("B", 0)] ∧
    (stubConfirm.Execute stubPlatform ⟨true⟩ "t1" "tok" "o1" "ref"
        (sampleWorld OrderStatusCreated [("A", 1), ("B", 1)] none)).1 =
      .ok { sampleOrder OrderStatusCreated with Status := OrderStatusConfirmed } := by
  decide

/-- C21, amended: `Execute` does not look at the caller's context, it only hands it to the
repository's `FindByID` and `Confirm`; `ConsumeStock` takes no context. For any two contexts
(one cancelled, one not) to which `FindByID` gives the same answer, the two runs issue the
same `ConsumeStock` calls with the same outcomes and send the same requests to the gateway;
if `Confirm` too answers both alike, the two runs are the same run: same result, same
calls, same final state. -/
theorem confirm_context_reaches_repository_only {σ : Type} (uc : ConfirmOrderUseCase σ)
    (p : Platform σ) (ctx ctx' : Context) (tenantID authToken orderID reference : String)
    (w : σ)
    (hfind : uc.orderRepo.FindByID ctx orderID tenantID w =
      uc.orderRepo.FindByID ctx' orderID tenantID w) :
    consumeCalls (uc.Execute p ctx tenantID authToken orderID reference w).2.1 =
      consumeCalls (uc.Execute p ctx' tenantID authToken orderID reference w).2.1 ∧
    consumeOutcomes (uc.Execute p ctx tenantID authToken orderID reference w).2.1 =
      consumeOutcomes (uc.Execute p ctx' tenantID authToken orderID reference w).2.1 ∧
    gatewayRequests (uc.Execute p ctx tenantID authToken orderID reference w).2.1 =
      gatewayRequests (uc.Execute p ctx' tenantID authToken orderID reference w).2.1 ∧
    ((∀ w', uc.orderRepo.Confirm ctx orderID tenantID w' =
        uc.orderRepo.Confirm ctx' orderID tenantID w') →
      uc.Execute p ctx tenantID authToken orderID reference w =
        uc.Execute p ctx' tenantID authToken orderID reference w) := by
  refine ⟨?_, ?_, ?_, ?_⟩
  · simp only [ConfirmOrderUseCase.Execute, hfind]
    split
    · rfl
    · split
      · rfl
      · split
        · rfl
        · split <;> split <;> simp [consumeCalls, consumeCalls_append]
  · simp only [ConfirmOrderUseCase.Execute, hfind]
    split
    · rfl
    · split
      · rfl
      · split
        · rfl
        · split <;> split <;> simp [consumeOutcomes, consumeOutcomes_append]
  · simp only [ConfirmOrderUseCase.Execute, hfind]
    split
    · rfl
    · split
      · rfl
      · split
        · rfl
        · split <;> split <;> simp [gatewayRequests, gatewayRequests_append]
  · intro hconfirm
    simp only [ConfirmOrderUseCase.Execute, hfind, hconfirm]

/-- C21, amended, at a cancelled and a live context over the in-memory repository. -/
theorem confirm_context_reaches_repository_only_witness :
    stubRepo.FindByID ⟨true⟩ "o1" "t1"
        (sampleWorld OrderStatusCreated [("A", 1), ("B", 0)] none) =
      stubRepo.FindByID ⟨false⟩ "o1" "t1"
        (sampleWorld OrderStatusCreated [("A", 1), ("B", 0)] none) ∧
    consumeCalls (stubConfirm.Execute stubPlatform ⟨true⟩ "t1" "tok" "o1" "ref"
        (sampleWorld OrderStatusCreated [("A", 1), ("B", 0)] none)).2.1 =
      consumeCalls (stubConfirm.Execute stubPlatform ⟨false⟩ "t1" "tok" "o1" "ref"
        (sampleWorld OrderStatusCreated [("A", 1), ("B", 0)] none)).2.1 :=
  ⟨rfl, (confirm_context_reaches_repository_only stubConfirm stubPlatform ⟨true⟩ ⟨false⟩
    "t1" "tok" "o1" "ref" (sampleWorld OrderStatusCreated [("A", 1), ("B", 0)] none) rfl).1⟩

/-! ## Claims on list requests and pagination -/

open criteria

/-- Reducing a factor to Go's `int` before the product is reduced changes nothing. -/
theorem wrapInt_wrapInt_mul (a b : Int) : wrapInt (wrapInt a * b) = wrapInt (a * b) := by
  unfold wrapInt
  have h : (a + 2 ^ 63) % 2 ^ 64 - 2 ^ 63 = a - 2 ^ 64 * ((a + 2 ^ 63) / 2 ^ 64) := by
    have := Int.emod_add_ediv (a + 2 ^ 63) (2 ^ 64)
    omega
  rw [h]
  have h2 : (a - 2 ^ 64 * ((a + 2 ^ 63) / 2 ^ 64)) * b + 2 ^ 63 =
      (a * b + 2 ^ 63) + 2 ^ 64 * (-((a + 2 ^ 63) / 2 ^ 64) * b) := by ring
  rw [h2, Int.add_mul_emod_self_left]

/-- The product of an index that is not negative and a page size from 1 to 100, when it fits
Go's `int`, is what the code computes for it. -/
theorem offset_of_fits (a L : Int) (ha : 0 ≤ a) (hL : 1 ≤ L) (hfits : a * L ≤ maxInt) :
    wrapInt (wrapInt a * L) = a * L := by
  rw [wrapInt_wrapInt_mul]
  apply wrapInt_of_isGoInt
  refine ⟨?_, hfits⟩
  have h0 : 0 ≤ a * L := mul_nonneg ha (by omega)
  have hm : minInt ≤ 0 := by decide
  omega

/-- The upper-case form keeps the number of code points. -/
theorem ToUpper_length (upper : Char → Char) (s : String) :
    (ToUpper upper s).length = s.length := by
  show (s.data.map upper).length = s.data.length
  exact List.length_map _ _

/-- The limit and the offset `ToCriteria` yields: the page size brought into 1..100, and the
product of the page index and that size, reduced to Go's `int`. -/
theorem ToCriteria_limit_offset (upper : Char → Char) (r : BaseListRequest) :
    (r.ToCriteria upper).Limit =
      some (if r.PageSize < 1 then 10 else if 100 < r.PageSize then 100 else r.PageSize) ∧
    (r.ToCriteria upper).Offset =
      some (wrapInt ((max r.Page 1 - 1) *
        (if r.PageSize < 1 then 10 else if 100 < r.PageSize then 100 else r.PageSize))) := by
  have hlim : (if (if r.PageSize < 1 then 10 else r.PageSize) > 100 then 100
      else (if r.PageSize < 1 then 10 else r.PageSize)) =
      if r.PageSize < 1 then 10 else if 100 < r.PageSize then 100 else r.PageSize := by
    split_ifs <;> omega
  have hpage : (if r.Page < 1 then 1 else r.Page) = max r.Page 1 := by
    split_ifs <;> omega
  constructor
  · simp only [BaseListRequest.ToCriteria, NewCriteria, hlim]
  · simp only [BaseListRequest.ToCriteria, NewCriteria, hlim, hpage, wrapInt_wrapInt_mul]

/-- C23 as stated fails: for the request with `page = 2 ^ 62 + 1` and `page_size = 10` the
product `(page - 1) * 10` does not fit Go's `int`, and the offset `ToCriteria` yields is
`-(2 ^ 63)`, which is negative. -/
theorem toCriteria_offset_counterexample :
    IsGoInt (2 ^ 62 + 1) ∧
    ((BaseListRequest.mk (2 ^ 62 + 1) 10 "" "").ToCriteria Char.toUpper).Limit = some 10 ∧
    ((BaseListRequest.mk (2 ^ 62 + 1) 10 "" "").ToCriteria Char.toUpper).Offset =
      some (-(2 ^ 63)) ∧
    ¬ (∃ off, ((BaseListRequest.mk (2 ^ 62 + 1) 10 "" "").ToCriteria Char.toUpper).Offset =
        some off ∧ off = (max (2 ^ 62 + 1) 1 - 1) * 10 ∧ 0 ≤ off) := by
  refine ⟨by decide, by decide, by decide, ?_⟩
  rintro ⟨off, h, -, h0⟩
  have h2 : ((BaseListRequest.mk (2 ^ 62 + 1) 10 "" "").ToCriteria Char.toUpper).Offset =
      some (-(2 ^ 63)) := by decide
  rw [h2] at h
  cases h
  exact absurd h0 (by decide)

/-- C23, amended: for every request, with `L` the page size brought into 1..100 (10 for a
`page_size` below 1, 100 for one above 100, `page_size` itself otherwise), `ToCriteria` yields
the limit `L`, no filter, the order field `sort_by` (`created_at` when it is empty), the
direction `ASC` exactly when the upper-case form of `sort_dir` is `ASC` and `DESC` otherwise,
and as offset the product `(max(page, 1) - 1) * L` reduced to Go's 64 bit `int`. Whenever that
product fits Go's `int`, the offset is the product itself, is not negative and is a multiple
of `L`. `NewPagination(page, page_size)` has the same `Limit` and the same `Offset`. -/
theorem toCriteria_translation (upper : Char → Char) (r : BaseListRequest) (L : Int)
    (hL : L = if r.PageSize < 1 then 10 else if 100 < r.PageSize then 100 else r.PageSize) :
    (r.ToCriteria upper).Limit = some L ∧ 1 ≤ L ∧ L ≤ 100 ∧
    (r.ToCriteria upper).Offset = some (wrapInt ((max r.Page 1 - 1) * L)) ∧
    ((max r.Page 1 - 1) * L ≤ maxInt →
      ∃ off, (r.ToCriteria upper).Offset = some off ∧ off = (max r.Page 1 - 1) * L ∧
        0 ≤ off ∧ L ∣ off) ∧
    (r.ToCriteria upper).Filters.Items = [] ∧
    (r.ToCriteria upper).Order.Field = (if r.SortBy = "" then "created_at" else r.SortBy) ∧
    ((r.ToCriteria upper).Order.OrderType = ASC ↔ ToUpper upper r.SortDir = "ASC") ∧
    (ToUpper upper r.SortDir ≠ "ASC" → (r.ToCriteria upper).Order.OrderType = DESC) ∧
    (NewPagination r.Page r.PageSize).Limit = L ∧
    (r.ToCriteria upper).Offset = some (NewPagination r.Page r.PageSize).Offset := by
  have hL1 : 1 ≤ L := by
    rw [hL]
    split_ifs <;> omega
  have hL100 : L ≤ 100 := by
    rw [hL]
    split_ifs <;> omega
  have hlim : (if (if r.PageSize < 1 then 10 else r.PageSize) > 100 then 100
      else (if r.PageSize < 1 then 10 else r.PageSize)) = L := by
    rw [hL]
    split_ifs <;> omega
  have hpage : (if r.Page < 1 then 1 else r.Page) = max r.Page 1 := by
    split_ifs <;> omega
  have hoff : (r.ToCriteria upper).Offset = some (wrapInt ((max r.Page 1 - 1) * L)) := by
    rw [(ToCriteria_limit_offset upper r).2, ← hL]
  have hdir : (r.ToCriteria upper).Order.OrderType =
      if ToUpper upper r.SortDir = "ASC" then ASC else DESC := by
    simp only [BaseListRequest.ToCriteria, NewCriteria, criteria.NewOrder]
    by_cases he : r.SortDir = ""
    · have h1 : ToUpper upper "DESC" ≠ "ASC" := by
        intro h
        have := congrArg String.length h
        rw [ToUpper_length] at this
        exact absurd this (by decide)
      have h2 : ToUpper upper "" ≠ "ASC" := by
        intro h
        have := congrArg String.length h
        rw [ToUpper_length] at this
        exact absurd this (by decide)
      simp [he, h1, h2]
    · simp [he]
  refine ⟨?_, hL1, hL100, hoff, ?_, ?_, ?_, ?_, ?_, ?_, ?_⟩
  · rw [(ToCriteria_limit_offset upper r).1, ← hL]
  · intro hfits
    refine ⟨(max r.Page 1 - 1) * L, ?_, rfl, mul_nonneg (by omega) (by omega),
      Dvd.intro_left _ rfl⟩
    rw [hoff, ← wrapInt_wrapInt_mul, offset_of_fits _ _ (by omega) hL1 hfits]
  · simp [BaseListRequest.ToCriteria, NewCriteria, NewFilters]
  · simp [BaseListRequest.ToCriteria, NewCriteria, criteria.NewOrder]
  · rw [hdir]
    by_cases h : ToUpper upper r.SortDir = "ASC"
    · simp [h]
    · simp only [h, if_false, iff_false]
      decide
  · intro h
    rw [hdir, if_neg h]
  · simp only [NewPagination, hlim]
  · rw [hoff]
    simp only [NewPagination, hlim, hpage, wrapInt_wrapInt_mul]

/-- C23, amended, at page 3 of size 20 sorted by `sku`, direction written `aSc`. -/
theorem toCriteria_translation_witness :
    ((20 : Int) = if (BaseListRequest.mk 3 20 "sku" "aSc").PageSize < 1 then 10
      else if 100 < (BaseListRequest.mk 3 20 "sku" "aSc").PageSize then 100
      else (BaseListRequest.mk 3 20 "sku" "aSc").PageSize) ∧
    (max (BaseListRequest.mk 3 20 "sku" "aSc").Page 1 - 1) * 20 ≤ maxInt ∧
    ∃ off, ((BaseListRequest.mk 3 20 "sku" "aSc").ToCriteria Char.toUpper).Offset = some off ∧
      off = (max (BaseListRequest.mk 3 20 "sku" "aSc").Page 1 - 1) * 20 ∧ 0 ≤ off ∧ 20 ∣ off :=
  ⟨by decide, by decide,
    (toCriteria_translation Char.toUpper (BaseListRequest.mk 3 20 "sku" "aSc") 20
      (by decide)).2.2.2.2.1 (by decide)⟩

/-! ## Lemmas on `float64` rounding -/

/-- The spacing of the `float64` values around a positive `x` of exponent at most 52 divides
one: its inverse is a positive integer. -/
theorem float64_spacing (e : Int) (he : e ≤ 52) :
    ∃ P : Int, 0 < P ∧ (P : ℚ) * (2 : ℚ) ^ (e - 52) = 1 := by
  refine ⟨2 ^ (52 - e).toNat, by positivity, ?_⟩
  have h1 : (((2 : Int) ^ (52 - e).toNat : Int) : ℚ) = (2 : ℚ) ^ (52 - e) := by
    push_cast
    rw [← zpow_natCast]
    congr 1
    omega
  rw [h1, ← zpow_add₀ (by norm_num : (2 : ℚ) ≠ 0)]
  simp

/-- Rounding a positive `x` of exponent at most 52 does not pass an integer above `x`. -/
theorem float64Round_le_int (x : ℚ) (hx : 0 < x) (he : Int.log 2 x ≤ 52) (C : Int)
    (hC : x ≤ C) : float64Round x ≤ C := by
  obtain ⟨P, hP0, hP⟩ := float64_spacing (Int.log 2 x) he
  have hulp : (0 : ℚ) < (2 : ℚ) ^ (Int.log 2 x - 52) := by positivity
  have hm : x / (2 : ℚ) ^ (Int.log 2 x - 52) = x * P := by
    field_simp
    rw [mul_assoc, hP, mul_one]
  have hPq : (0 : ℚ) < (P : ℚ) := by exact_mod_cast hP0
  have hmC : x * P ≤ ((C * P : Int) : ℚ) := by
    push_cast
    exact mul_le_mul_of_nonneg_right hC hPq.le
  have hq : (⌊x * (P : ℚ)⌋ : ℚ) ≤ x * P := Int.floor_le _
  have hCeq : (C : ℚ) = ((C * P : Int) : ℚ) * (2 : ℚ) ^ (Int.log 2 x - 52) := by
    push_cast
    rw [mul_assoc, hP, mul_one]
  unfold float64Round
  rw [if_neg hx.ne', abs_of_pos hx]
  simp only [if_neg (not_lt.mpr hx.le), hm]
  rw [hCeq]
  apply mul_le_mul_of_nonneg_right _ hulp.le
  split_ifs with hc
  · have hrest : (0 : ℚ) < x * P - ⌊x * (P : ℚ)⌋ := by
      rcases hc with h | ⟨h, -⟩
      · linarith
      · rw [h]
        norm_num
    have hlt : (⌊x * (P : ℚ)⌋ : ℚ) < ((C * P : Int) : ℚ) := by linarith
    have hlt2 : ⌊x * (P : ℚ)⌋ < C * P := by exact_mod_cast hlt
    have hle : ⌊x * (P : ℚ)⌋ + 1 ≤ C * P := by omega
    exact_mod_cast hle
  · have hle : (⌊x * (P : ℚ)⌋ : ℚ) ≤ ((C * P : Int) : ℚ) := le_trans hq hmC
    exact hle

/-- Rounding a positive `x` of exponent at most 52 stays above an integer that `x` exceeds
by more than half the spacing of the `float64` values around `x`. -/
theorem int_lt_float64Round (x : ℚ) (hx : 0 < x) (he : Int.log 2 x ≤ 52) (N : Int)
    (hgap : (2 : ℚ) ^ (Int.log 2 x - 53) < x - N) : (N : ℚ) < float64Round x := by
  obtain ⟨P, hP0, hP⟩ := float64_spacing (Int.log 2 x) he
  have hulp : (0 : ℚ) < (2 : ℚ) ^ (Int.log 2 x - 52) := by positivity
  have hm : x / (2 : ℚ) ^ (Int.log 2 x - 52) = x * P := by
    field_simp
    rw [mul_assoc, hP, mul_one]
  have hPq : (0 : ℚ) < (P : ℚ) := by exact_mod_cast hP0
  have hhalf : (2 : ℚ) ^ (Int.log 2 x - 53) * P = 1 / 2 := by
    have h1 : (2 : ℚ) ^ (Int.log 2 x - 53) = (2 : ℚ) ^ (Int.log 2 x - 52) * (1 / 2) := by
      rw [show Int.log 2 x - 53 = (Int.log 2 x - 52) + (-1) by ring,
        zpow_add₀ (by norm_num : (2 : ℚ) ≠ 0)]
      norm_num
    rw [h1, mul_right_comm, mul_comm _ (P : ℚ), hP, one_mul]
  have hrest : 1 / 2 < x * P - ((N * P : Int) : ℚ) := by
    push_cast
    have := mul_lt_mul_of_pos_right hgap hPq
    rw [hhalf] at this
    linarith
  have hNq : N * P ≤ ⌊x * (P : ℚ)⌋ := by
    rw [Int.le_floor]
    linarith
  have hNeq : (N : ℚ) = ((N * P : Int) : ℚ) * (2 : ℚ) ^ (Int.log 2 x - 52) := by
    push_cast
    rw [mul_assoc, hP, mul_one]
  unfold float64Round
  rw [if_neg hx.ne', abs_of_pos hx]
  simp only [if_neg (not_lt.mpr hx.le), hm]
  rw [hNeq]
  apply mul_lt_mul_of_pos_right _ hulp
  split_ifs with hc
  · have hle : N * P < ⌊x * (P : ℚ)⌋ + 1 := by omega
    exact_mod_cast hle
  · have hne : N * P ≠ ⌊x * (P : ℚ)⌋ := by
      intro heq
      apply hc
      left
      rw [← heq]
      exact hrest
    have hlt : N * P < ⌊x * (P : ℚ)⌋ := lt_of_le_of_ne hNq hne
    exact_mod_cast hlt

/-- Dividing a count below `2 ^ 53` by a positive size in `float64` and rounding the quotient
up gives the same integer as rounding the exact quotient up. -/
theorem ceil_float64Round_div (t s : Int) (ht0 : 0 ≤ t) (ht : t < 2 ^ 53) (hs : 1 ≤ s) :
    ⌈float64Round ((t : ℚ) / (s : ℚ))⌉ = ⌈(t : ℚ) / (s : ℚ)⌉ := by
  rcases eq_or_lt_of_le ht0 with h0 | hpos
  · subst h0
    simp [float64Round]
  · have hsq : (0 : ℚ) < (s : ℚ) := by exact_mod_cast (by omega : 0 < s)
    have hs1 : (1 : ℚ) ≤ (s : ℚ) := by exact_mod_cast hs
    have htpos : (0 : ℚ) < (t : ℚ) := by exact_mod_cast hpos
    have hx : (0 : ℚ) < (t : ℚ) / (s : ℚ) := div_pos htpos hsq
    have hlow : (2 : ℚ) ^ Int.log 2 ((t : ℚ) / (s : ℚ)) ≤ (t : ℚ) / (s : ℚ) := by
      simpa using Int.zpow_log_le_self (b := 2) (by norm_num) hx
    have hxt : (t : ℚ) / (s : ℚ) ≤ (t : ℚ) := div_le_self htpos.le hs1
    have htq : (t : ℚ) < (2 : ℚ) ^ (53 : Int) := by
      have h1 : (t : ℚ) < ((2 ^ 53 : Int) : ℚ) := by exact_mod_cast ht
      have h2 : ((2 ^ 53 : Int) : ℚ) = (2 : ℚ) ^ (53 : Int) := by norm_num
      rwa [h2] at h1
    have he : Int.log 2 ((t : ℚ) / (s : ℚ)) ≤ 52 := by
      have h1 : (2 : ℚ) ^ Int.log 2 ((t : ℚ) / (s : ℚ)) < (2 : ℚ) ^ (53 : Int) :=
        lt_of_le_of_lt hlow (lt_of_le_of_lt hxt htq)
      have h2 := (zpow_lt_zpow_iff_right₀ (by norm_num : (1 : ℚ) < 2)).mp h1
      omega
    rw [Int.ceil_eq_iff]
    constructor
    · have hlt : ((⌈(t : ℚ) / (s : ℚ)⌉ - 1 : Int) : ℚ) < (t : ℚ) / (s : ℚ) := by
        rw [← Int.lt_ceil]
        omega
      have hone : ((⌈(t : ℚ) / (s : ℚ)⌉ - 1) * s + 1 : Int) ≤ t := by
        have h1 : ((⌈(t : ℚ) / (s : ℚ)⌉ - 1 : Int) : ℚ) * s < t := by
          rwa [lt_div_iff₀ hsq] at hlt
        have h2 : (⌈(t : ℚ) / (s : ℚ)⌉ - 1) * s < t := by exact_mod_cast h1
        omega
      have hgap1 : 1 / (s : ℚ) ≤ (t : ℚ) / (s : ℚ) - ((⌈(t : ℚ) / (s : ℚ)⌉ - 1 : Int) : ℚ) := by
        have h1 : (((⌈(t : ℚ) / (s : ℚ)⌉ - 1) * s + 1 : Int) : ℚ) ≤ (t : ℚ) := by
          exact_mod_cast hone
        rw [div_sub' _ _ _ hsq.ne']
        apply div_le_div_of_nonneg_right _ hsq.le
        push_cast at h1 ⊢
        linarith
      have hsmall : (2 : ℚ) ^ (Int.log 2 ((t : ℚ) / (s : ℚ)) - 53) < 1 / (s : ℚ) := by
        rw [lt_div_iff₀ hsq, zpow_sub₀ (by norm_num : (2 : ℚ) ≠ 0), div_mul_eq_mul_div,
          div_lt_one (by positivity)]
        have h1 : (2 : ℚ) ^ Int.log 2 ((t : ℚ) / (s : ℚ)) * s ≤ (t : ℚ) := by
          rwa [le_div_iff₀ hsq] at hlow
        exact lt_of_le_of_lt h1 htq
      have := int_lt_float64Round _ hx he (⌈(t : ℚ) / (s : ℚ)⌉ - 1) (lt_of_lt_of_le hsmall hgap1)
      push_cast at this
      exact this
    · exact float64Round_le_int _ hx he _ (Int.le_ceil _)

/-- A `float64` holding an integer within Go's `int` converts to that integer. -/
theorem intOfFloat64_intCast (z : Int) (h : IsGoInt z) : intOfFloat64 (z : ℚ) = z := by
  unfold intOfFloat64
  by_cases h0 : (0 : ℚ) ≤ (z : ℚ)
  · simp only [if_pos h0, Int.floor_intCast, if_pos h]
  · simp only [if_neg h0, Int.ceil_intCast, if_pos h]

/-- For a count from 0 to below `2 ^ 53` and a limit from 1 to below `2 ^ 53`,
`GetTotalPagesFromLimit` is the exact quotient rounded up. -/
theorem GetTotalPagesFromLimit_eq_ceil (t s : Int) (ht0 : 0 ≤ t) (ht : t < 2 ^ 53)
    (hs : 1 ≤ s) (hs2 : s < 2 ^ 53) :
    criteria.GetTotalPagesFromLimit t s = ⌈(t : ℚ) / (s : ℚ)⌉ := by
  have h1 : float64OfInt t = (t : ℚ) := float64OfInt_exact t (by omega)
  have h2 : float64OfInt s = (s : ℚ) := float64OfInt_exact s (by omega)
  have hne : s ≠ 0 := by omega
  have hquot : (0 : ℚ) ≤ (t : ℚ) / (s : ℚ) :=
    div_nonneg (by exact_mod_cast ht0) (by exact_mod_cast (by omega : (0 : Int) ≤ s))
  have hnn : 0 ≤ ⌈(t : ℚ) / (s : ℚ)⌉ := Int.ceil_nonneg hquot
  have hle : ⌈(t : ℚ) / (s : ℚ)⌉ ≤ t := by
    rw [Int.ceil_le]
    exact div_le_self (by exact_mod_cast ht0) (by exact_mod_cast hs)
  have hgo : IsGoInt ⌈(t : ℚ) / (s : ℚ)⌉ := by
    unfold IsGoInt minInt maxInt
    constructor <;> omega
  simp only [criteria.GetTotalPagesFromLimit, if_neg hne, float64Div, mathCeil, h1, h2,
    ceil_float64Round_div t s ht0 ht hs]
  exact intOfFloat64_intCast _ hgo

/-- The page `GetPageFromOffset` reads back from the offset of page `p`. -/
theorem GetPageFromOffset_of_page (p s : Int) (hp : 1 ≤ p) (hpmax : p ≤ maxInt) (hs : 1 ≤ s) :
    GetPageFromOffset ((p - 1) * s) s = p := by
  have hs0 : s ≠ 0 := by omega
  have h1 : wrapInt (p - 1) = p - 1 :=
    wrapInt_of_isGoInt _ ⟨by have : minInt ≤ 0 := by decide
                             omega, by omega⟩
  have h2 : wrapInt p = p :=
    wrapInt_of_isGoInt _ ⟨by have : minInt ≤ 0 := by decide
                             omega, hpmax⟩
  simp only [GetPageFromOffset, if_neg hs0, Int.mul_tdiv_cancel _ hs0, h1]
  rw [show p - 1 + 1 = p by ring, h2]

set_option maxRecDepth 4000 in
/-- C24 as stated fails, in two ways. For page `2 ^ 62 + 1` of size 10 the offset does not
fit Go's `int` and the response reports a negative page instead of the requested one. For
page 1 of size 1 and a total count of `2 ^ 53 + 1`, which `float64` cannot hold, the response
reports `2 ^ 53` pages, and `2 ^ 53` pages of size 1 do not hold `2 ^ 53 + 1` items. -/
theorem listResponse_round_trip_counterexample :
    (1 ≤ (2 ^ 62 + 1 : Int) ∧ IsGoInt (2 ^ 62 + 1) ∧
      (NewListResponse ([] : List Nat) 0
        ((BaseListRequest.mk (2 ^ 62 + 1) 10 "" "").ToCriteria Char.toUpper)).Page =
        -922337203685477579 ∧
      (NewListResponse ([] : List Nat) 0
        ((BaseListRequest.mk (2 ^ 62 + 1) 10 "" "").ToCriteria Char.toUpper)).Page ≠
        2 ^ 62 + 1) ∧
    (IsGoInt (2 ^ 53 + 1) ∧
      (NewListResponse ([] : List Nat) (2 ^ 53 + 1)
        ((BaseListRequest.mk 1 1 "" "").ToCriteria Char.toUpper)).TotalPages = 2 ^ 53 ∧
      ¬ ((2 ^ 53 + 1 : Int) ≤ (NewListResponse ([] : List Nat) (2 ^ 53 + 1)
        ((BaseListRequest.mk 1 1 "" "").ToCriteria Char.toUpper)).TotalPages * 1)) := by
  have hpage : (NewListResponse ([] : List Nat) 0
      ((BaseListRequest.mk (2 ^ 62 + 1) 10 "" "").ToCriteria Char.toUpper)).Page =
      -922337203685477579 := by decide
  have hconv : float64OfInt (2 ^ 53 + 1) = (2 : ℚ) ^ (53 : Int) := by
    have h : roundFloat64 (2 ^ 53 + 1 : Int).natAbs = 2 ^ 53 := by decide
    unfold float64OfInt
    rw [if_neg (by decide), h]
    norm_num
  have hone : float64OfInt 1 = 1 := by
    rw [float64OfInt_exact 1 (by decide)]
    norm_num
  have hround : float64Round ((2 : ℚ) ^ (53 : Int)) = (2 : ℚ) ^ (53 : Int) := by
    have hpos : (0 : ℚ) < (2 : ℚ) ^ (53 : Int) := by positivity
    have hlog : Int.log 2 ((2 : ℚ) ^ (53 : Int)) = 53 := by
      have := Int.log_zpow (R := ℚ) (b := 2) (by norm_num) 53
      simpa using this
    have hm : (2 : ℚ) ^ (53 : Int) / (2 : ℚ) ^ ((53 : Int) - 52) = ((2 ^ 52 : Int) : ℚ) := by
      norm_num
    unfold float64Round
    rw [if_neg hpos.ne', abs_of_pos hpos]
    simp only [if_neg (not_lt.mpr hpos.le), hlog, hm, Int.floor_intCast, sub_self]
    norm_num
  have htotal : (NewListResponse ([] : List Nat) (2 ^ 53 + 1)
      ((BaseListRequest.mk 1 1 "" "").ToCriteria Char.toUpper)).TotalPages = 2 ^ 53 := by
    have hlim : ((BaseListRequest.mk 1 1 "" "").ToCriteria Char.toUpper).Limit = some 1 := by
      decide
    have hceil : ⌈(2 : ℚ) ^ (53 : Int)⌉ = 2 ^ 53 := by
      have h : (2 : ℚ) ^ (53 : Int) = ((2 ^ 53 : Int) : ℚ) := by norm_num
      rw [h, Int.ceil_intCast]
    simp only [NewListResponse, hlim, GetTotalPagesFromLimit, float64Div, mathCeil, hconv,
      hone, div_one, hround, hceil]
    rw [if_neg (by decide)]
    exact intOfFloat64_intCast _ (by decide)
  refine ⟨⟨by decide, by decide, hpage, ?_⟩, by decide, htotal, ?_⟩
  · rw [hpage]
    decide
  · rw [htotal]
    decide

/-- C24, amended: for a page `p` from 1 up, a page size `s` from 1 to 100 with
`(p - 1) * s` within Go's `int`, any items and a total count `t` from 0 to below `2 ^ 53`
(the counts `float64` holds exactly), the response `NewListResponse` builds for the criteria
of the request with page `p` and page size `s` reports `Page = p`, `PageSize = s` and as
`TotalPages` the least `n ≥ 0` with `n * s ≥ t`; it carries the items and the count
unchanged. -/
theorem listResponse_round_trip {α : Type} (upper : Char → Char) (p s t : Int)
    (sortBy sortDir : String) (items : List α)
    (hp : 1 ≤ p) (hpmax : p ≤ maxInt) (hs : 1 ≤ s) (hs100 : s ≤ 100)
    (hfits : (p - 1) * s ≤ maxInt) (ht0 : 0 ≤ t) (ht : t < 2 ^ 53) :
    (NewListResponse items t ((BaseListRequest.mk p s sortBy sortDir).ToCriteria upper)).Page
      = p ∧
    (NewListResponse items t
      ((BaseListRequest.mk p s sortBy sortDir).ToCriteria upper)).PageSize = s ∧
    0 ≤ (NewListResponse items t
      ((BaseListRequest.mk p s sortBy sortDir).ToCriteria upper)).TotalPages ∧
    t ≤ (NewListResponse items t
      ((BaseListRequest.mk p s sortBy sortDir).ToCriteria upper)).TotalPages * s ∧
    (∀ n : Int, 0 ≤ n → t ≤ n * s →
      (NewListResponse items t
        ((BaseListRequest.mk p s sortBy sortDir).ToCriteria upper)).TotalPages ≤ n) ∧
    (NewListResponse items t
      ((BaseListRequest.mk p s sortBy sortDir).ToCriteria upper)).Items = items ∧
    (NewListResponse items t
      ((BaseListRequest.mk p s sortBy sortDir).ToCriteria upper)).TotalCount = t := by
  obtain ⟨hlim, hoff⟩ := ToCriteria_limit_offset upper (BaseListRequest.mk p s sortBy sortDir)
  have hsize : (if s < 1 then 10 else if 100 < s then 100 else s) = s := by
    split_ifs <;> omega
  have hmax : max p 1 = p := by omega
  simp only [hsize, hmax] at hlim hoff
  rw [← wrapInt_wrapInt_mul, offset_of_fits _ _ (by omega) hs hfits] at hoff
  have hsq : (0 : ℚ) < (s : ℚ) := by exact_mod_cast (by omega : 0 < s)
  have htotal := GetTotalPagesFromLimit_eq_ceil t s ht0 ht hs (by omega)
  have hquot : (0 : ℚ) ≤ (t : ℚ) / (s : ℚ) := div_nonneg (by exact_mod_cast ht0) hsq.le
  simp only [NewListResponse, hlim, hoff, GetPageFromOffset_of_page p s hp hpmax hs, htotal]
  refine ⟨trivial, trivial, Int.ceil_nonneg hquot, ?_, ?_, trivial, trivial⟩
  · have h1 : (t : ℚ) / (s : ℚ) ≤ (⌈(t : ℚ) / (s : ℚ)⌉ : ℚ) := Int.le_ceil _
    rw [div_le_iff₀ hsq] at h1
    exact_mod_cast h1
  · intro n _ hn
    rw [Int.ceil_le, div_le_iff₀ hsq]
    exact_mod_cast hn

/-- C24, amended, at page 3 of size 10 over 25 items. -/
theorem listResponse_round_trip_witness :
    ((1 : Int) ≤ 3 ∧ (3 : Int) ≤ maxInt ∧ (1 : Int) ≤ 10 ∧ (10 : Int) ≤ 100 ∧
      ((3 : Int) - 1) * 10 ≤ maxInt ∧ (0 : Int) ≤ 25 ∧ (25 : Int) < 2 ^ 53) ∧
    (NewListResponse [21, 22, 23, 24, 25] 25
      ((BaseListRequest.mk 3 10 "" "").ToCriteria Char.toUpper)).Page = 3 ∧
    (NewListResponse [21, 22, 23, 24, 25] 25
      ((BaseListRequest.mk 3 10 "" "").ToCriteria Char.toUpper)).PageSize = 10 ∧
    (25 : Int) ≤ (NewListResponse [21, 22, 23, 24, 25] 25
      ((BaseListRequest.mk 3 10 "" "").ToCriteria Char.toUpper)).TotalPages * 10 ∧
    (NewListResponse [21, 22, 23, 24, 25] 25
      ((BaseListRequest.mk 3 10 "" "").ToCriteria Char.toUpper)).TotalPages ≤ 3 :=
  have h := listResponse_round_trip Char.toUpper 3 10 25 "" "" [21, 22, 23, 24, 25]
    (by decide) (by decide) (by decide) (by decide) (by decide) (by decide) (by decide)
  ⟨⟨by decide, by decide, by decide, by decide, by decide, by decide, by decide⟩,
    h.1, h.2.1, h.2.2.2.1, h.2.2.2.2.1 3 (by decide) (by decide)⟩

/-! ## Claims on the criteria builder -/

/-- The method `AddFilter` leaves the page and the page size alone. -/
theorem AddFilter_pagination (b : CriteriaBuilder) (field operator : String) (value : Any) :
    (b.AddFilter field operator value).page = b.page ∧
    (b.AddFilter field operator value).pageSize = b.pageSize := by
  unfold CriteriaBuilder.AddFilter
  split <;> exact ⟨rfl, rfl⟩

/-- The method `FromURLValues` either keeps the page or sets it to a parsed value above 0, and either
keeps the page size or sets it to a parsed value from 1 to 100. -/
theorem FromURLValues_pagination (upper : Char → Char) (b : CriteriaBuilder) (values : Values) :
    ((b.FromURLValues upper values).page = b.page ∨
      (Atoi (values.Get "page") = .ok (b.FromURLValues upper values).page ∧
        0 < (b.FromURLValues upper values).page)) ∧
    ((b.FromURLValues upper values).pageSize = b.pageSize ∨
      (Atoi (values.Get "page_size") = .ok (b.FromURLValues upper values).pageSize ∧
        0 < (b.FromURLValues upper values).pageSize ∧
        (b.FromURLValues upper values).pageSize ≤ 100)) := by
  have hpage : (b.FromURLValues upper values).page =
      (if values.Get "page" ≠ "" then
        match Atoi (values.Get "page") with
        | .ok p => if p > 0 then p else b.page
        | .error _ => b.page
      else b.page) := by
    rcases hA : Atoi (values.Get "page") with e | p <;>
      rcases hB : Atoi (values.Get "page_size") with e2 | ps <;>
      simp only [CriteriaBuilder.FromURLValues, hA, hB, apply_ite CriteriaBuilder.page, ite_self]
  have hsize : (b.FromURLValues upper values).pageSize =
      (if values.Get "page_size" ≠ "" then
        match Atoi (values.Get "page_size") with
        | .ok ps => if ps > 0 ∧ ps ≤ 100 then ps else b.pageSize
        | .error _ => b.pageSize
      else b.pageSize) := by
    rcases hA : Atoi (values.Get "page") with e | p <;>
      rcases hB : Atoi (values.Get "page_size") with e2 | ps <;>
      simp only [CriteriaBuilder.FromURLValues, hA, hB, apply_ite CriteriaBuilder.pageSize,
        ite_self]
  constructor
  · rw [hpage]
    split
    · split
      · rename_i p hp
        split
        · right
          exact ⟨hp, by assumption⟩
        · left
          rfl
      · left
        rfl
    · left
      rfl
  · rw [hsize]
    split
    · split
      · rename_i ps hps
        split
        · rename_i hr
          right
          exact ⟨hps, hr.1, hr.2⟩
        · left
          rfl
      · left
        rfl
    · left
      rfl

/-- One call keeps the page at 1 or above and the page size from 1 to 100. -/
theorem call_keeps_pagination (upper : Char → Char) (uuidParse : String → Bool)
    (b : CriteriaBuilder) (c : BuilderCall)
    (h : 1 ≤ b.page ∧ 1 ≤ b.pageSize ∧ b.pageSize ≤ 100) :
    1 ≤ (b.call upper uuidParse c).page ∧ 1 ≤ (b.call upper uuidParse c).pageSize ∧
      (b.call upper uuidParse c).pageSize ≤ 100 := by
  cases c with
  | FromURLValues values =>
    obtain ⟨hp, hs⟩ := FromURLValues_pagination upper b values
    simp only [CriteriaBuilder.call]
    refine ⟨?_, ?_, ?_⟩
    · rcases hp with hp | ⟨-, hp⟩
      · rw [hp]
        exact h.1
      · omega
    · rcases hs with hs | ⟨-, hs, -⟩
      · rw [hs]
        exact h.2.1
      · omega
    · rcases hs with hs | ⟨-, -, hs⟩
      · rw [hs]
        exact h.2.2
      · exact hs
  | SetPagination page pageSize =>
    simp only [CriteriaBuilder.call, CriteriaBuilder.SetPagination]
    split_ifs <;> refine ⟨?_, ?_, ?_⟩ <;> (try simp only []) <;> omega
  | _ =>
    simp only [CriteriaBuilder.call, CriteriaBuilder.AddEqualFilter,
      CriteriaBuilder.AddNotEqualFilter, CriteriaBuilder.AddLikeFilter,
      CriteriaBuilder.AddGreaterThanFilter, CriteriaBuilder.AddGreaterThanOrEqualFilter,
      CriteriaBuilder.AddLessThanFilter, CriteriaBuilder.AddLessThanOrEqualFilter,
      CriteriaBuilder.AddInFilter, CriteriaBuilder.AddUUIDFilter, CriteriaBuilder.AddBoolFilter,
      CriteriaBuilder.AddArrayContainsFilter, CriteriaBuilder.SetOrder]
    repeat' split
    all_goals first
      | exact h
      | (rw [(AddFilter_pagination _ _ _ _).1, (AddFilter_pagination _ _ _ _).2]
         exact h)

/-- Every sequence of calls keeps the page at 1 or above and the page size from 1 to 100. -/
theorem calls_keep_pagination (upper : Char → Char) (uuidParse : String → Bool)
    (cs : List BuilderCall) :
    ∀ b : CriteriaBuilder, (1 ≤ b.page ∧ 1 ≤ b.pageSize ∧ b.pageSize ≤ 100) →
      1 ≤ (b.calls upper uuidParse cs).page ∧ 1 ≤ (b.calls upper uuidParse cs).pageSize ∧
        (b.calls upper uuidParse cs).pageSize ≤ 100 := by
  induction cs with
  | nil =>
    intro b h
    exact h
  | cons c rest ih =>
    intro b h
    exact ih (b.call upper uuidParse c) (call_keeps_pagination upper uuidParse b c h)

set_option maxRecDepth 4000 in
/-- C25 as stated fails: after `SetPagination(2 ^ 62 + 1, 10)` on a new builder, and equally
after `FromURLValues` with `page=4611686018427387905`, the page is `2 ^ 62 + 1` and the page
size 10, the product `(page - 1) * 10` does not fit Go's `int`, and the offset of the
criteria `Build` returns is `-(2 ^ 63)`: negative, and not `(page - 1) * limit`. -/
theorem builder_offset_counterexample :
    ((NewCriteriaBuilder.calls Char.toUpper (fun _ => true)
        [BuilderCall.SetPagination (2 ^ 62 + 1) 10]).Build).Limit = some 10 ∧
    ((NewCriteriaBuilder.calls Char.toUpper (fun _ => true)
        [BuilderCall.SetPagination (2 ^ 62 + 1) 10]).Build).Offset = some (-(2 ^ 63)) ∧
    (NewCriteriaBuilder.calls Char.toUpper (fun _ => true)
        [BuilderCall.FromURLValues [("page", ["4611686018427387905"])]]).page = 2 ^ 62 + 1 ∧
    ((NewCriteriaBuilder.calls Char.toUpper (fun _ => true)
        [BuilderCall.FromURLValues [("page", ["4611686018427387905"])]]).Build).Offset =
      some (-(2 ^ 63)) ∧
    ¬ (∃ off, ((NewCriteriaBuilder.calls Char.toUpper (fun _ => true)
        [BuilderCall.SetPagination (2 ^ 62 + 1) 10]).Build).Offset = some off ∧
      off = ((2 ^ 62 + 1 : Int) - 1) * 10 ∧ 0 ≤ off) := by
  refine ⟨by decide, by decide, by decide, by decide, ?_⟩
  rintro ⟨off, h, -, h0⟩
  have h2 : ((NewCriteriaBuilder.calls Char.toUpper (fun _ => true)
      [BuilderCall.SetPagination (2 ^ 62 + 1) 10]).Build).Offset = some (-(2 ^ 63)) := by
    decide
  rw [h2] at h
  cases h
  exact absurd h0 (by decide)

/-- C25, amended: from `NewCriteriaBuilder` through every sequence of `FromURLValues`,
`SetPagination`, `SetOrder` and filter calls with arbitrary arguments the builder has
`page >= 1` and `1 <= pageSize <= 100`, so the criteria `Build` returns has the limit
`pageSize`, in 1..100, and as offset the product `(page - 1) * pageSize` reduced to Go's
64 bit `int`; whenever that product fits Go's `int` the offset is the product itself and is
not negative. A `SetPagination` with a page of 0 or below keeps the page, one with a page size
outside 1..100 keeps the page size; a `FromURLValues` whose `page` does not parse to a number
above 0 keeps the page, one whose `page_size` does not parse to a number in 1..100 keeps the
page size. -/
theorem builder_keeps_pagination (upper : Char → Char) (uuidParse : String → Bool)
    (cs : List BuilderCall) :
    1 ≤ (NewCriteriaBuilder.calls upper uuidParse cs).page ∧
    1 ≤ (NewCriteriaBuilder.calls upper uuidParse cs).pageSize ∧
    (NewCriteriaBuilder.calls upper uuidParse cs).pageSize ≤ 100 ∧
    ((NewCriteriaBuilder.calls upper uuidParse cs).Build).Limit =
      some (NewCriteriaBuilder.calls upper uuidParse cs).pageSize ∧
    ((NewCriteriaBuilder.calls upper uuidParse cs).Build).Offset =
      some (wrapInt (((NewCriteriaBuilder.calls upper uuidParse cs).page - 1) *
        (NewCriteriaBuilder.calls upper uuidParse cs).pageSize)) ∧
    (((NewCriteriaBuilder.calls upper uuidParse cs).page - 1) *
        (NewCriteriaBuilder.calls upper uuidParse cs).pageSize ≤ maxInt →
      ∃ off, ((NewCriteriaBuilder.calls upper uuidParse cs).Build).Offset = some off ∧
        off = ((NewCriteriaBuilder.calls upper uuidParse cs).page - 1) *
          (NewCriteriaBuilder.calls upper uuidParse cs).pageSize ∧ 0 ≤ off) ∧
    (∀ (b : CriteriaBuilder) (page pageSize : Int), page ≤ 0 →
      (b.SetPagination page pageSize).page = b.page) ∧
    (∀ (b : CriteriaBuilder) (page pageSize : Int), pageSize ≤ 0 ∨ 100 < pageSize →
      (b.SetPagination page pageSize).pageSize = b.pageSize) ∧
    (∀ (b : CriteriaBuilder) (values : Values),
      (∀ p, Atoi (values.Get "page") = .ok p → p ≤ 0) →
      (b.FromURLValues upper values).page = b.page) ∧
    (∀ (b : CriteriaBuilder) (values : Values),
      (∀ ps, Atoi (values.Get "page_size") = .ok ps → ps ≤ 0 ∨ 100 < ps) →
      (b.FromURLValues upper values).pageSize = b.pageSize) := by
  obtain ⟨hp, hs1, hs100⟩ := calls_keep_pagination upper uuidParse cs NewCriteriaBuilder
    (by decide)
  have hoff : ((NewCriteriaBuilder.calls upper uuidParse cs).Build).Offset =
      some (wrapInt (((NewCriteriaBuilder.calls upper uuidParse cs).page - 1) *
        (NewCriteriaBuilder.calls upper uuidParse cs).pageSize)) := by
    simp only [CriteriaBuilder.Build, NewCriteria, wrapInt_wrapInt_mul]
  refine ⟨hp, hs1, hs100, rfl, hoff, ?_, ?_, ?_, ?_, ?_⟩
  · intro hfits
    refine ⟨_, ?_, rfl, mul_nonneg (by omega) (by omega)⟩
    rw [hoff, ← wrapInt_wrapInt_mul, offset_of_fits _ _ (by omega) hs1 hfits]
  · intro b page pageSize h
    simp only [CriteriaBuilder.SetPagination]
    split_ifs <;> first | rfl | omega
  · intro b page pageSize h
    simp only [CriteriaBuilder.SetPagination]
    split_ifs <;> first | rfl | omega
  · intro b values h
    rcases (FromURLValues_pagination upper b values).1 with h1 | ⟨h1, h2⟩
    · exact h1
    · have := h _ h1
      omega
  · intro b values h
    rcases (FromURLValues_pagination upper b values).2 with h1 | ⟨h1, h2, h3⟩
    · exact h1
    · have := h _ h1
      omega

/-- C25, amended, at a builder fed the query `page=4&page_size=50`, then a page size out of
range, then a filter: the offset of the built criteria is `(4 - 1) * 50`. -/
theorem builder_keeps_pagination_witness :
    ((NewCriteriaBuilder.calls Char.toUpper (fun _ => true)
        [BuilderCall.FromURLValues [("page", ["4"]), ("page_size", ["50"])],
          BuilderCall.SetPagination 0 500,
          BuilderCall.AddLikeFilter "sku" (Any.str "ab")]).page - 1) *
      (NewCriteriaBuilder.calls Char.toUpper (fun _ => true)
        [BuilderCall.FromURLValues [("page", ["4"]), ("page_size", ["50"])],
          BuilderCall.SetPagination 0 500,
          BuilderCall.AddLikeFilter "sku" (Any.str "ab")]).pageSize ≤ maxInt ∧
    ∃ off, ((NewCriteriaBuilder.calls Char.toUpper (fun _ => true)
        [BuilderCall.FromURLValues [("page", ["4"]), ("page_size", ["50"])],
          BuilderCall.SetPagination 0 500,
          BuilderCall.AddLikeFilter "sku" (Any.str "ab")]).Build).Offset = some off ∧
      off = ((NewCriteriaBuilder.calls Char.toUpper (fun _ => true)
        [BuilderCall.FromURLValues [("page", ["4"]), ("page_size", ["50"])],
          BuilderCall.SetPagination 0 500,
          BuilderCall.AddLikeFilter "sku" (Any.str "ab")]).page - 1) *
        (NewCriteriaBuilder.calls Char.toUpper (fun _ => true)
          [BuilderCall.FromURLValues [("page", ["4"]), ("page_size", ["50"])],
            BuilderCall.SetPagination 0 500,
            BuilderCall.AddLikeFilter "sku" (Any.str "ab")]).pageSize ∧ 0 ≤ off :=
  ⟨by decide,
    (builder_keeps_pagination Char.toUpper (fun _ => true)
      [BuilderCall.FromURLValues [("page", ["4"]), ("page_size", ["50"])],
        BuilderCall.SetPagination 0 500,
        BuilderCall.AddLikeFilter "sku" (Any.str "ab")]).2.2.2.2.2.1 (by decide)⟩

end OrderService
